import Mathlib

/-!
OpenMW rendering glue: equipment compositor, sky manager, editor camera controllers.

Shallow embedding of
* apps/openmw/mwrender/npcanimation.cpp  (namespace MWRender, class NpcAnimation),
* apps/openmw/mwrender/sky.cpp           (namespace MWRender, sky classes),
* apps/opencs/view/render/cameracontroller.cpp (namespace CSVRender).

Conventions of the embedding.
* Member functions become functions on the object state; a function that both
  mutates and returns gives a pair (result, new state).
* C++ float and double values are exact rationals.
* A pointer to an Ogre entity is a natural number, 0 being the null pointer.
* The part tables int mPartslots[27] and int mPartPriorities[27] are total
  functions on the index; the source only ever indexes them with part types
  0..26 and the theorems are about those indices.
-/

/-! ## Values of the scene-graph toolkit -/

namespace osg

/-- The vectors osg::Vec3f and osg::Vec3d, with rational components. -/
structure Vec3 where
  x : ℚ
  y : ℚ
  z : ℚ
deriving DecidableEq

namespace Vec3

/-- Sum of two vectors. -/
def add (a b : Vec3) : Vec3 := ⟨a.x + b.x, a.y + b.y, a.z + b.z⟩

/-- Difference of two vectors. -/
def sub (a b : Vec3) : Vec3 := ⟨a.x - b.x, a.y - b.y, a.z - b.z⟩

/-- Product of a vector and a number (operator* of a vector and a double). -/
def scale (a : Vec3) (k : ℚ) : Vec3 := ⟨a.x * k, a.y * k, a.z * k⟩

/-- Dot product (operator* of two vectors). -/
def dot (a b : Vec3) : ℚ := a.x * b.x + a.y * b.y + a.z * b.z

/-- Cross product (operator^ of two vectors). -/
def cross (a b : Vec3) : Vec3 :=
  ⟨a.y * b.z - a.z * b.y, a.z * b.x - a.x * b.z, a.x * b.y - a.y * b.x⟩

end Vec3

/-- The box osg::BoundingBox with its two corners. -/
structure BoundingBox where
  _min : Vec3
  _max : Vec3
deriving DecidableEq

namespace BoundingBox

/-- BoundingBox::valid: the maximum is not below the minimum on any axis. -/
def valid (b : BoundingBox) : Bool :=
  decide (b._max.x ≥ b._min.x) && decide (b._max.y ≥ b._min.y) && decide (b._max.z ≥ b._min.z)

/-- BoundingBox::set(xmin, ymin, zmin, xmax, ymax, zmax). -/
def set (xmin ymin zmin xmax ymax zmax : ℚ) : BoundingBox :=
  ⟨⟨xmin, ymin, zmin⟩, ⟨xmax, ymax, zmax⟩⟩

/-- BoundingBox::center: (min + max) * 0.5. -/
def center (b : BoundingBox) : Vec3 := (b._min.add b._max).scale (1 / 2)

/-- BoundingBox::corner(pos): bit 0 of pos selects the x of the maximum, bit 1
the y, bit 2 the z. -/
def corner (b : BoundingBox) (pos : Nat) : Vec3 :=
  ⟨if pos % 2 = 1 then b._max.x else b._min.x,
   if (pos / 2) % 2 = 1 then b._max.y else b._min.y,
   if (pos / 4) % 2 = 1 then b._max.z else b._min.z⟩

end BoundingBox

/-- A rotation osg::Quat, kept as the way it was built: the default
constructor, makeRotate(from, to), or the constructor from an angle and an
axis. -/
inductive Quat where
  | identity
  | makeRotate (src dst : Vec3)
  | angleAxis (angle : ℚ) (axis : Vec3)
deriving DecidableEq

/-- What the sky manager reads and writes of an osg::PositionAttitudeTransform:
the node mask and the attitude. -/
structure PositionAttitudeTransform where
  nodeMask : Nat
  attitude : Quat
deriving DecidableEq

/-- The vector osg::Vec4f, also used for colours (x, y, z, w are r, g, b, a). -/
structure Vec4 where
  x : ℚ
  y : ℚ
  z : ℚ
  w : ℚ
deriving DecidableEq, Repr

/-- What the sky manager reads and writes of a plain osg::Node: its node mask. -/
structure Node where
  nodeMask : Nat
deriving DecidableEq, Repr

/-- The node mask ~0 of an unsigned int: every bit set. -/
def maskAll : Nat := 4294967295

/-- The function osg::DegreesToRadians: the angle times PI / 180, where PI is
the constant osg::PI. -/
def DegreesToRadians (PI : ℚ) (angle : ℚ) : ℚ := angle * (PI / 180)

end osg

namespace MWRender

/-! ## ESM::PartReferenceType, numbered as in the comments of npcanimation.cpp -/

abbrev PRT_Head : Nat := 0
abbrev PRT_Hair : Nat := 1
abbrev PRT_Neck : Nat := 2
abbrev PRT_Cuirass : Nat := 3
abbrev PRT_Groin : Nat := 4
abbrev PRT_Skirt : Nat := 5
abbrev PRT_RHand : Nat := 6
abbrev PRT_LHand : Nat := 7
abbrev PRT_RWrist : Nat := 8
abbrev PRT_LWrist : Nat := 9
abbrev PRT_Shield : Nat := 10
abbrev PRT_RForearm : Nat := 11
abbrev PRT_LForearm : Nat := 12
abbrev PRT_RUpperarm : Nat := 13
abbrev PRT_LUpperarm : Nat := 14
abbrev PRT_RFoot : Nat := 15
abbrev PRT_LFoot : Nat := 16
abbrev PRT_RAnkle : Nat := 17
abbrev PRT_LAnkle : Nat := 18
abbrev PRT_RKnee : Nat := 19
abbrev PRT_LKnee : Nat := 20
abbrev PRT_RLeg : Nat := 21
abbrev PRT_LLeg : Nat := 22
abbrev PRT_RPauldron : Nat := 23
abbrev PRT_LPauldron : Nat := 24
abbrev PRT_Weapon : Nat := 25
abbrev PRT_Tail : Nat := 26

/-- An Ogre entity attached to a bone of the base skeleton: its address, the
mesh it was created from and the bone it hangs on. -/
structure Entity where
  id : Nat
  mesh : String
  bone : String
deriving DecidableEq, Repr

/-- An inventory iterator: the position of an item in the container, or
mInv.end() (none). -/
abbrev ContainerStoreIterator := Option Nat

/-- State of an NpcAnimation object. The entity pointers carry the member names
of the source; attached is the list of objects attached to bones of mBase and
nextEntity the address the scene manager hands out next. -/
structure NpcAnimation where
  isFemale : Bool
  isBeast : Bool
  headModel : String
  hairModel : String
  bodyRaceID : String
  robe : ContainerStoreIterator
  helmet : ContainerStoreIterator
  shirt : ContainerStoreIterator
  cuirass : ContainerStoreIterator
  greaves : ContainerStoreIterator
  leftpauldron : ContainerStoreIterator
  rightpauldron : ContainerStoreIterator
  boots : ContainerStoreIterator
  leftglove : ContainerStoreIterator
  rightglove : ContainerStoreIterator
  skirtiter : ContainerStoreIterator
  pants : ContainerStoreIterator
  mPartslots : Nat → Int
  mPartPriorities : Nat → Int
  head : Nat
  hair : Nat
  neck : Nat
  groin : Nat
  rWrist : Nat
  lWrist : Nat
  rForearm : Nat
  lForearm : Nat
  rupperArm : Nat
  lupperArm : Nat
  rfoot : Nat
  lfoot : Nat
  rAnkle : Nat
  lAnkle : Nat
  rKnee : Nat
  lKnee : Nat
  rUpperLeg : Nat
  lUpperLeg : Nat
  rclavicle : Nat
  lclavicle : Nat
  attached : List Entity
  nextEntity : Nat

namespace NpcAnimation

/-- The call mBase->detachObjectFromBone(p). -/
def detachObjectFromBone (s : NpcAnimation) (p : Nat) : NpcAnimation :=
  { s with attached := s.attached.filter (fun e => e.id != p) }

/-- NpcAnimation::insertBoundedPart: create an entity for the mesh, attach it
to the bone of mBase and return its address. -/
def insertBoundedPart (s : NpcAnimation) (mesh bonename : String) : Nat × NpcAnimation :=
  let part := s.nextEntity
  (part, { s with attached := s.attached ++ [⟨part, mesh, bonename⟩], nextEntity := part + 1 })

/-- NpcAnimation::removeIndividualPart. -/
def removeIndividualPart (s0 : NpcAnimation) (type : Nat) : NpcAnimation :=
  let s1 := { s0 with mPartPriorities := Function.update s0.mPartPriorities type 0 }
  let s := { s1 with mPartslots := Function.update s1.mPartslots type (-1) }
  if type = PRT_Head ∧ s.head ≠ 0 then
    { detachObjectFromBone s s.head with head := 0 }
  else if type = PRT_Hair ∧ s.hair ≠ 0 then
    { detachObjectFromBone s s.hair with hair := 0 }
  else if type = PRT_Neck ∧ s.neck ≠ 0 then
    { detachObjectFromBone s s.neck with neck := 0 }
  else if type = PRT_Groin ∧ s.groin ≠ 0 then
    { detachObjectFromBone s s.groin with groin := 0 }
  else if type = PRT_RWrist ∧ s.rWrist ≠ 0 then
    { detachObjectFromBone s s.rWrist with rWrist := 0 }
  else if type = PRT_LWrist ∧ s.lWrist ≠ 0 then
    { detachObjectFromBone s s.lWrist with lWrist := 0 }
  else if type = PRT_Shield then
    s
  else if type = PRT_RForearm ∧ s.rForearm ≠ 0 then
    { detachObjectFromBone s s.rForearm with rForearm := 0 }
  else if type = PRT_LForearm ∧ s.lForearm ≠ 0 then
    { detachObjectFromBone s s.lForearm with lForearm := 0 }
  else if type = PRT_RUpperarm ∧ s.rupperArm ≠ 0 then
    { detachObjectFromBone s s.rupperArm with rupperArm := 0 }
  else if type = PRT_LUpperarm ∧ s.lupperArm ≠ 0 then
    { detachObjectFromBone s s.lupperArm with lupperArm := 0 }
  else if type = PRT_RFoot ∧ s.rfoot ≠ 0 then
    { detachObjectFromBone s s.rfoot with rfoot := 0 }
  else if type = PRT_LFoot ∧ s.lfoot ≠ 0 then
    { detachObjectFromBone s s.lfoot with lfoot := 0 }
  else if type = PRT_RAnkle ∧ s.rAnkle ≠ 0 then
    { detachObjectFromBone s s.rAnkle with rAnkle := 0 }
  else if type = PRT_LAnkle ∧ s.lAnkle ≠ 0 then
    { detachObjectFromBone s s.lAnkle with lAnkle := 0 }
  else if type = PRT_RKnee ∧ s.rKnee ≠ 0 then
    { detachObjectFromBone s s.rKnee with rKnee := 0 }
  else if type = PRT_LKnee ∧ s.lKnee ≠ 0 then
    { detachObjectFromBone s s.lKnee with lKnee := 0 }
  else if type = PRT_RLeg ∧ s.rUpperLeg ≠ 0 then
    { detachObjectFromBone s s.rUpperLeg with rUpperLeg := 0 }
  else if type = PRT_LLeg ∧ s.lUpperLeg ≠ 0 then
    { detachObjectFromBone s s.lUpperLeg with lUpperLeg := 0 }
  else if type = PRT_RPauldron ∧ s.rclavicle ≠ 0 then
    { detachObjectFromBone s s.rclavicle with rclavicle := 0 }
  else if type = PRT_LPauldron ∧ s.lclavicle ≠ 0 then
    { detachObjectFromBone s s.lclavicle with lclavicle := 0 }
  else if type = PRT_Weapon then
    s
  else
    s

/-- NpcAnimation::reserveIndividualPart. -/
def reserveIndividualPart (s : NpcAnimation) (type : Nat) (group priority : Int) : NpcAnimation :=
  if priority > s.mPartPriorities type then
    let s1 := removeIndividualPart s type
    let s2 := { s1 with mPartPriorities := Function.update s1.mPartPriorities type priority }
    { s2 with mPartslots := Function.update s2.mPartslots type group }
  else
    s

/-- NpcAnimation::removePartGroup: the loop over i = 0 .. 26. -/
def removePartGroup (s : NpcAnimation) (group : Int) : NpcAnimation :=
  (List.range 27).foldl
    (fun st i => if st.mPartslots i = group then removeIndividualPart st i else st) s

/-- The switch statement of NpcAnimation::addOrReplaceIndividualPart, which
creates the mesh entity and stores its address in a member. The cases
PRT_RFoot and PRT_LFoot store into lupperArm, as the source does. -/
def addOrReplaceIndividualPart_switch (s : NpcAnimation) (type : Nat) (mesh : String) :
    NpcAnimation :=
  if type = PRT_Head then
    let r := insertBoundedPart s mesh "Head"; { r.2 with head := r.1 }
  else if type = PRT_Hair then
    let r := insertBoundedPart s mesh "Head"; { r.2 with hair := r.1 }
  else if type = PRT_Neck then
    let r := insertBoundedPart s mesh "Neck"; { r.2 with neck := r.1 }
  else if type = PRT_Cuirass then s
  else if type = PRT_Groin then
    let r := insertBoundedPart s mesh "Groin"; { r.2 with groin := r.1 }
  else if type = PRT_Skirt then s
  else if type = PRT_RHand then s
  else if type = PRT_LHand then s
  else if type = PRT_RWrist then
    let r := insertBoundedPart s mesh "Right Wrist"; { r.2 with rWrist := r.1 }
  else if type = PRT_LWrist then
    let r := insertBoundedPart s mesh "Left Wrist"; { r.2 with lWrist := r.1 }
  else if type = PRT_Shield then s
  else if type = PRT_RForearm then
    let r := insertBoundedPart s mesh "Right Forearm"; { r.2 with rForearm := r.1 }
  else if type = PRT_LForearm then
    let r := insertBoundedPart s mesh "Left Forearm"; { r.2 with lForearm := r.1 }
  else if type = PRT_RUpperarm then
    let r := insertBoundedPart s mesh "Right Upper Arm"; { r.2 with rupperArm := r.1 }
  else if type = PRT_LUpperarm then
    let r := insertBoundedPart s mesh "Left Upper Arm"; { r.2 with lupperArm := r.1 }
  else if type = PRT_RFoot then
    let r := insertBoundedPart s mesh "Right Foot"; { r.2 with lupperArm := r.1 }
  else if type = PRT_LFoot then
    let r := insertBoundedPart s mesh "Left Foot"; { r.2 with lupperArm := r.1 }
  else if type = PRT_RAnkle then
    let r := insertBoundedPart s mesh "Right Ankle"; { r.2 with rAnkle := r.1 }
  else if type = PRT_LAnkle then
    let r := insertBoundedPart s mesh "Left Ankle"; { r.2 with lAnkle := r.1 }
  else if type = PRT_RKnee then
    let r := insertBoundedPart s mesh "Right Knee"; { r.2 with rKnee := r.1 }
  else if type = PRT_LKnee then
    let r := insertBoundedPart s mesh "Left Knee"; { r.2 with lKnee := r.1 }
  else if type = PRT_RLeg then
    let r := insertBoundedPart s mesh "Right Upper Leg"; { r.2 with rUpperLeg := r.1 }
  else if type = PRT_LLeg then
    let r := insertBoundedPart s mesh "Left Upper Leg"; { r.2 with lUpperLeg := r.1 }
  else if type = PRT_RPauldron then
    let r := insertBoundedPart s mesh "Right Clavicle"; { r.2 with rclavicle := r.1 }
  else if type = PRT_LPauldron then
    let r := insertBoundedPart s mesh "Left Clavicle"; { r.2 with lclavicle := r.1 }
  else if type = PRT_Weapon then s
  else if type = PRT_Tail then s
  else s

/-- NpcAnimation::addOrReplaceIndividualPart: the returned flag and the new
state. -/
def addOrReplaceIndividualPart (s : NpcAnimation) (type : Nat) (group priority : Int)
    (mesh : String) : Bool × NpcAnimation :=
  if priority ≤ s.mPartPriorities type then
    (false, s)
  else
    let s1 := removeIndividualPart s type
    let s2 := { s1 with mPartslots := Function.update s1.mPartslots type group }
    let s3 := { s2 with mPartPriorities := Function.update s2.mPartPriorities type priority }
    (true, addOrReplaceIndividualPart_switch s3 type mesh)

/-- An entry of ESM::PartReferenceList: the part type and the ids of the male
and female body part records. -/
structure PartReference where
  part : Nat
  male : String
  female : String
deriving DecidableEq, Repr

/-- A record ESM::BodyPart, of which the compositor reads the model only. -/
structure BodyPart where
  model : String
deriving DecidableEq, Repr

/-- The lookup store.bodyParts.search(id) of the ESM store: the body part
record of that id, or null (none). The store is not part of these sources and
is a parameter. -/
abbrev BodyPartStore := String → Option BodyPart

/-- What getTypeName() tells apart for an equipped item. -/
inductive ItemType where
  | Clothing
  | Armor
  | Other
deriving DecidableEq, Repr

/-- An equipped item: its record type and the part list of its record
(base->parts.parts). -/
structure Item where
  typeName : ItemType
  parts : List PartReference
deriving DecidableEq, Repr

/-- The slot numbers MWWorld::InventoryStore::Slot_*, declared in a header that
is not part of these sources; they are parameters of the model. -/
structure SlotIds where
  Slot_Helmet : Int
  Slot_Cuirass : Int
  Slot_Greaves : Int
  Slot_LeftPauldron : Int
  Slot_RightPauldron : Int
  Slot_LeftGauntlet : Int
  Slot_RightGauntlet : Int
  Slot_Boots : Int
  Slot_Shirt : Int
  Slot_Pants : Int
  Slot_Skirt : Int
  Slot_Robe : Int
deriving DecidableEq, Repr

/-- The robe slot number differs from the number of every other equipment slot
that updateParts looks at. -/
def SlotIds.RobeDistinct (ids : SlotIds) : Prop :=
  ids.Slot_Skirt ≠ ids.Slot_Robe ∧ ids.Slot_Helmet ≠ ids.Slot_Robe ∧
  ids.Slot_Cuirass ≠ ids.Slot_Robe ∧ ids.Slot_Greaves ≠ ids.Slot_Robe ∧
  ids.Slot_LeftPauldron ≠ ids.Slot_Robe ∧ ids.Slot_RightPauldron ≠ ids.Slot_Robe ∧
  ids.Slot_Boots ≠ ids.Slot_Robe ∧ ids.Slot_LeftGauntlet ≠ ids.Slot_Robe ∧
  ids.Slot_RightGauntlet ≠ ids.Slot_Robe ∧ ids.Slot_Shirt ≠ ids.Slot_Robe ∧
  ids.Slot_Pants ≠ ids.Slot_Robe

instance (ids : SlotIds) : Decidable ids.RobeDistinct := by
  unfold SlotIds.RobeDistinct
  infer_instance

/-- The inventory as updateParts sees it: getSlot gives the iterator of a slot
(none is mInv.end()), deref the item a non-end iterator points to. -/
structure InventoryStore where
  getSlot : Int → ContainerStoreIterator
  deref : Nat → Item

/-- The directory prefix of every mesh name: the word meshes and a backslash. -/
def meshesDir : String := "meshes" ++ String.singleton (Char.ofNat 92)

/-- NpcAnimation::addPartGroup: the loop over the part list. -/
def addPartGroup (store : BodyPartStore) (s : NpcAnimation) (group priority : Int)
    (parts : List PartReference) : NpcAnimation :=
  parts.foldl
    (fun st part =>
      let bodypart0 : Option BodyPart := if st.isFemale then store part.female else none
      let bodypart : Option BodyPart :=
        if bodypart0.isNone then store part.male else bodypart0
      match bodypart with
      | some bp =>
        (addOrReplaceIndividualPart st part.part group priority (meshesDir ++ bp.model)).2
      | none => reserveIndividualPart st part.part group priority)
    s

/-- One of the twelve blocks at the head of updateParts: when the cached
iterator (read by get, written by set) differs from the iterator of the slot,
cache the new one, remove the part group of the slot and raise apparelChanged.
The flag enabled is the extra condition of the boots block (not isBeast) and
true for the other slots. The pair is (apparelChanged, state). -/
def updateParts_check (get : NpcAnimation → ContainerStoreIterator)
    (set : NpcAnimation → ContainerStoreIterator → NpcAnimation) (enabled : Bool)
    (slot : Int) (inv : InventoryStore) (p : Bool × NpcAnimation) : Bool × NpcAnimation :=
  if enabled = true ∧ get p.2 ≠ inv.getSlot slot then
    (true, removePartGroup (set p.2 (inv.getSlot slot)) slot)
  else
    p

/-- The head of NpcAnimation::updateParts (the twelve iterator comparisons),
giving apparelChanged and the state. -/
def updateParts_sync (ids : SlotIds) (inv : InventoryStore) (s : NpcAnimation) :
    Bool × NpcAnimation :=
  let p0 : Bool × NpcAnimation := (false, s)
  let p1 := updateParts_check (fun x => x.robe) (fun x v => { x with robe := v }) true
    ids.Slot_Robe inv p0
  let p2 := updateParts_check (fun x => x.skirtiter) (fun x v => { x with skirtiter := v }) true
    ids.Slot_Skirt inv p1
  let p3 := updateParts_check (fun x => x.helmet) (fun x v => { x with helmet := v }) true
    ids.Slot_Helmet inv p2
  let p4 := updateParts_check (fun x => x.cuirass) (fun x v => { x with cuirass := v }) true
    ids.Slot_Cuirass inv p3
  let p5 := updateParts_check (fun x => x.greaves) (fun x v => { x with greaves := v }) true
    ids.Slot_Greaves inv p4
  let p6 := updateParts_check (fun x => x.leftpauldron)
    (fun x v => { x with leftpauldron := v }) true ids.Slot_LeftPauldron inv p5
  let p7 := updateParts_check (fun x => x.rightpauldron)
    (fun x v => { x with rightpauldron := v }) true ids.Slot_RightPauldron inv p6
  let p8 := updateParts_check (fun x => x.boots) (fun x v => { x with boots := v })
    (!s.isBeast) ids.Slot_Boots inv p7
  let p9 := updateParts_check (fun x => x.leftglove) (fun x v => { x with leftglove := v }) true
    ids.Slot_LeftGauntlet inv p8
  let p10 := updateParts_check (fun x => x.rightglove) (fun x v => { x with rightglove := v })
    true ids.Slot_RightGauntlet inv p9
  let p11 := updateParts_check (fun x => x.shirt) (fun x v => { x with shirt := v }) true
    ids.Slot_Shirt inv p10
  updateParts_check (fun x => x.pants) (fun x v => { x with pants := v }) true
    ids.Slot_Pants inv p11

/-- The twelve part types a robe reserves, in the order of the source. -/
def robeReserved : List Nat :=
  [PRT_Groin, PRT_Skirt, PRT_RLeg, PRT_LLeg, PRT_RUpperarm, PRT_LUpperarm,
   PRT_RKnee, PRT_LKnee, PRT_RForearm, PRT_LForearm, PRT_RPauldron, PRT_LPauldron]

/-- The robe block of updateParts: addPartGroup with priority 5 and the twelve
calls of reserveIndividualPart. -/
def updateParts_robe (store : BodyPartStore) (ids : SlotIds) (inv : InventoryStore)
    (s : NpcAnimation) : NpcAnimation :=
  match s.robe with
  | some it =>
    robeReserved.foldl (fun st t => reserveIndividualPart st t ids.Slot_Robe 5)
      (addPartGroup store s ids.Slot_Robe 5 (inv.deref it).parts)
  | none => s

/-- The skirt block of updateParts. -/
def updateParts_skirt (store : BodyPartStore) (ids : SlotIds) (inv : InventoryStore)
    (s : NpcAnimation) : NpcAnimation :=
  match s.skirtiter with
  | some it =>
    [PRT_Groin, PRT_RLeg, PRT_LLeg].foldl
      (fun st t => reserveIndividualPart st t ids.Slot_Skirt 4)
      (addPartGroup store s ids.Slot_Skirt 4 (inv.deref it).parts)
  | none => s

/-- The helmet block of updateParts: the hair is removed before the helmet
parts are added. -/
def updateParts_helmet (store : BodyPartStore) (ids : SlotIds) (inv : InventoryStore)
    (s : NpcAnimation) : NpcAnimation :=
  match s.helmet with
  | some it =>
    addPartGroup store (removeIndividualPart s PRT_Hair) ids.Slot_Helmet 3 (inv.deref it).parts
  | none => s

/-- A block of updateParts that only adds the part group of an equipped item
with a fixed priority (cuirass, greaves, pauldrons: 3; shirt, pants: 2); get
reads the cached iterator of the item. -/
def updateParts_group (store : BodyPartStore) (inv : InventoryStore)
    (get : NpcAnimation → ContainerStoreIterator) (slot priority : Int) (s : NpcAnimation) :
    NpcAnimation :=
  match get s with
  | some it => addPartGroup store s slot priority (inv.deref it).parts
  | none => s

/-- The boots block of updateParts: clothing has priority 2, armour 3, anything
else adds nothing; beasts wear no boots. -/
def updateParts_boots (store : BodyPartStore) (ids : SlotIds) (inv : InventoryStore)
    (s : NpcAnimation) : NpcAnimation :=
  match s.boots with
  | some it =>
    if s.isBeast then s
    else if (inv.deref it).typeName = ItemType.Clothing then
      addPartGroup store s ids.Slot_Boots 2 (inv.deref it).parts
    else if (inv.deref it).typeName = ItemType.Armor then
      addPartGroup store s ids.Slot_Boots 3 (inv.deref it).parts
    else s
  | none => s

/-- A glove block of updateParts: clothing has priority 2, anything else is
taken for armour with priority 3; get reads the cached iterator of the glove. -/
def updateParts_glove (store : BodyPartStore) (inv : InventoryStore)
    (get : NpcAnimation → ContainerStoreIterator) (slot : Int) (s : NpcAnimation) :
    NpcAnimation :=
  match get s with
  | some it =>
    if (inv.deref it).typeName = ItemType.Clothing then
      addPartGroup store s slot 2 (inv.deref it).parts
    else
      addPartGroup store s slot 3 (inv.deref it).parts
  | none => s

/-- The body of if(apparelChanged) in updateParts. -/
def updateParts_apparel (store : BodyPartStore) (ids : SlotIds) (inv : InventoryStore)
    (s : NpcAnimation) : NpcAnimation :=
  let s1 := updateParts_robe store ids inv s
  let s2 := updateParts_skirt store ids inv s1
  let s3 := updateParts_helmet store ids inv s2
  let s4 := updateParts_group store inv (fun x => x.cuirass) ids.Slot_Cuirass 3 s3
  let s5 := updateParts_group store inv (fun x => x.greaves) ids.Slot_Greaves 3 s4
  let s6 := updateParts_group store inv (fun x => x.leftpauldron) ids.Slot_LeftPauldron 3 s5
  let s7 := updateParts_group store inv (fun x => x.rightpauldron) ids.Slot_RightPauldron 3 s6
  let s8 := updateParts_boots store ids inv s7
  let s9 := updateParts_glove store inv (fun x => x.leftglove) ids.Slot_LeftGauntlet s8
  let s10 := updateParts_glove store inv (fun x => x.rightglove) ids.Slot_RightGauntlet s9
  let s11 := updateParts_group store inv (fun x => x.shirt) ids.Slot_Shirt 2 s10
  updateParts_group store inv (fun x => x.pants) ids.Slot_Pants 2 s11

/-- The table PartTypeList of updateParts: part type and the two names tried
for its body part record. -/
def PartTypeList : List (Nat × String × String) :=
  [ (PRT_Neck, "neck", ""), (PRT_Cuirass, "chest", ""), (PRT_Groin, "groin", ""),
    (PRT_RHand, "hand", "hands"), (PRT_LHand, "hand", "hands"),
    (PRT_RWrist, "wrist", ""), (PRT_LWrist, "wrist", ""),
    (PRT_RForearm, "forearm", ""), (PRT_LForearm, "forearm", ""),
    (PRT_RUpperarm, "upper arm", ""), (PRT_LUpperarm, "upper arm", ""),
    (PRT_RFoot, "foot", "feet"), (PRT_LFoot, "foot", "feet"),
    (PRT_RAnkle, "ankle", ""), (PRT_LAnkle, "ankle", ""),
    (PRT_RKnee, "knee", ""), (PRT_LKnee, "knee", ""),
    (PRT_RLeg, "upper leg", ""), (PRT_LLeg, "upper leg", ""),
    (PRT_Tail, "tail", "") ]

/-- Two rounds of the do-while loop of updateParts, with ni = 0 and ni = 1, for
one value of tryfemale. -/
def updateParts_searchNames (store : BodyPartStore) (bodyRaceID : String) (tryfemale : Bool)
    (name0 name1 : String) : Option BodyPart :=
  match store (bodyRaceID ++ (if tryfemale then "_f_" else "_m_") ++ name0) with
  | some part => some part
  | none => store (bodyRaceID ++ (if tryfemale then "_f_" else "_m_") ++ name1)

/-- The do-while loop of updateParts that looks for the body part record of
the race: both names for the sex of the NPC, then, for a female NPC, both names
of the male parts. It runs at most four rounds. -/
def updateParts_search (store : BodyPartStore) (bodyRaceID : String) (isFemale : Bool)
    (name0 name1 : String) : Option BodyPart :=
  match updateParts_searchNames store bodyRaceID isFemale name0 name1 with
  | some part => some part
  | none =>
    if !isFemale then none
    else updateParts_searchNames store bodyRaceID false name0 name1

/-- The tail of updateParts: head, hair and the body parts of the race fill the
part types that nothing with a priority of at least 1 occupies. -/
def updateParts_body (store : BodyPartStore) (s : NpcAnimation) : NpcAnimation :=
  let s1 := if s.mPartPriorities PRT_Head < 1 then
      (addOrReplaceIndividualPart s PRT_Head (-1) 1 s.headModel).2 else s
  let s2 := if s1.mPartPriorities PRT_Hair < 1 ∧ s1.mPartPriorities PRT_Head ≤ 1 then
      (addOrReplaceIndividualPart s1 PRT_Hair (-1) 1 s1.hairModel).2 else s1
  PartTypeList.foldl
    (fun st e =>
      if st.mPartPriorities e.1 < 1 then
        match updateParts_search store st.bodyRaceID st.isFemale e.2.1 e.2.2 with
        | some part => (addOrReplaceIndividualPart st e.1 (-1) 1 (meshesDir ++ part.model)).2
        | none => st
      else st)
    s2

/-- NpcAnimation::updateParts. -/
def updateParts (store : BodyPartStore) (ids : SlotIds) (inv : InventoryStore)
    (s : NpcAnimation) : NpcAnimation :=
  let p := updateParts_sync ids inv s
  let s1 := if p.1 then updateParts_apparel store ids inv p.2 else p.2
  updateParts_body store s1

/-- Invariant of the two part tables with respect to the robe group: no
priority exceeds 5, a part type of priority 5 is assigned to the robe slot, and
every part type of the list has priority 5. -/
def PrioInv (robeSlot : Int) (S : List Nat) (s : NpcAnimation) : Prop :=
  (∀ t, s.mPartPriorities t ≤ 5 ∧ (s.mPartPriorities t = 5 → s.mPartslots t = robeSlot)) ∧
  ∀ t ∈ S, s.mPartPriorities t = 5

/-- Invariant of an NpcAnimation between two calls of updateParts: the table
invariant holds, and while a robe iterator is cached the twelve part types a
robe reserves have priority 5. -/
def RobeInv (robeSlot : Int) (s : NpcAnimation) : Prop :=
  PrioInv robeSlot [] s ∧ (s.robe ≠ none → PrioInv robeSlot robeReserved s)

/-- The member initialisers and the table loop of the NpcAnimation constructor
(before its final call of updateParts): every slot is empty (-1) with priority
0, every cached inventory iterator is mInv.end() and no part entity exists.
The members head and hair have no initialiser in the source; they are taken to
be null like the others. -/
def init (isFemale isBeast : Bool) (headModel hairModel bodyRaceID : String) : NpcAnimation :=
  { isFemale := isFemale, isBeast := isBeast, headModel := headModel, hairModel := hairModel,
    bodyRaceID := bodyRaceID,
    robe := none, helmet := none, shirt := none, cuirass := none, greaves := none,
    leftpauldron := none, rightpauldron := none, boots := none, leftglove := none,
    rightglove := none, skirtiter := none, pants := none,
    mPartslots := fun _ => -1, mPartPriorities := fun _ => 0,
    head := 0, hair := 0, neck := 0, groin := 0, rWrist := 0, lWrist := 0, rForearm := 0,
    lForearm := 0, rupperArm := 0, lupperArm := 0, rfoot := 0, lfoot := 0, rAnkle := 0,
    lAnkle := 0, rKnee := 0, lKnee := 0, rUpperLeg := 0, lUpperLeg := 0, rclavicle := 0,
    lclavicle := 0, attached := [], nextEntity := 1 }

/-- The NpcAnimation constructor: the initialisers followed by the first call
of updateParts. The record lookups of the constructor (sex, beast race flag,
head and hair model, race id) are given as arguments. -/
def construct (store : BodyPartStore) (ids : SlotIds) (isFemale isBeast : Bool)
    (headModel hairModel bodyRaceID : String) (inv : InventoryStore) : NpcAnimation :=
  updateParts store ids inv (init isFemale isBeast headModel hairModel bodyRaceID)

/-- A run of the object after construction: updateParts is called once for
each inventory of the list, the inventory having changed in any way between
two calls. -/
def runUpdates (store : BodyPartStore) (ids : SlotIds) (s : NpcAnimation)
    (invs : List InventoryStore) : NpcAnimation :=
  invs.foldl (fun st inv => updateParts store ids inv st) s

/-- The slot numbers of MWWorld::InventoryStore in OpenMW (helmet 0 up to robe
11), used as sample values for the parameter. -/
def sampleSlotIds : SlotIds :=
  { Slot_Helmet := 0, Slot_Cuirass := 1, Slot_Greaves := 2, Slot_LeftPauldron := 3,
    Slot_RightPauldron := 4, Slot_LeftGauntlet := 5, Slot_RightGauntlet := 6,
    Slot_Boots := 7, Slot_Shirt := 8, Slot_Pants := 9, Slot_Skirt := 10, Slot_Robe := 11 }

/-- A sample body part store: a robe chest piece, a skirt piece and a male
dark elf groin. -/
def sampleStore : BodyPartStore := fun id =>
  if id = "c_robe_chest" then some ⟨"c_robe.nif"⟩
  else if id = "c_skirt" then some ⟨"c_skirt.nif"⟩
  else if id = "b_n_dark elf_m_groin" then some ⟨"b_groin.nif"⟩
  else none

/-- A sample inventory: a skirt and pants only. -/
def sampleInvSkirt : InventoryStore :=
  { getSlot := fun slot => if slot = 10 then some 1 else if slot = 9 then some 2 else none,
    deref := fun it =>
      if it = 1 then ⟨ItemType.Clothing, [⟨PRT_Skirt, "c_skirt", ""⟩]⟩
      else ⟨ItemType.Clothing, [⟨PRT_Groin, "c_pants", ""⟩, ⟨PRT_RLeg, "c_pants_leg", ""⟩]⟩ }

/-- A sample inventory: the skirt and pants of sampleInvSkirt and a robe. -/
def sampleInvRobe : InventoryStore :=
  { getSlot := fun slot =>
      if slot = 11 then some 0 else if slot = 10 then some 1 else if slot = 9 then some 2
      else none,
    deref := fun it =>
      if it = 0 then ⟨ItemType.Clothing, [⟨PRT_Cuirass, "c_robe_chest", ""⟩]⟩
      else if it = 1 then ⟨ItemType.Clothing, [⟨PRT_Skirt, "c_skirt", ""⟩]⟩
      else ⟨ItemType.Clothing, [⟨PRT_Groin, "c_pants", ""⟩, ⟨PRT_RLeg, "c_pants_leg", ""⟩]⟩ }

end NpcAnimation

/-! ## sky.cpp -/

/-- The transform CameraRelativeTransform, of which only the eye point of the
last cull traversal matters here. -/
structure CameraRelativeTransform where
  mEyePoint : osg.Vec3
deriving DecidableEq

/-- CameraRelativeTransform::getLastEyePoint. -/
def CameraRelativeTransform.getLastEyePoint (t : CameraRelativeTransform) : osg.Vec3 :=
  t.mEyePoint

/-- The cull callback UnderwaterSwitchCallback; the pointer to the transform is
represented by the transform. -/
structure UnderwaterSwitchCallback where
  mCameraRelativeTransform : CameraRelativeTransform
  mEnabled : Bool
  mWaterLevel : ℚ
deriving DecidableEq

namespace UnderwaterSwitchCallback

/-- The constructor of UnderwaterSwitchCallback. -/
def new (cameraRelativeTransform : CameraRelativeTransform) : UnderwaterSwitchCallback :=
  { mCameraRelativeTransform := cameraRelativeTransform, mEnabled := true, mWaterLevel := 0 }

/-- UnderwaterSwitchCallback::setEnabled. -/
def setEnabled (cb : UnderwaterSwitchCallback) (enabled : Bool) : UnderwaterSwitchCallback :=
  { cb with mEnabled := enabled }

/-- UnderwaterSwitchCallback::setWaterLevel. -/
def setWaterLevel (cb : UnderwaterSwitchCallback) (waterLevel : ℚ) : UnderwaterSwitchCallback :=
  { cb with mWaterLevel := waterLevel }

/-- UnderwaterSwitchCallback::operator(): the result tells whether
traverse(node, nv) is called, that is whether the subgraph is visited. -/
def call (cb : UnderwaterSwitchCallback) : Bool :=
  let eyePoint := cb.mCameraRelativeTransform.getLastEyePoint
  if cb.mEnabled = true ∧ eyePoint.z < cb.mWaterLevel then
    false
  else
    true

end UnderwaterSwitchCallback

/-- The enumeration MoonState::Phase, declared in a header that is not part of
these sources; sky.cpp names these nine values. -/
inductive MoonState.Phase where
  | Phase_Unspecified
  | Phase_New
  | Phase_WaxingCrescent
  | Phase_FirstQuarter
  | Phase_WaxingGibbous
  | Phase_Full
  | Phase_WaningGibbous
  | Phase_ThirdQuarter
  | Phase_WaningCrescent
deriving DecidableEq, Repr

/-- The enumeration Moon::Type. -/
inductive Moon.Type where
  | Type_Masser
  | Type_Secunda
deriving DecidableEq, Repr

/-- The members of Moon::Updater that the sky manager writes. -/
structure Moon.Updater where
  mTransparency : ℚ
  mShadowBlend : ℚ
  mAtmosphereColor : osg.Vec4
  mMoonColor : osg.Vec4
deriving DecidableEq, Repr

/-- The members of Moon that the phase queries read, and its updater. -/
structure Moon where
  mType : Moon.Type
  mPhase : MoonState.Phase
  mUpdater : Moon.Updater
deriving DecidableEq, Repr

/-- The constructor of Moon::Updater. -/
def Moon.Updater.new : Moon.Updater :=
  { mTransparency := 1, mShadowBlend := 1, mAtmosphereColor := ⟨1, 1, 1, 1⟩,
    mMoonColor := ⟨1, 1, 1, 1⟩ }

/-- The constructor of Moon: the phase starts unspecified and is set to full. -/
def Moon.new (type : Moon.Type) : Moon :=
  { mType := type, mPhase := MoonState.Phase.Phase_Full, mUpdater := Moon.Updater.new }

/-- Moon::adjustTransparency. -/
def Moon.adjustTransparency (m : Moon) (ratio : ℚ) : Moon :=
  { m with mUpdater := { m.mUpdater with mTransparency := m.mUpdater.mTransparency * ratio } }

/-- Moon::setAtmosphereColor. -/
def Moon.setAtmosphereColor (m : Moon) (color : osg.Vec4) : Moon :=
  { m with mUpdater := { m.mUpdater with mAtmosphereColor := color } }

open MoonState.Phase in
/-- Moon::getPhaseInt. -/
def Moon.getPhaseInt (m : Moon) : Nat :=
  if m.mPhase = Phase_New then 0
  else if m.mPhase = Phase_WaxingCrescent then 1
  else if m.mPhase = Phase_WaningCrescent then 1
  else if m.mPhase = Phase_FirstQuarter then 2
  else if m.mPhase = Phase_ThirdQuarter then 2
  else if m.mPhase = Phase_WaxingGibbous then 3
  else if m.mPhase = Phase_WaningGibbous then 3
  else if m.mPhase = Phase_Full then 4
  else 0

open MoonState.Phase in
/-- The phase numbers as the claim about getMasserPhase and getSecundaPhase
lists them: 0 for New, 1 for the crescents, 2 for the quarters, 3 for the
gibbous phases, 4 for Full and 0 for any other value. -/
def phaseNumberSpec : MoonState.Phase → Int
  | Phase_New => 0
  | Phase_WaxingCrescent => 1
  | Phase_WaningCrescent => 1
  | Phase_FirstQuarter => 2
  | Phase_ThirdQuarter => 2
  | Phase_WaxingGibbous => 3
  | Phase_WaningGibbous => 3
  | Phase_Full => 4
  | Phase_Unspecified => 0

/-- The members of CloudUpdater that the sky manager sets; a texture is known
by the path it was loaded from. -/
structure CloudUpdater where
  mAnimationTimer : ℚ
  mOpacity : ℚ
  mTexture : Option String
  mEmissionColor : osg.Vec4
deriving DecidableEq

/-- The constructor of CloudUpdater. -/
def CloudUpdater.new : CloudUpdater :=
  { mAnimationTimer := 0, mOpacity := 0, mTexture := none, mEmissionColor := ⟨0, 0, 0, 0⟩ }

/-- CloudUpdater::setAnimationTimer. -/
def CloudUpdater.setAnimationTimer (u : CloudUpdater) (timer : ℚ) : CloudUpdater :=
  { u with mAnimationTimer := timer }

/-- CloudUpdater::setTexture. -/
def CloudUpdater.setTexture (u : CloudUpdater) (texture : String) : CloudUpdater :=
  { u with mTexture := some texture }

/-- CloudUpdater::setEmissionColor. -/
def CloudUpdater.setEmissionColor (u : CloudUpdater) (emissionColor : osg.Vec4) :
    CloudUpdater :=
  { u with mEmissionColor := emissionColor }

/-- CloudUpdater::setOpacity. -/
def CloudUpdater.setOpacity (u : CloudUpdater) (opacity : ℚ) : CloudUpdater :=
  { u with mOpacity := opacity }

/-- The member of AtmosphereUpdater. -/
structure AtmosphereUpdater where
  mEmissionColor : osg.Vec4
deriving DecidableEq

/-- The colour of AtmosphereNightUpdater, whose alpha setFade writes. -/
structure AtmosphereNightUpdater where
  mColor : osg.Vec4
deriving DecidableEq

/-- AtmosphereNightUpdater::setFade. -/
def AtmosphereNightUpdater.setFade (u : AtmosphereNightUpdater) (fade : ℚ) :
    AtmosphereNightUpdater :=
  { u with mColor := { u.mColor with w := fade } }

/-- The members of Sun::SunGlareCallback that the sun writes. -/
structure SunGlareCallback where
  mTimeOfDayFade : ℚ
  mGlareView : ℚ
deriving DecidableEq

/-- The member of Sun::SunFlashCallback that the sun writes. -/
structure SunFlashCallback where
  mGlareView : ℚ
deriving DecidableEq

/-- The members of Sun that setWeather writes: the colour of its updater and
the two callbacks, which may be null. -/
structure Sun where
  mColor : osg.Vec4
  mSunGlareCallback : Option SunGlareCallback
  mSunFlashCallback : Option SunFlashCallback
deriving DecidableEq

/-- The constructor of Sun: a white updater colour and both callbacks. -/
def Sun.new : Sun :=
  { mColor := ⟨1, 1, 1, 1⟩, mSunGlareCallback := some ⟨1, 1⟩, mSunFlashCallback := some ⟨1⟩ }

/-- Sun::setColor: the red, green and blue of the updater colour. -/
def Sun.setColor (sun : Sun) (color : osg.Vec4) : Sun :=
  { sun with mColor := { sun.mColor with x := color.x, y := color.y, z := color.z } }

/-- Sun::adjustTransparency. -/
def Sun.adjustTransparency (sun : Sun) (ratio : ℚ) : Sun :=
  { sun with
    mColor := { sun.mColor with w := ratio },
    mSunGlareCallback := sun.mSunGlareCallback.map (fun cb => { cb with mGlareView := ratio }),
    mSunFlashCallback := sun.mSunFlashCallback.map (fun cb => { cb with mGlareView := ratio }) }

/-- The members of RainShooter. -/
structure RainShooter where
  mVelocity : osg.Vec3
  mAngle : ℚ
deriving DecidableEq

/-- The member mAlpha of a RainFader (an AlphaFader). -/
structure RainFader where
  mAlpha : ℚ
deriving DecidableEq

/-- A pointer to an AlphaFader that AlphaFader::SetupVisitor has installed in a
particle effect: the instance of the effect and the number of the node, in
traversal order, among the nodes of the instance that carry a material. -/
structure AlphaFaderRef where
  effect : Nat
  node : Nat
deriving DecidableEq, Repr

/-- The structure WeatherResult, declared in a header that is not part of these
sources: the members that setWeather reads. -/
structure WeatherResult where
  mCloudTexture : String
  mNextCloudTexture : String
  mCloudBlendFactor : ℚ
  mFogColor : osg.Vec4
  mSkyColor : osg.Vec4
  mSunDiscColor : osg.Vec4
  mNightFade : ℚ
  mNight : Bool
  mIsStorm : Bool
  mCloudSpeed : ℚ
  mGlareView : ℚ
  mRainEffect : String
  mRainSpeed : ℚ
  mRainFrequency : ℚ
  mWindSpeed : ℚ
  mParticleEffect : String
  mEffectFade : ℚ
deriving DecidableEq

/-- What the sky manager takes from outside these sources: the constant
osg::PI, the visibility mask Mask_WeatherParticles, for the model of a particle
effect the number of its nodes that carry a material (those get an AlphaFader),
and Misc::ResourceHelpers::correctTexturePath. -/
structure SkyEnvironment where
  PI : ℚ
  Mask_WeatherParticles : Nat
  materialNodes : String → Nat
  correctTexturePath : String → String

/-- The members of SkyManager read or written by getMasserPhase,
getSecundaPhase, update, create and setWeather. A pointer that the source
dereferences without a null test (the sun, the moons, the cloud node, the
second cloud mesh, the updaters, the night node) is represented by the object
it points to, which before create() is a default object; a pointer that the
source tests (the particle node, the particle effect, the rain members) is an
option. The particle effect is known by the number of its instance. The field
alphaFaders gives the mAlpha of every AlphaFader object and nextInstance the
number of the instance that createInstance makes next. -/
structure SkyManager where
  mCreated : Bool
  mEnabled : Bool
  mIsStorm : Bool
  mStormDirection : osg.Vec3
  mMasser : Moon
  mSecunda : Moon
  mParticleNode : Option osg.PositionAttitudeTransform
  mCloudNode : osg.PositionAttitudeTransform
  mCloudAnimationTimer : ℚ
  mCloudSpeed : ℚ
  mCloudUpdater : CloudUpdater
  mCloudUpdater2 : CloudUpdater
  mAtmosphereNightRoll : ℚ
  mAtmosphereNightNode : osg.PositionAttitudeTransform
  mSun : Sun
  mAtmosphereUpdater : AtmosphereUpdater
  mAtmosphereNightUpdater : AtmosphereNightUpdater
  mCloudMesh2 : osg.Node
  mRainNode : Option osg.Node
  mRainParticleSystem : Bool
  mRainShooter : Option RainShooter
  mRainFader : Option RainFader
  mRainEffect : String
  mRainFrequency : ℚ
  mRainSpeed : ℚ
  mWindSpeed : ℚ
  mCurrentParticleEffect : String
  mParticleEffect : Option Nat
  mParticleFaders : List AlphaFaderRef
  alphaFaders : AlphaFaderRef → ℚ
  nextInstance : Nat
  mClouds : String
  mNextClouds : String
  mCloudBlendFactor : ℚ
  mCloudColour : osg.Vec4
  mSkyColour : osg.Vec4
  mFogColour : osg.Vec4
  mStarsOpacity : ℚ
  mMoonScriptColor : osg.Vec4

namespace SkyManager

/-- SkyManager::getMasserPhase. -/
def getMasserPhase (s : SkyManager) : Int :=
  if !s.mCreated then 0 else s.mMasser.getPhaseInt

/-- SkyManager::getSecundaPhase. -/
def getSecundaPhase (s : SkyManager) : Int :=
  if !s.mCreated then 0 else s.mSecunda.getPhaseInt

/-- SkyManager::update. PI is the constant osg::PI and timeScaleFactor the value
that getWorld()->getTimeScaleFactor() returns during the call. -/
def update (PI : ℚ) (timeScaleFactor : ℚ) (s : SkyManager) (duration : ℚ) : SkyManager :=
  if !s.mEnabled then s
  else
    let s1 : SkyManager :=
      if s.mIsStorm then
        let quat := osg.Quat.makeRotate ⟨0, 1, 0⟩ s.mStormDirection
        { s with
          mParticleNode := s.mParticleNode.map (fun n => { n with attitude := quat }),
          mCloudNode := { s.mCloudNode with attitude := quat } }
      else
        { s with mCloudNode := { s.mCloudNode with attitude := osg.Quat.identity } }
    let s2 : SkyManager :=
      { s1 with mCloudAnimationTimer := s1.mCloudAnimationTimer + duration * s1.mCloudSpeed * (3 / 1000) }
    let s3 : SkyManager :=
      { s2 with mCloudUpdater := s2.mCloudUpdater.setAnimationTimer s2.mCloudAnimationTimer }
    let s4 : SkyManager :=
      { s3 with mCloudUpdater2 := s3.mCloudUpdater2.setAnimationTimer s3.mCloudAnimationTimer }
    let s5 : SkyManager :=
      { s4 with mAtmosphereNightRoll := s4.mAtmosphereNightRoll
          + timeScaleFactor * duration * osg.DegreesToRadians PI 360 / (3600 * 96) }
    if s5.mAtmosphereNightNode.nodeMask ≠ 0 then
      { s5 with mAtmosphereNightNode :=
          { s5.mAtmosphereNightNode with
            attitude := osg.Quat.angleAxis s5.mAtmosphereNightRoll ⟨0, 0, 1⟩ } }
    else
      s5

/-- A sequence of frames: update is called once for each pair
(timeScaleFactor, duration) of the list. -/
def updates (PI : ℚ) (s : SkyManager) (frames : List (ℚ × ℚ)) : SkyManager :=
  frames.foldl (fun st f => update PI f.1 st f.2) s

/-- The game time that a sequence of frames covers: the sum of
timeScaleFactor * duration. -/
def gameTime (frames : List (ℚ × ℚ)) : ℚ :=
  (frames.map (fun f => f.1 * f.2)).sum

/-- The constructor of SkyManager. -/
def new : SkyManager :=
  { mCreated := false, mEnabled := true, mIsStorm := false, mStormDirection := ⟨0, -1, 0⟩,
    mMasser := Moon.new Moon.Type.Type_Masser, mSecunda := Moon.new Moon.Type.Type_Secunda,
    mParticleNode := none, mCloudNode := ⟨osg.maskAll, osg.Quat.identity⟩,
    mCloudAnimationTimer := 0, mCloudSpeed := 0,
    mCloudUpdater := CloudUpdater.new, mCloudUpdater2 := CloudUpdater.new,
    mAtmosphereNightRoll := 0, mAtmosphereNightNode := ⟨osg.maskAll, osg.Quat.identity⟩,
    mSun := Sun.new, mAtmosphereUpdater := ⟨⟨0, 0, 0, 0⟩⟩,
    mAtmosphereNightUpdater := ⟨⟨0, 0, 0, 0⟩⟩, mCloudMesh2 := ⟨osg.maskAll⟩,
    mRainNode := none, mRainParticleSystem := false, mRainShooter := none,
    mRainFader := none, mRainEffect := "", mRainFrequency := 1, mRainSpeed := 0,
    mWindSpeed := 0, mCurrentParticleEffect := "", mParticleEffect := none,
    mParticleFaders := [], alphaFaders := fun _ => 1, nextInstance := 0,
    mClouds := "", mNextClouds := "", mCloudBlendFactor := 0,
    mCloudColour := ⟨0, 0, 0, 0⟩, mSkyColour := ⟨0, 0, 0, 0⟩, mFogColour := ⟨0, 0, 0, 0⟩,
    mStarsOpacity := 0, mMoonScriptColor := ⟨0, 0, 0, 0⟩ }

/-- SkyManager::create. The argument is the fallback colour Moons_Script_Color.
Four model instances are made (day atmosphere, night atmosphere, two cloud
meshes). -/
def create (s : SkyManager) (moonScriptColor : osg.Vec4) : SkyManager :=
  { s with
    mAtmosphereUpdater := ⟨⟨0, 0, 0, 0⟩⟩,
    mAtmosphereNightNode := ⟨0, osg.Quat.identity⟩,
    mAtmosphereNightUpdater := ⟨⟨0, 0, 0, 0⟩⟩,
    mSun := Sun.new,
    mMasser := Moon.new Moon.Type.Type_Masser,
    mSecunda := Moon.new Moon.Type.Type_Secunda,
    mCloudNode := ⟨osg.maskAll, osg.Quat.identity⟩,
    mCloudUpdater := CloudUpdater.new.setOpacity 1,
    mCloudUpdater2 := CloudUpdater.new.setOpacity 0,
    mCloudMesh2 := ⟨0⟩,
    nextInstance := s.nextInstance + 4,
    mMoonScriptColor := moonScriptColor,
    mCreated := true }

/-- SkyManager::createRain. -/
def createRain (env : SkyEnvironment) (s : SkyManager) : SkyManager :=
  if s.mRainNode.isSome then s
  else
    { s with
      mRainNode := some ⟨env.Mask_WeatherParticles⟩,
      mRainParticleSystem := true,
      mRainShooter := some ⟨⟨0, 0, 0⟩, 0⟩,
      mRainFader := some ⟨1⟩ }

/-- SkyManager::destroyRain. -/
def destroyRain (s : SkyManager) : SkyManager :=
  if !s.mRainNode.isSome then s
  else
    { s with
      mRainNode := none, mRainParticleSystem := false, mRainShooter := none,
      mRainFader := none }

/-- SkyManager::updateRainParameters. -/
def updateRainParameters (env : SkyEnvironment) (s : SkyManager) : SkyManager :=
  match s.mRainShooter with
  | some _ =>
    let windFactor : ℚ := s.mWindSpeed / 3
    let angle : ℚ := windFactor * env.PI / 4
    { s with
      mRainShooter := some ⟨⟨0, s.mRainSpeed * windFactor, -s.mRainSpeed⟩, angle⟩ }
  | none => s

/-- The part of setWeather about the rain effect, the rain parameters and the
storm flag. -/
def setWeather_rain (env : SkyEnvironment) (s : SkyManager) (weather : WeatherResult) :
    SkyManager :=
  let s1 : SkyManager :=
    if s.mRainEffect ≠ weather.mRainEffect then
      if weather.mRainEffect ≠ "" then
        createRain env { s with mRainEffect := weather.mRainEffect }
      else
        destroyRain { s with mRainEffect := weather.mRainEffect }
    else s
  let s2 : SkyManager :=
    { s1 with
      mRainFrequency := weather.mRainFrequency, mRainSpeed := weather.mRainSpeed,
      mWindSpeed := weather.mWindSpeed }
  let s3 := updateRainParameters env s2
  { s3 with mIsStorm := weather.mIsStorm }

/-- The cleanup of old particles in setWeather: the particle effect is removed
from the particle node and the list of faders is cleared. -/
def setWeather_cleanup (s : SkyManager) : SkyManager :=
  if s.mParticleEffect.isSome then
    { s with mParticleEffect := none, mParticleFaders := [] }
  else s

/-- The faders that AlphaFader::SetupVisitor installs in a new instance of a
particle effect: one for each node that carries a material. -/
def newAlphaFaders (env : SkyEnvironment) (effect : String) (inst : Nat) : List AlphaFaderRef :=
  (List.range (env.materialNodes effect)).map (fun k => ⟨inst, k⟩)

/-- The part of setWeather about the particle effect. -/
def setWeather_particles (env : SkyEnvironment) (s : SkyManager) (weather : WeatherResult) :
    SkyManager :=
  if s.mCurrentParticleEffect ≠ weather.mParticleEffect then
    let s1 : SkyManager := { s with mCurrentParticleEffect := weather.mParticleEffect }
    let s2 := setWeather_cleanup s1
    if s2.mCurrentParticleEffect = "" then
      if s2.mParticleNode.isSome then { s2 with mParticleNode := none } else s2
    else
      let s3 : SkyManager :=
        if !s2.mParticleNode.isSome then
          { s2 with
            mParticleNode := some ⟨env.Mask_WeatherParticles, osg.Quat.identity⟩ }
        else s2
      let faders := newAlphaFaders env s3.mCurrentParticleEffect s3.nextInstance
      { s3 with
        mParticleEffect := some s3.nextInstance,
        nextInstance := s3.nextInstance + 1,
        alphaFaders := fun r => if r ∈ faders then 1 else s3.alphaFaders r,
        mParticleFaders := faders }
  else s

/-- The part of setWeather about the two cloud textures. -/
def setWeather_clouds (env : SkyEnvironment) (s : SkyManager) (weather : WeatherResult) :
    SkyManager :=
  let s1 : SkyManager :=
    if s.mClouds ≠ weather.mCloudTexture then
      { s with
        mClouds := weather.mCloudTexture,
        mCloudUpdater := s.mCloudUpdater.setTexture (env.correctTexturePath weather.mCloudTexture) }
    else s
  if s1.mNextClouds ≠ weather.mNextCloudTexture then
    if weather.mNextCloudTexture ≠ "" then
      { s1 with
        mNextClouds := weather.mNextCloudTexture,
        mCloudUpdater2 :=
          s1.mCloudUpdater2.setTexture (env.correctTexturePath weather.mNextCloudTexture) }
    else
      { s1 with mNextClouds := weather.mNextCloudTexture }
  else s1

/-- The part of setWeather about the cloud blend factor. -/
def setWeather_blend (s : SkyManager) (weather : WeatherResult) : SkyManager :=
  if s.mCloudBlendFactor ≠ weather.mCloudBlendFactor then
    { s with
      mCloudBlendFactor := weather.mCloudBlendFactor,
      mCloudUpdater := s.mCloudUpdater.setOpacity (1 - weather.mCloudBlendFactor),
      mCloudUpdater2 := s.mCloudUpdater2.setOpacity weather.mCloudBlendFactor,
      mCloudMesh2 := ⟨if weather.mCloudBlendFactor > 0 then osg.maskAll else 0⟩ }
  else s

/-- The part of setWeather about the cloud, sky and fog colours. -/
def setWeather_colours (s : SkyManager) (weather : WeatherResult) : SkyManager :=
  let s1 : SkyManager :=
    if s.mCloudColour ≠ weather.mFogColor then
      let clr : osg.Vec4 :=
        ⟨weather.mFogColor.x + 13 / 100, weather.mFogColor.y + 13 / 100,
         weather.mFogColor.z + 13 / 100, weather.mFogColor.w + 0⟩
      { s with
        mCloudUpdater := s.mCloudUpdater.setEmissionColor clr,
        mCloudUpdater2 := s.mCloudUpdater2.setEmissionColor clr,
        mCloudColour := weather.mFogColor }
    else s
  let s2 : SkyManager :=
    if s1.mSkyColour ≠ weather.mSkyColor then
      { s1 with
        mSkyColour := weather.mSkyColor,
        mAtmosphereUpdater := ⟨weather.mSkyColor⟩,
        mMasser := s1.mMasser.setAtmosphereColor weather.mSkyColor,
        mSecunda := s1.mSecunda.setAtmosphereColor weather.mSkyColor }
    else s1
  if s2.mFogColour ≠ weather.mFogColor then
    { s2 with mFogColour := weather.mFogColor }
  else s2

/-- The part of setWeather about the cloud speed, the moons, the sun, the stars
and the night node. -/
def setWeather_celestial (s : SkyManager) (weather : WeatherResult) : SkyManager :=
  let s1 : SkyManager :=
    { s with
      mCloudSpeed := weather.mCloudSpeed,
      mMasser := s.mMasser.adjustTransparency weather.mGlareView,
      mSecunda := s.mSecunda.adjustTransparency weather.mGlareView,
      mSun := (s.mSun.setColor weather.mSunDiscColor).adjustTransparency
        (weather.mGlareView * weather.mSunDiscColor.w) }
  let nextStarsOpacity : ℚ := weather.mNightFade * weather.mGlareView
  let s2 : SkyManager :=
    if weather.mNight = true ∧ s1.mStarsOpacity ≠ nextStarsOpacity then
      { s1 with
        mStarsOpacity := nextStarsOpacity,
        mAtmosphereNightUpdater := s1.mAtmosphereNightUpdater.setFade nextStarsOpacity }
    else s1
  { s2 with
    mAtmosphereNightNode :=
      { s2.mAtmosphereNightNode with nodeMask := if weather.mNight then osg.maskAll else 0 } }

/-- The end of setWeather: the alpha of the rain fader and of every particle
fader. -/
def setWeather_faders (s : SkyManager) (weather : WeatherResult) : SkyManager :=
  { s with
    mRainFader := s.mRainFader.map (fun _ => ⟨weather.mEffectFade * (6 / 10)⟩),
    alphaFaders := fun r =>
      if r ∈ s.mParticleFaders then weather.mEffectFade else s.alphaFaders r }

/-- SkyManager::setWeather. -/
def setWeather (env : SkyEnvironment) (s : SkyManager) (weather : WeatherResult) :
    SkyManager :=
  if !s.mCreated then s
  else
    let s1 := setWeather_rain env s weather
    let s2 := setWeather_particles env s1 weather
    let s3 := setWeather_clouds env s2 weather
    let s4 := setWeather_blend s3 weather
    let s5 := setWeather_colours s4 weather
    let s6 := setWeather_celestial s5 weather
    setWeather_faders s6 weather

/-- A call made on the sky manager between its creation and the state that a
claim speaks about. -/
inductive Call where
  | setWeather (weather : WeatherResult)
  | update (timeScaleFactor duration : ℚ)

/-- The state after a sequence of calls. -/
def run (env : SkyEnvironment) (s : SkyManager) (calls : List Call) : SkyManager :=
  calls.foldl
    (fun st c =>
      match c with
      | Call.setWeather weather => setWeather env st weather
      | Call.update timeScaleFactor duration => update env.PI timeScaleFactor st duration)
    s

/-- The part of the state that the claim about the cloud layers speaks about:
the blend factor, the opacities of the two cloud updaters and the node mask of
the second cloud mesh. -/
def cloudView (s : SkyManager) : ℚ × ℚ × ℚ × Nat :=
  (s.mCloudBlendFactor, s.mCloudUpdater.mOpacity, s.mCloudUpdater2.mOpacity,
   s.mCloudMesh2.nodeMask)

/-- Invariant of the cloud layers: the opacities are 1 - mCloudBlendFactor and
mCloudBlendFactor, and the second cloud mesh has a non-zero node mask exactly
when mCloudBlendFactor > 0. -/
def CloudInv (s : SkyManager) : Prop :=
  s.mCloudUpdater.mOpacity = 1 - s.mCloudBlendFactor ∧
  s.mCloudUpdater2.mOpacity = s.mCloudBlendFactor ∧
  (s.mCloudMesh2.nodeMask ≠ 0 ↔ s.mCloudBlendFactor > 0)

/-- The part of the state that the claim about the particle effect speaks
about, with the instance counter. -/
def particleView (s : SkyManager) :
    String × Option osg.PositionAttitudeTransform × Option Nat × List AlphaFaderRef × Nat :=
  (s.mCurrentParticleEffect, s.mParticleNode, s.mParticleEffect, s.mParticleFaders,
   s.nextInstance)

/-- Invariant of the particle effect: the particle node and the effect instance
exist exactly when the current effect name is not empty, every fader of the
list belongs to the current instance, and the current instance was made
before the next one. -/
def ParticleInv (s : SkyManager) : Prop :=
  (s.mParticleNode.isSome = true ↔ s.mCurrentParticleEffect ≠ "") ∧
  (s.mParticleEffect.isSome = true ↔ s.mCurrentParticleEffect ≠ "") ∧
  (∀ r ∈ s.mParticleFaders, s.mParticleEffect = some r.effect) ∧
  (∀ i, s.mParticleEffect = some i → i < s.nextInstance)

/-- A sample environment: every particle effect model has two nodes with a
material. -/
def sampleEnvironment : SkyEnvironment :=
  { PI := 355 / 113, Mask_WeatherParticles := 1024, materialNodes := fun _ => 2,
    correctTexturePath := fun t => "textures/" ++ t }

/-- A sample weather: an ash storm with half blended clouds. -/
def sampleWeather : WeatherResult :=
  { mCloudTexture := "tx_sky_ashstorm.dds", mNextCloudTexture := "tx_sky_clear.dds",
    mCloudBlendFactor := 1 / 2, mFogColor := ⟨1 / 2, 1 / 4, 1 / 4, 1⟩,
    mSkyColor := ⟨1 / 2, 1 / 3, 1 / 3, 1⟩, mSunDiscColor := ⟨1, 1, 1, 1⟩, mNightFade := 0,
    mNight := false, mIsStorm := true, mCloudSpeed := 7, mGlareView := 1 / 4,
    mRainEffect := "", mRainSpeed := 0, mRainFrequency := 1, mWindSpeed := 4 / 5,
    mParticleEffect := "meshes/ashcloud.nif", mEffectFade := 3 / 4 }

/-- A sample weather: clear sky, no particle effect. -/
def sampleWeatherClear : WeatherResult :=
  { sampleWeather with
    mCloudBlendFactor := 0, mIsStorm := false, mParticleEffect := "", mEffectFade := 0 }

/-- A sample sky: created and enabled, at night, no storm. -/
def sampleSky : SkyManager :=
  { create new ⟨1, 0, 0, 1⟩ with
    mEnabled := true, mIsStorm := false, mStormDirection := ⟨0, -1, 0⟩,
    mMasser := ⟨Moon.Type.Type_Masser, MoonState.Phase.Phase_Full, Moon.Updater.new⟩,
    mSecunda := ⟨Moon.Type.Type_Secunda, MoonState.Phase.Phase_WaningGibbous,
      Moon.Updater.new⟩,
    mParticleNode := none, mCloudNode := ⟨1, osg.Quat.identity⟩,
    mCloudAnimationTimer := 0, mCloudSpeed := 1,
    mAtmosphereNightRoll := 0, mAtmosphereNightNode := ⟨1, osg.Quat.identity⟩ }

end SkyManager

end MWRender

/-! ## Further values of the scene-graph toolkit used by sky.cpp -/

namespace osg

/-- The matrix osg::Matrix: the entry _mat[row][col]. -/
abbrev Matrix := Fin 4 → Fin 4 → ℚ

namespace Matrix

/-- Matrix::setTrans(v): the entries _mat[3][0], _mat[3][1] and _mat[3][2]
become the components of v. -/
def setTrans (m : Matrix) (v : Vec3) : Matrix := fun i j =>
  if i = 3 ∧ j = 0 then v.x
  else if i = 3 ∧ j = 1 then v.y
  else if i = 3 ∧ j = 2 then v.z
  else m i j

/-- The matrix that Matrix::makeIdentity stores. -/
def makeIdentity : Matrix := fun i j => if i = j then 1 else 0

end Matrix

/-- The enumeration osg::Transform::ReferenceFrame. -/
inductive ReferenceFrame where
  | RELATIVE_RF
  | ABSOLUTE_RF
  | ABSOLUTE_RF_INHERIT_VIEWPOINT
deriving DecidableEq, Repr

/-- The enumeration osg::NodeVisitor::VisitorType. -/
inductive VisitorType where
  | NODE_VISITOR
  | UPDATE_VISITOR
  | EVENT_VISITOR
  | COLLECT_OCCLUDER_VISITOR
  | CULL_VISITOR
  | INTERSECTION_VISITOR
deriving DecidableEq, Repr

/-- What computeLocalToWorldMatrix reads of the visitor: its type and, for a
cull visitor, the eye point that getEyePoint returns. -/
structure NodeVisitor where
  visitorType : VisitorType
  eyePoint : Vec3
deriving DecidableEq

/-- A frustum osg::Polytope as the cull callback sees it: the number of planes
of its plane list, the result mask (the bit pattern of an unsigned int) and the
stack of masks. -/
structure Polytope where
  planeCount : Nat
  _resultMask : Nat
  _maskStack : List Nat
deriving DecidableEq, Repr

namespace Polytope

/-- Polytope::setResultMask. -/
def setResultMask (p : Polytope) (mask : Nat) : Polytope := { p with _resultMask := mask }

/-- Polytope::pushCurrentMask. -/
def pushCurrentMask (p : Polytope) : Polytope :=
  { p with _maskStack := p._maskStack ++ [p._resultMask] }

/-- Polytope::popCurrentMask. -/
def popCurrentMask (p : Polytope) : Polytope :=
  { p with _maskStack := p._maskStack.dropLast }

end Polytope

/-- What the cull callback uses of an osgUtil::CullVisitor: the two bits of the
culling mode that it tests, the frustum of the last entry of the projection
culling stack and the frustum of the current culling set. -/
structure CullVisitor where
  nearPlaneCulling : Bool
  farPlaneCulling : Bool
  projectionFrustum : Polytope
  currentFrustum : Polytope
deriving DecidableEq, Repr

end osg

namespace MWRender

/-- CameraRelativeTransform::computeLocalToWorldMatrix: the returned flag, the
matrix after the call and the transform after the call (mEyePoint is mutable).
The argument referenceFrame is the member _referenceFrame inherited from
osg::Transform. -/
def CameraRelativeTransform.computeLocalToWorldMatrix (t : CameraRelativeTransform)
    (referenceFrame : osg.ReferenceFrame) (matrix : osg.Matrix) (nv : osg.NodeVisitor) :
    Bool × osg.Matrix × CameraRelativeTransform :=
  let t1 : CameraRelativeTransform :=
    if nv.visitorType = osg.VisitorType.CULL_VISITOR then { t with mEyePoint := nv.eyePoint }
    else t
  if referenceFrame = osg.ReferenceFrame.RELATIVE_RF then
    (false, matrix.setTrans ⟨0, 0, 0⟩, t1)
  else
    (true, osg.Matrix.makeIdentity, t1)

/-- The width of an int in bits. -/
def intBits : Nat := 32

/-- The complement of a 32 bit pattern (operator ~ on an int). -/
def bitNot (mask : Nat) : Nat := mask ^^^ (2 ^ intBits - 1)

/-- The loop of CameraRelativeTransform::CullCallback::operator() that removes
the planes beyond the standard frustum: the pair (mask, resultMask) after the
loop over i = 0 .. planeCount - 1. Both are bit patterns of an int. -/
def CullCallback.loop (numPlanes planeCount : Nat) (resultMask : Nat) : Nat × Nat :=
  (List.range planeCount).foldl
    (fun (st : Nat × Nat) i =>
      let resultMask1 := if i ≥ numPlanes then st.2 &&& bitNot st.1 else st.2
      ((st.1 <<< 1) % 2 ^ intBits, resultMask1))
    (1, resultMask)

/-- The number numPlanes of CullCallback::operator(): four side planes and one
more for each of near and far plane culling that is on. -/
def CullCallback.numPlanes (cv : osg.CullVisitor) : Nat :=
  let n0 := 4
  let n1 := if cv.nearPlaneCulling then n0 + 1 else n0
  if cv.farPlaneCulling then n1 + 1 else n1

/-- The result mask that CullCallback::operator() computes. -/
def CullCallback.resultMask (cv : osg.CullVisitor) : Nat :=
  (CullCallback.loop (CullCallback.numPlanes cv) cv.projectionFrustum.planeCount
    cv.projectionFrustum._resultMask).2

/-- The visitor that the children see during the traversal of
CameraRelativeTransform::CullCallback::operator(): the result mask is set on
both frustums and pushed on their mask stacks. -/
def CullCallback.entered (cv : osg.CullVisitor) : osg.CullVisitor :=
  let resultMask := CullCallback.resultMask cv
  let cv1 := { cv with projectionFrustum := cv.projectionFrustum.setResultMask resultMask }
  let cv2 := { cv1 with currentFrustum := cv1.currentFrustum.setResultMask resultMask }
  let cv3 := { cv2 with projectionFrustum := cv2.projectionFrustum.pushCurrentMask }
  { cv3 with currentFrustum := cv3.currentFrustum.pushCurrentMask }

/-- CameraRelativeTransform::CullCallback::operator(): the visitor after the
call, traverse being what the traversal of the children does to the visitor. -/
def CullCallback.call (cv : osg.CullVisitor) (traverse : osg.CullVisitor → osg.CullVisitor) :
    osg.CullVisitor :=
  let cv5 := traverse (CullCallback.entered cv)
  let cv6 := { cv5 with projectionFrustum := cv5.projectionFrustum.popCurrentMask }
  { cv6 with currentFrustum := cv6.currentFrustum.popCurrentMask }

/-- What ModVertexAlphaVisitor uses of an osg::Geometry: the number of elements
of its vertex array and its colour array. -/
structure Geometry where
  numVertices : Nat
  colorArray : List osg.Vec4
deriving DecidableEq, Repr

/-- A drawable: a geometry, or a drawable for which asGeometry() is null. -/
inductive Drawable where
  | geometry (geom : Geometry)
  | other
deriving DecidableEq, Repr

/-- The visitor ModVertexAlphaVisitor. -/
structure ModVertexAlphaVisitor where
  mMeshType : Int
deriving DecidableEq, Repr

namespace ModVertexAlphaVisitor

/-- The element (*origColors)[i] of the original colour array. The source does
not check the index; outside the array the zero vector is read. -/
def origColor (geom : Geometry) (i : Nat) : osg.Vec4 := geom.colorArray.getD i ⟨0, 0, 0, 0⟩

/-- The value of alpha that the loop body of ModVertexAlphaVisitor::apply
computes for the vertex i. -/
def alpha (v : ModVertexAlphaVisitor) (geom : Geometry) (i : Nat) : ℚ :=
  if v.mMeshType = 0 then (if i % 2 ≠ 0 then 0 else 1)
  else if v.mMeshType = 1 then
    (if i ≥ 49 ∧ i ≤ 64 then 0
     else if i ≥ 33 ∧ i ≤ 48 then 25098 / 100000
     else 1)
  else if v.mMeshType = 2 then
    (if (origColor geom i).x = 1 then 1 else 0)
  else 1

/-- ModVertexAlphaVisitor::apply(osg::Drawable&): a geometry gets a new colour
array with one entry for each element of the vertex array. -/
def apply (v : ModVertexAlphaVisitor) (drw : Drawable) : Drawable :=
  match drw with
  | Drawable.other => Drawable.other
  | Drawable.geometry geom =>
    Drawable.geometry
      { geom with
        colorArray := (List.range geom.numVertices).map (fun i => ⟨0, 0, 0, alpha v geom i⟩) }

/-- ModVertexAlphaVisitor::apply(osg::Geode&): every drawable of the geode. -/
def applyGeode (v : ModVertexAlphaVisitor) (geode : List Drawable) : List Drawable :=
  geode.map (apply v)

/-- The alpha of the vertex i as the claim about ModVertexAlphaVisitor states
it; origX is the x component of the original colour of the vertex. -/
def alphaSpec (meshType : Int) (i : Nat) (origX : ℚ) : ℚ :=
  if meshType = 0 then (if i % 2 = 1 then 0 else 1)
  else if meshType = 1 then
    (if 49 ≤ i ∧ i ≤ 64 then 0 else if 33 ≤ i ∧ i ≤ 48 then 25098 / 100000 else 1)
  else if meshType = 2 then (if origX = 1 then 1 else 0)
  else 1

end ModVertexAlphaVisitor

end MWRender

/-! ## cameracontroller.cpp -/

namespace CSVRender

/-- What the controllers use of an osg::Camera: its view matrix (of the matrix
type M of the toolkit) and the scene below it (of type S). -/
structure Camera (M S : Type) where
  viewMatrix : M
  children : S

/-- The operations of the scene-graph toolkit and of the C library that the
camera controllers call. They are not part of these sources and are parameters
of the model. -/
structure Toolkit (M S : Type) where
  /-- The matrix osg::Matrixd::rotate(angle, axis). -/
  rotate : ℚ → osg.Vec3 → M
  /-- The matrix osg::Matrixd::translate(offset). -/
  translate : osg.Vec3 → M
  /-- The product of two matrices; a *= b stores mult a b in a. -/
  mult : M → M → M
  /-- The matrix that setViewMatrixAsLookAt(eye, center, up) stores. -/
  makeLookAt : osg.Vec3 → osg.Vec3 → osg.Vec3 → M
  /-- The triple (eye, center, up) of getViewMatrixAsLookAt with a look distance. -/
  getLookAt : M → ℚ → osg.Vec3 × osg.Vec3 × osg.Vec3
  /-- The product of a rotation and a vector. -/
  quatRotate : osg.Quat → osg.Vec3 → osg.Vec3
  /-- The vector getRotate().inverse() * offset of a view matrix. -/
  getRotateInverse : M → osg.Vec3 → osg.Vec3
  /-- The function std::acos. -/
  acos : ℚ → ℚ
  /-- The constant osg::PI. -/
  PI : ℚ
  /-- The length of a vector. -/
  length : osg.Vec3 → ℚ
  /-- The world point of the nearest intersection that a LineSegmentIntersector
  from (0,0,0) to LocalForward in projection coordinates finds below the camera
  with the given traversal mask, if there is one. -/
  intersect : Camera M S → Nat → Option osg.Vec3
  /-- The bounding box that an osg::ComputeBoundsVisitor, starting from its reset
  state, computes for a scene with the given traversal mask. -/
  computeBounds : S → Nat → osg.BoundingBox

/-- CameraController::WorldUp. -/
def WorldUp : osg.Vec3 := ⟨0, 0, 1⟩

/-- CameraController::LocalUp. -/
def LocalUp : osg.Vec3 := ⟨0, 1, 0⟩

/-- CameraController::LocalLeft. -/
def LocalLeft : osg.Vec3 := ⟨1, 0, 0⟩

/-- CameraController::LocalForward. -/
def LocalForward : osg.Vec3 := ⟨0, 0, 1⟩

/-- The traversal mask ~0 of an unsigned int. -/
def allMask : Nat := 4294967295

/-- The members of the base class CameraController. The pointer mCamera is an
address (0 is NULL); the camera it points to is passed along with the
controller wherever the source calls getCamera(). -/
structure CameraController where
  mActive : Bool
  mInverted : Bool
  mCameraSensitivity : ℚ
  mSecondaryMoveMult : ℚ
  mWheelMoveMult : ℚ
  mCamera : Nat
deriving DecidableEq

namespace CameraController

/-- The constructor of CameraController. -/
def new : CameraController :=
  { mActive := false, mInverted := false, mCameraSensitivity := 1 / 650,
    mSecondaryMoveMult := 50, mWheelMoveMult := 8, mCamera := 0 }

/-- CameraController::isActive. -/
def isActive (c : CameraController) : Bool := c.mActive

/-- CameraController::getCameraSensitivity. -/
def getCameraSensitivity (c : CameraController) : ℚ := c.mCameraSensitivity

/-- CameraController::getInverted. -/
def getInverted (c : CameraController) : Bool := c.mInverted

/-- CameraController::getSecondaryMovementMultiplier. -/
def getSecondaryMovementMultiplier (c : CameraController) : ℚ := c.mSecondaryMoveMult

/-- CameraController::getWheelMovementMultiplier. -/
def getWheelMovementMultiplier (c : CameraController) : ℚ := c.mWheelMoveMult

/-- The first part of CameraController::setup (find world bounds): the bounds
with the given mask, else the bounds without any mask, else the default box. -/
def setup_bounds {M S : Type} (tk : Toolkit M S) (root : S) (mask : Nat) : osg.BoundingBox :=
  let boundingBox := tk.computeBounds root mask
  if !boundingBox.valid then
    let boundingBox2 := tk.computeBounds root allMask
    if !boundingBox2.valid then
      osg.BoundingBox.set (-1) (-1) (-1) 1 1 1
    else
      boundingBox2
  else
    boundingBox

/-- The second part of CameraController::setup (calculate a good starting
position): the eye that is handed to setViewMatrixAsLookAt for a box. -/
def setup_eye (boundingBox : osg.BoundingBox) (up : osg.Vec3) : osg.Vec3 :=
  let minBounds := (boundingBox.corner 0).sub boundingBox.center
  let maxBounds := (boundingBox.corner 7).sub boundingBox.center
  let camOffset := if up.dot maxBounds > 0 then maxBounds else minBounds
  let camOffset2 := camOffset.scale 2
  camOffset2.add boundingBox.center

/-- CameraController::setup: the camera after the call. -/
def setup {M S : Type} (tk : Toolkit M S) (camera : Camera M S) (root : S) (mask : Nat)
    (up : osg.Vec3) : Camera M S :=
  let boundingBox := setup_bounds tk root mask
  let eye := setup_eye boundingBox up
  let center := boundingBox.center
  { camera with viewMatrix := tk.makeLookAt eye center up }

end CameraController

/-- The members of FreeCameraController, those of the base class included. -/
structure FreeCameraController extends CameraController where
  mLockUpright : Bool
  mModified : Bool
  mNaviPrimary : Bool
  mNaviSecondary : Bool
  mFast : Bool
  mLeft : Bool
  mRight : Bool
  mForward : Bool
  mBackward : Bool
  mRollLeft : Bool
  mRollRight : Bool
  mUp : osg.Vec3
  mLinSpeed : ℚ
  mRotSpeed : ℚ
  mSpeedMult : ℚ
deriving DecidableEq

namespace FreeCameraController

/-- FreeCameraController::yaw, on the controller and the camera of getCamera(). -/
def yaw {M S : Type} (tk : Toolkit M S) (p : FreeCameraController × Camera M S) (value : ℚ) :
    FreeCameraController × Camera M S :=
  ({ p.1 with mModified := true },
   { p.2 with viewMatrix := tk.mult p.2.viewMatrix (tk.rotate value LocalUp) })

/-- FreeCameraController::pitch. -/
def pitch {M S : Type} (tk : Toolkit M S) (p : FreeCameraController × Camera M S) (value : ℚ) :
    FreeCameraController × Camera M S :=
  let Constraint : ℚ := tk.PI / 2 - 1 / 10
  let value1 : ℚ :=
    if p.1.mLockUpright then
      let look := tk.getLookAt p.2.viewMatrix 1
      let eye := look.1
      let center := look.2.1
      let up := look.2.2
      let forward := center.sub eye
      let left := up.cross forward
      let pitchAngle0 := tk.acos (up.dot p.1.mUp)
      let pitchAngle := if (p.1.mUp.cross up).dot left < 0 then pitchAngle0 * (-1) else pitchAngle0
      if |pitchAngle + value| > Constraint then
        (if pitchAngle > 0 then 1 else -1) * Constraint - pitchAngle
      else value
    else value
  ({ p.1 with mModified := true },
   { p.2 with viewMatrix := tk.mult p.2.viewMatrix (tk.rotate value1 LocalLeft) })

/-- FreeCameraController::translate. -/
def translate {M S : Type} (tk : Toolkit M S) (p : FreeCameraController × Camera M S)
    (offset : osg.Vec3) : FreeCameraController × Camera M S :=
  ({ p.1 with mModified := true },
   { p.2 with viewMatrix := tk.mult p.2.viewMatrix (tk.translate offset) })

/-- FreeCameraController::handleMouseMoveEvent: the returned flag, the
controller and the camera after the call. -/
def handleMouseMoveEvent {M S : Type} (tk : Toolkit M S)
    (p : FreeCameraController × Camera M S) (mode : String) (x y : Int) :
    Bool × FreeCameraController × Camera M S :=
  if !p.1.isActive then (false, p)
  else if p.1.mNaviPrimary then
    let scalar : ℚ := p.1.getCameraSensitivity * (if p.1.getInverted then -1 else 1)
    let p1 := yaw tk p (x * scalar)
    let p2 := pitch tk p1 (y * scalar)
    (true, p2)
  else if p.1.mNaviSecondary then
    let movement0 : osg.Vec3 := ⟨0, 0, 0⟩
    let movement1 := movement0.add
      ((LocalLeft.scale ((-x : Int) : ℚ)).scale p.1.getSecondaryMovementMultiplier)
    let movement2 := movement1.add
      ((LocalUp.scale (y : ℚ)).scale p.1.getSecondaryMovementMultiplier)
    (true, translate tk p movement2)
  else if mode = "t-navi" then
    (true, translate tk p
      ((LocalForward.scale (x : ℚ)).scale
        (if p.1.mFast then p.1.getWheelMovementMultiplier else 1)))
  else
    (false, p)

end FreeCameraController

/-- The members of OrbitCameraController, those of the base class included. -/
structure OrbitCameraController extends CameraController where
  mInitialized : Bool
  mNaviPrimary : Bool
  mNaviSecondary : Bool
  mFast : Bool
  mLeft : Bool
  mRight : Bool
  mUp : Bool
  mDown : Bool
  mRollLeft : Bool
  mRollRight : Bool
  mPickingMask : Nat
  mCenter : osg.Vec3
  mDistance : ℚ
  mOrbitSpeed : ℚ
  mOrbitSpeedMult : ℚ
deriving DecidableEq

namespace OrbitCameraController

/-- OrbitCameraController::initialize (the spelling of the name avoids a
reserved word of Lean). -/
def initialise {M S : Type} (tk : Toolkit M S) (p : OrbitCameraController × Camera M S) :
    OrbitCameraController × Camera M S :=
  let DefaultStartDistance : ℚ := 10000
  let hit := tk.intersect p.2 p.1.mPickingMask
  let look := tk.getLookAt p.2.viewMatrix DefaultStartDistance
  let eye := look.1
  let center := look.2.1
  match hit with
  | some point =>
    ({ p.1 with mCenter := point, mDistance := tk.length (eye.sub point), mInitialized := true },
     p.2)
  | none =>
    ({ p.1 with mCenter := center, mDistance := DefaultStartDistance, mInitialized := true },
     p.2)

/-- OrbitCameraController::rotateHorizontal. -/
def rotateHorizontal {M S : Type} (tk : Toolkit M S) (p : OrbitCameraController × Camera M S)
    (value : ℚ) : OrbitCameraController × Camera M S :=
  let look := tk.getLookAt p.2.viewMatrix 1
  let eye := look.1
  let up := look.2.2
  let rotation := osg.Quat.angleAxis value up
  let oldOffset := eye.sub p.1.mCenter
  let newOffset := tk.quatRotate rotation oldOffset
  (p.1, { p.2 with viewMatrix := tk.makeLookAt (p.1.mCenter.add newOffset) p.1.mCenter up })

/-- OrbitCameraController::rotateVertical. -/
def rotateVertical {M S : Type} (tk : Toolkit M S) (p : OrbitCameraController × Camera M S)
    (value : ℚ) : OrbitCameraController × Camera M S :=
  let look := tk.getLookAt p.2.viewMatrix 1
  let eye := look.1
  let center := look.2.1
  let up := look.2.2
  let forward := center.sub eye
  let rotation := osg.Quat.angleAxis value (up.cross forward)
  let oldOffset := eye.sub p.1.mCenter
  let newOffset := tk.quatRotate rotation oldOffset
  (p.1, { p.2 with viewMatrix := tk.makeLookAt (p.1.mCenter.add newOffset) p.1.mCenter up })

/-- OrbitCameraController::translate. -/
def translate {M S : Type} (tk : Toolkit M S) (p : OrbitCameraController × Camera M S)
    (offset : osg.Vec3) : OrbitCameraController × Camera M S :=
  let look := tk.getLookAt p.2.viewMatrix 1
  let eye := look.1
  let up := look.2.2
  let newOffset := tk.getRotateInverse p.2.viewMatrix offset
  let mCenter1 := p.1.mCenter.add newOffset
  let eye1 := eye.add newOffset
  ({ p.1 with mCenter := mCenter1 },
   { p.2 with viewMatrix := tk.makeLookAt eye1 mCenter1 up })

/-- OrbitCameraController::zoom. -/
def zoom {M S : Type} (tk : Toolkit M S) (p : OrbitCameraController × Camera M S)
    (value : ℚ) : OrbitCameraController × Camera M S :=
  let mDistance1 : ℚ := max 10 (p.1.mDistance + value)
  let look := tk.getLookAt p.2.viewMatrix 1
  let eye := look.1
  let center := look.2.1
  let up := look.2.2
  let offset := (eye.sub center).scale mDistance1
  ({ p.1 with mDistance := mDistance1 },
   { p.2 with viewMatrix := tk.makeLookAt (p.1.mCenter.add offset) p.1.mCenter up })

/-- OrbitCameraController::handleMouseMoveEvent: the returned flag, the
controller and the camera after the call. -/
def handleMouseMoveEvent {M S : Type} (tk : Toolkit M S)
    (p : OrbitCameraController × Camera M S) (mode : String) (x y : Int) :
    Bool × OrbitCameraController × Camera M S :=
  if !p.1.isActive then (false, p)
  else
    let p0 := if !p.1.mInitialized then initialise tk p else p
    if p0.1.mNaviPrimary then
      let scalar : ℚ := p0.1.getCameraSensitivity * (if p0.1.getInverted then -1 else 1)
      let p1 := rotateHorizontal tk p0 (x * scalar)
      let p2 := rotateVertical tk p1 (((-y : Int) : ℚ) * scalar)
      (true, p2)
    else if p0.1.mNaviSecondary then
      let movement0 : osg.Vec3 := ⟨0, 0, 0⟩
      let movement1 := movement0.add
        ((LocalLeft.scale (x : ℚ)).scale p0.1.getSecondaryMovementMultiplier)
      let movement2 := movement1.add
        ((LocalUp.scale ((-y : Int) : ℚ)).scale p0.1.getSecondaryMovementMultiplier)
      (true, translate tk p0 movement2)
    else if mode = "t-navi" then
      (true, zoom tk p0
        (((-x : Int) : ℚ) * (if p0.1.mFast then p0.1.getWheelMovementMultiplier else 1)))
    else
      (false, p0)

/-- OrbitCameraController::onActivate. -/
def onActivate (c : OrbitCameraController) : OrbitCameraController :=
  { c with mInitialized := false }

/-- CameraController::setCamera as it runs on an OrbitCameraController, whose
onActivate overrides the virtual function of the base class. The camera is
given by its address (0 is NULL). The enabling and disabling of the keyboard
shortcuts, which belongs to the GUI toolkit, is left out. -/
def setCamera (c : OrbitCameraController) (camera : Nat) : OrbitCameraController :=
  let c1 : OrbitCameraController := { c with mCamera := camera }
  let c2 : OrbitCameraController := { c1 with mActive := decide (c1.mCamera ≠ 0) }
  if c2.mActive then onActivate c2 else c2

end OrbitCameraController

/-! ### Sample values for evaluating the controllers -/

/-- A symbolic view matrix: the toolkit call that produced it. -/
inductive SampleMatrix where
  | identity
  | rotate (angle : ℚ) (axis : osg.Vec3)
  | translate (offset : osg.Vec3)
  | mult (a b : SampleMatrix)
  | lookAt (eye center up : osg.Vec3)
deriving DecidableEq

/-- A sample scene: a list of drawables, each with its node mask and its box. -/
abbrev SampleScene := List (Nat × osg.BoundingBox)

/-- The bounds of a sample scene: the union of the boxes of the drawables whose
node mask meets the traversal mask, starting from the empty box of the
toolkit (minimum above maximum). -/
def sampleComputeBounds (scene : SampleScene) (mask : Nat) : osg.BoundingBox :=
  scene.foldl
    (fun b d =>
      if mask &&& d.1 ≠ 0 then
        ⟨⟨min b._min.x d.2._min.x, min b._min.y d.2._min.y, min b._min.z d.2._min.z⟩,
         ⟨max b._max.x d.2._max.x, max b._max.y d.2._max.y, max b._max.z d.2._max.z⟩⟩
      else b)
    ⟨⟨1000000, 1000000, 1000000⟩, ⟨-1000000, -1000000, -1000000⟩⟩

/-- A sample toolkit over symbolic matrices and sample scenes. -/
def sampleToolkit : Toolkit SampleMatrix SampleScene :=
  { rotate := SampleMatrix.rotate,
    translate := SampleMatrix.translate,
    mult := SampleMatrix.mult,
    makeLookAt := SampleMatrix.lookAt,
    getLookAt := fun m d =>
      match m with
      | SampleMatrix.lookAt eye _ up => (eye, eye.add (LocalForward.scale d), up)
      | _ => (⟨0, 0, 0⟩, LocalForward.scale d, LocalUp),
    quatRotate := fun _ v => v,
    getRotateInverse := fun _ v => v,
    acos := fun _ => 0,
    PI := 355 / 113,
    length := fun v => |v.x| + |v.y| + |v.z|,
    intersect := fun _ _ => none,
    computeBounds := sampleComputeBounds }

/-- A sample scene with one drawable of node mask 2. -/
def sampleScene : SampleScene := [(2, ⟨⟨0, 0, 0⟩, ⟨2, 4, 6⟩⟩)]

/-- A sample camera. -/
def sampleCamera : Camera SampleMatrix SampleScene :=
  { viewMatrix := SampleMatrix.identity, children := sampleScene }

/-- A sample free camera controller: active, no navigation key held. -/
def sampleFree : FreeCameraController :=
  { mActive := true, mInverted := false, mCameraSensitivity := 1 / 650,
    mSecondaryMoveMult := 50, mWheelMoveMult := 8, mCamera := 1,
    mLockUpright := false, mModified := false, mNaviPrimary := false,
    mNaviSecondary := false, mFast := false, mLeft := false, mRight := false,
    mForward := false, mBackward := false, mRollLeft := false, mRollRight := false,
    mUp := LocalUp, mLinSpeed := 1000, mRotSpeed := 355 / 226, mSpeedMult := 8 }

/-- A sample orbit camera controller: active and initialised. -/
def sampleOrbit : OrbitCameraController :=
  { mActive := true, mInverted := false, mCameraSensitivity := 1 / 650,
    mSecondaryMoveMult := 50, mWheelMoveMult := 8, mCamera := 1,
    mInitialized := true, mNaviPrimary := false, mNaviSecondary := false, mFast := false,
    mLeft := false, mRight := false, mUp := false, mDown := false, mRollLeft := false,
    mRollRight := false, mPickingMask := allMask, mCenter := ⟨1, 2, 3⟩, mDistance := 50,
    mOrbitSpeed := 355 / 452, mOrbitSpeedMult := 4 }

end CSVRender

/-! # Theorems -/

namespace MWRender

namespace NpcAnimation

/-! ## Frame lemmas of the part bookkeeping -/

theorem proj_ite {β : Type} (f : NpcAnimation → β) {v : β} {c : Prop} [Decidable c]
    {a b : NpcAnimation} (ha : f a = v) (hb : f b = v) : f (if c then a else b) = v := by
  split <;> assumption

theorem removeIndividualPart_mPartslots (s : NpcAnimation) (type : Nat) :
    (removeIndividualPart s type).mPartslots = Function.update s.mPartslots type (-1) := by
  unfold removeIndividualPart
  repeat' (first | apply proj_ite NpcAnimation.mPartslots | rfl)

theorem removeIndividualPart_mPartPriorities (s : NpcAnimation) (type : Nat) :
    (removeIndividualPart s type).mPartPriorities = Function.update s.mPartPriorities type 0 := by
  unfold removeIndividualPart
  repeat' (first | apply proj_ite NpcAnimation.mPartPriorities | rfl)

theorem removeIndividualPart_robe (s : NpcAnimation) (type : Nat) :
    (removeIndividualPart s type).robe = s.robe := by
  unfold removeIndividualPart
  repeat' (first | apply proj_ite NpcAnimation.robe | rfl)

theorem switch_mPartslots (s : NpcAnimation) (type : Nat) (mesh : String) :
    (addOrReplaceIndividualPart_switch s type mesh).mPartslots = s.mPartslots := by
  unfold addOrReplaceIndividualPart_switch
  repeat' (first | apply proj_ite NpcAnimation.mPartslots | rfl)

theorem switch_mPartPriorities (s : NpcAnimation) (type : Nat) (mesh : String) :
    (addOrReplaceIndividualPart_switch s type mesh).mPartPriorities = s.mPartPriorities := by
  unfold addOrReplaceIndividualPart_switch
  repeat' (first | apply proj_ite NpcAnimation.mPartPriorities | rfl)

theorem switch_robe (s : NpcAnimation) (type : Nat) (mesh : String) :
    (addOrReplaceIndividualPart_switch s type mesh).robe = s.robe := by
  unfold addOrReplaceIndividualPart_switch
  repeat' (first | apply proj_ite NpcAnimation.robe | rfl)

/-- Tables after a successful addOrReplaceIndividualPart. -/
theorem addOrReplace_tables (s : NpcAnimation) (type : Nat) (group priority : Int)
    (mesh : String) (h : s.mPartPriorities type < priority) :
    (addOrReplaceIndividualPart s type group priority mesh).1 = true ∧
    (addOrReplaceIndividualPart s type group priority mesh).2.mPartslots
      = Function.update s.mPartslots type group ∧
    (addOrReplaceIndividualPart s type group priority mesh).2.mPartPriorities
      = Function.update s.mPartPriorities type priority := by
  have hn : ¬ priority ≤ s.mPartPriorities type := not_le.mpr h
  unfold addOrReplaceIndividualPart
  rw [if_neg hn]
  refine ⟨rfl, ?_, ?_⟩
  · rw [switch_mPartslots]
    show Function.update (removeIndividualPart s type).mPartslots type group = _
    rw [removeIndividualPart_mPartslots, Function.update_idem]
  · rw [switch_mPartPriorities]
    show Function.update (removeIndividualPart s type).mPartPriorities type priority = _
    rw [removeIndividualPart_mPartPriorities, Function.update_idem]

/-- A refused addOrReplaceIndividualPart returns the state it was given. -/
theorem addOrReplace_refused (s : NpcAnimation) (type : Nat) (group priority : Int)
    (mesh : String) (h : priority ≤ s.mPartPriorities type) :
    addOrReplaceIndividualPart s type group priority mesh = (false, s) := by
  unfold addOrReplaceIndividualPart
  rw [if_pos h]

/-- Tables after a reserveIndividualPart that takes the part over. -/
theorem reserve_tables (s : NpcAnimation) (type : Nat) (group priority : Int)
    (h : s.mPartPriorities type < priority) :
    (reserveIndividualPart s type group priority).mPartslots
      = Function.update s.mPartslots type group ∧
    (reserveIndividualPart s type group priority).mPartPriorities
      = Function.update s.mPartPriorities type priority := by
  unfold reserveIndividualPart
  rw [if_pos (show priority > s.mPartPriorities type from h)]
  refine ⟨?_, ?_⟩
  · show Function.update (removeIndividualPart s type).mPartslots type group = _
    rw [removeIndividualPart_mPartslots, Function.update_idem]
  · show Function.update (removeIndividualPart s type).mPartPriorities type priority = _
    rw [removeIndividualPart_mPartPriorities, Function.update_idem]

/-- A reserveIndividualPart whose priority is not higher returns the state it was given. -/
theorem reserve_refused (s : NpcAnimation) (type : Nat) (group priority : Int)
    (h : priority ≤ s.mPartPriorities type) :
    reserveIndividualPart s type group priority = s := by
  unfold reserveIndividualPart
  rw [if_neg (not_lt.mpr h)]

/-- One iteration of the loop of removePartGroup. -/
theorem removePartGroup_fold (group : Int) (l : List Nat) :
    ∀ (s : NpcAnimation) (t : Nat),
      (l.foldl (fun st i => if st.mPartslots i = group then removeIndividualPart st i else st)
          s).mPartslots t
        = (if t ∈ l ∧ s.mPartslots t = group then -1 else s.mPartslots t) ∧
      (l.foldl (fun st i => if st.mPartslots i = group then removeIndividualPart st i else st)
          s).mPartPriorities t
        = (if t ∈ l ∧ s.mPartslots t = group then 0 else s.mPartPriorities t) := by
  induction l with
  | nil => intro s t; simp
  | cons i l ih =>
    intro s t
    rw [List.foldl_cons]
    by_cases hi : s.mPartslots i = group
    · rw [if_pos hi]
      have h := ih (removeIndividualPart s i) t
      rw [removeIndividualPart_mPartslots, removeIndividualPart_mPartPriorities] at h
      by_cases hti : t = i
      · subst hti
        simp only [Function.update_same] at h
        simp only [List.mem_cons, true_or, hi, and_self, if_true]
        constructor
        · rw [h.1]; split <;> rfl
        · rw [h.2]; split <;> rfl
      · simp only [Function.update_noteq hti] at h
        simp only [List.mem_cons, hti, false_or]
        exact h
    · rw [if_neg hi]
      have h := ih s t
      by_cases hti : t = i
      · subst hti
        simp only [hi, and_false, if_false] at h ⊢
        exact h
      · simp only [List.mem_cons, hti, false_or]
        exact h

/-! ## The robe invariant -/

theorem foldl_preserves {α β : Type} (P : β → Prop) (f : β → α → β)
    (h : ∀ b a, P b → P (f b a)) : ∀ (l : List α) (b : β), P b → P (l.foldl f b) := by
  intro l
  induction l with
  | nil => intro b hb; exact hb
  | cons a l ih => intro b hb; exact ih (f b a) (h b a hb)

theorem PrioInv_of_tables {R : Int} {S : List Nat} {s s1 : NpcAnimation}
    (h1 : s1.mPartslots = s.mPartslots) (h2 : s1.mPartPriorities = s.mPartPriorities)
    (h : PrioInv R S s) : PrioInv R S s1 := by
  unfold PrioInv at h ⊢
  rw [h1, h2]
  exact h

theorem PrioInv_mono {R : Int} {S T : List Nat} {s : NpcAnimation}
    (hsub : ∀ t ∈ T, t ∈ S) (h : PrioInv R S s) : PrioInv R T s :=
  ⟨h.1, fun t ht => h.2 t (hsub t ht)⟩

theorem PrioInv_update_low {R : Int} {S : List Nat} {s s1 : NpcAnimation} {t : Nat}
    {g p : Int} (h1 : s1.mPartslots = Function.update s.mPartslots t g)
    (h2 : s1.mPartPriorities = Function.update s.mPartPriorities t p)
    (hp : p ≤ 4) (ht : t ∉ S) (h : PrioInv R S s) : PrioInv R S s1 := by
  unfold PrioInv at h ⊢
  rw [h1, h2]
  refine ⟨fun u => ?_, fun u hu => ?_⟩
  · by_cases hut : u = t
    · subst hut
      simp only [Function.update_same]
      exact ⟨by omega, fun h5 => by omega⟩
    · simp only [Function.update_noteq hut]
      exact h.1 u
  · have hut : u ≠ t := fun e => ht (e ▸ hu)
    simp only [Function.update_noteq hut]
    exact h.2 u hu

theorem PrioInv_update_robe {R : Int} {S : List Nat} {s s1 : NpcAnimation} {t : Nat}
    (h1 : s1.mPartslots = Function.update s.mPartslots t R)
    (h2 : s1.mPartPriorities = Function.update s.mPartPriorities t 5)
    (h : PrioInv R S s) : PrioInv R (t :: S) s1 := by
  unfold PrioInv at h ⊢
  rw [h1, h2]
  refine ⟨fun u => ?_, fun u hu => ?_⟩
  · by_cases hut : u = t
    · subst hut
      simp
    · simp only [Function.update_noteq hut]
      exact h.1 u
  · by_cases hut : u = t
    · subst hut
      simp only [Function.update_same]
    · simp only [Function.update_noteq hut]
      rcases List.mem_cons.mp hu with e | hS
      · exact absurd e hut
      · exact h.2 u hS

theorem PrioInv_not_mem {R : Int} {S : List Nat} {s : NpcAnimation} {t : Nat}
    (h : PrioInv R S s) (ht : s.mPartPriorities t < 5) : t ∉ S := by
  intro hm
  have := h.2 t hm
  omega

theorem reserve_low {R : Int} {S : List Nat} (s : NpcAnimation) (t : Nat) (g p : Int)
    (hp : p ≤ 4) (h : PrioInv R S s) : PrioInv R S (reserveIndividualPart s t g p) := by
  by_cases hlt : s.mPartPriorities t < p
  · obtain ⟨h1, h2⟩ := reserve_tables s t g p hlt
    exact PrioInv_update_low h1 h2 hp (PrioInv_not_mem h (by omega)) h
  · rw [reserve_refused s t g p (not_lt.mp hlt)]
    exact h

theorem addOrReplace_low {R : Int} {S : List Nat} (s : NpcAnimation) (t : Nat) (g p : Int)
    (mesh : String) (hp : p ≤ 4) (h : PrioInv R S s) :
    PrioInv R S (addOrReplaceIndividualPart s t g p mesh).2 := by
  by_cases hlt : s.mPartPriorities t < p
  · obtain ⟨_, h1, h2⟩ := addOrReplace_tables s t g p mesh hlt
    exact PrioInv_update_low h1 h2 hp (PrioInv_not_mem h (by omega)) h
  · rw [addOrReplace_refused s t g p mesh (not_lt.mp hlt)]
    exact h

theorem reserve_robe {R : Int} {S : List Nat} (s : NpcAnimation) (t : Nat)
    (h : PrioInv R S s) : PrioInv R (t :: S) (reserveIndividualPart s t R 5) := by
  by_cases hlt : s.mPartPriorities t < 5
  · obtain ⟨h1, h2⟩ := reserve_tables s t R 5 hlt
    exact PrioInv_update_robe h1 h2 h
  · rw [reserve_refused s t R 5 (not_lt.mp hlt)]
    have h5 : s.mPartPriorities t = 5 := le_antisymm (h.1 t).1 (not_lt.mp hlt)
    refine ⟨h.1, fun u hu => ?_⟩
    rcases List.mem_cons.mp hu with e | hS
    · rw [e]; exact h5
    · exact h.2 u hS

theorem addOrReplace_robe {R : Int} {S : List Nat} (s : NpcAnimation) (t : Nat)
    (mesh : String) (h : PrioInv R S s) :
    PrioInv R S (addOrReplaceIndividualPart s t R 5 mesh).2 := by
  by_cases hlt : s.mPartPriorities t < 5
  · obtain ⟨_, h1, h2⟩ := addOrReplace_tables s t R 5 mesh hlt
    exact PrioInv_mono (fun u hu => List.mem_cons_of_mem t hu) (PrioInv_update_robe h1 h2 h)
  · rw [addOrReplace_refused s t R 5 mesh (not_lt.mp hlt)]
    exact h

theorem removeIndividualPart_inv {R : Int} {S : List Nat} (s : NpcAnimation) (t : Nat)
    (ht : t ∉ S) (h : PrioInv R S s) : PrioInv R S (removeIndividualPart s t) :=
  PrioInv_update_low (removeIndividualPart_mPartslots s t)
    (removeIndividualPart_mPartPriorities s t) (by decide) ht h

theorem addPartGroup_inv {R : Int} {S : List Nat} (store : BodyPartStore) (g p : Int)
    (hgp : p ≤ 4 ∨ (g = R ∧ p = 5)) (parts : List PartReference) (s : NpcAnimation)
    (h : PrioInv R S s) : PrioInv R S (addPartGroup store s g p parts) := by
  unfold addPartGroup
  refine foldl_preserves (PrioInv R S) _ ?_ parts s h
  intro st part hst
  dsimp only
  split
  · rcases hgp with hp | ⟨hg, hp⟩
    · exact addOrReplace_low st _ g p _ hp hst
    · subst hg; subst hp; exact addOrReplace_robe st _ _ hst
  · rcases hgp with hp | ⟨hg, hp⟩
    · exact reserve_low st _ g p hp hst
    · subst hg; subst hp
      exact PrioInv_mono (fun u hu => List.mem_cons_of_mem _ hu) (reserve_robe st _ hst)

theorem removePartGroup_inv {R : Int} {S : List Nat} (s : NpcAnimation) (g : Int)
    (hg : g ≠ R ∨ S = []) (h : PrioInv R S s) : PrioInv R S (removePartGroup s g) := by
  have key := removePartGroup_fold g (List.range 27) s
  unfold removePartGroup
  refine ⟨fun t => ?_, fun t ht => ?_⟩
  · rw [(key t).1, (key t).2]
    split
    · exact ⟨by decide, fun h5 => absurd h5 (by decide)⟩
    · exact h.1 t
  · rw [(key t).2]
    rcases hg with hg | hS
    · have h5 := h.2 t ht
      have hR := (h.1 t).2 h5
      rw [if_neg (show ¬ (t ∈ List.range 27 ∧ s.mPartslots t = g) from
        fun hc => hg (hc.2.symm.trans hR))]
      exact h5
    · subst hS
      exact absurd ht (List.not_mem_nil t)

/-! ## The cached robe iterator is only written by the robe check -/

theorem addOrReplace_robeField (s : NpcAnimation) (t : Nat) (g p : Int) (mesh : String) :
    (addOrReplaceIndividualPart s t g p mesh).2.robe = s.robe := by
  unfold addOrReplaceIndividualPart
  split
  · rfl
  · rw [switch_robe]
    exact removeIndividualPart_robe s t

theorem reserve_robeField (s : NpcAnimation) (t : Nat) (g p : Int) :
    (reserveIndividualPart s t g p).robe = s.robe := by
  unfold reserveIndividualPart
  split
  · exact removeIndividualPart_robe s t
  · rfl

theorem removePartGroup_robeField (s : NpcAnimation) (g : Int) :
    (removePartGroup s g).robe = s.robe := by
  unfold removePartGroup
  refine foldl_preserves (fun st : NpcAnimation => st.robe = s.robe) _ ?_ (List.range 27) s rfl
  intro st i hst
  dsimp only
  split
  · rw [removeIndividualPart_robe]; exact hst
  · exact hst

theorem addPartGroup_robeField (store : BodyPartStore) (s : NpcAnimation) (g p : Int)
    (parts : List PartReference) : (addPartGroup store s g p parts).robe = s.robe := by
  unfold addPartGroup
  refine foldl_preserves (fun st : NpcAnimation => st.robe = s.robe) _ ?_ parts s rfl
  intro st part hst
  dsimp only
  split
  · rw [addOrReplace_robeField]; exact hst
  · rw [reserve_robeField]; exact hst

/-! ## The phases of updateParts -/

theorem check_inv {R : Int} {S : List Nat} (get : NpcAnimation → ContainerStoreIterator)
    (set : NpcAnimation → ContainerStoreIterator → NpcAnimation) (en : Bool) (slot : Int)
    (inv : InventoryStore) (p : Bool × NpcAnimation)
    (hset : ∀ x v, (set x v).mPartslots = x.mPartslots ∧
      (set x v).mPartPriorities = x.mPartPriorities)
    (hslot : slot ≠ R ∨ S = []) (h : PrioInv R S p.2) :
    PrioInv R S (updateParts_check get set en slot inv p).2 := by
  unfold updateParts_check
  split
  · exact removePartGroup_inv _ slot hslot (PrioInv_of_tables (hset _ _).1 (hset _ _).2 h)
  · exact h

theorem check_robeField (get : NpcAnimation → ContainerStoreIterator)
    (set : NpcAnimation → ContainerStoreIterator → NpcAnimation) (en : Bool) (slot : Int)
    (inv : InventoryStore) (p : Bool × NpcAnimation)
    (r : ContainerStoreIterator) (hset : ∀ x v, (set x v).robe = x.robe)
    (h : p.2.robe = r) : (updateParts_check get set en slot inv p).2.robe = r := by
  unfold updateParts_check
  split
  · show (removePartGroup _ slot).robe = _
    rw [removePartGroup_robeField, hset]
    exact h
  · exact h

theorem check_flag (get : NpcAnimation → ContainerStoreIterator)
    (set : NpcAnimation → ContainerStoreIterator → NpcAnimation) (en : Bool) (slot : Int)
    (inv : InventoryStore) (p : Bool × NpcAnimation) (h : p.1 = true) :
    (updateParts_check get set en slot inv p).1 = true := by
  unfold updateParts_check
  split
  · rfl
  · exact h

/-- The robe check at the head of updateParts: afterwards the cached iterator is
the one of the inventory, and either nothing happened or apparelChanged is set. -/
theorem check_robe_spec {R : Int} (inv : InventoryStore) (s : NpcAnimation) (S : List Nat)
    (h : PrioInv R S s) :
    (updateParts_check (fun x => x.robe) (fun x v => { x with robe := v }) true R inv
        (false, s)).2.robe = inv.getSlot R ∧
    PrioInv R [] (updateParts_check (fun x => x.robe) (fun x v => { x with robe := v }) true R
        inv (false, s)).2 ∧
    ((updateParts_check (fun x => x.robe) (fun x v => { x with robe := v }) true R inv
        (false, s)).1 = true ∨
     (s.robe = inv.getSlot R ∧
      (updateParts_check (fun x => x.robe) (fun x v => { x with robe := v }) true R inv
        (false, s)).2 = s)) := by
  have h0 : PrioInv R [] s := PrioInv_mono (fun t ht => absurd ht (List.not_mem_nil t)) h
  unfold updateParts_check
  split
  · refine ⟨?_, ?_, Or.inl rfl⟩
    · show (removePartGroup _ R).robe = _
      rw [removePartGroup_robeField]
    · exact removePartGroup_inv _ R (Or.inr rfl) (PrioInv_of_tables rfl rfl h0)
  · rename_i hc
    have he : s.robe = inv.getSlot R := by
      by_contra hne
      exact hc ⟨rfl, hne⟩
    exact ⟨he, h0, Or.inr ⟨he, rfl⟩⟩

/-- The eleven checks after the robe check keep the robe invariant, the cached
robe iterator and a raised apparelChanged. -/
theorem sync_rest {R : Int} (S : List Nat) (ids : SlotIds) (hR : ids.Slot_Robe = R)
    (hd : ids.RobeDistinct) (inv : InventoryStore) (s : NpcAnimation) :
    (PrioInv R S (updateParts_check (fun x => x.robe) (fun x v => { x with robe := v }) true
        ids.Slot_Robe inv (false, s)).2 → PrioInv R S (updateParts_sync ids inv s).2) ∧
    (∀ r, (updateParts_check (fun x => x.robe) (fun x v => { x with robe := v }) true
        ids.Slot_Robe inv (false, s)).2.robe = r → (updateParts_sync ids inv s).2.robe = r) ∧
    ((updateParts_check (fun x => x.robe) (fun x v => { x with robe := v }) true
        ids.Slot_Robe inv (false, s)).1 = true → (updateParts_sync ids inv s).1 = true) := by
  subst hR
  obtain ⟨d1, d2, d3, d4, d5, d6, d7, d8, d9, d10, d11⟩ := hd
  unfold updateParts_sync
  dsimp only
  refine ⟨fun h => ?_, fun r h => ?_, fun h => ?_⟩
  · refine check_inv _ _ _ _ _ _ (fun _ _ => ⟨rfl, rfl⟩) (Or.inl d11) ?_
    refine check_inv _ _ _ _ _ _ (fun _ _ => ⟨rfl, rfl⟩) (Or.inl d10) ?_
    refine check_inv _ _ _ _ _ _ (fun _ _ => ⟨rfl, rfl⟩) (Or.inl d9) ?_
    refine check_inv _ _ _ _ _ _ (fun _ _ => ⟨rfl, rfl⟩) (Or.inl d8) ?_
    refine check_inv _ _ _ _ _ _ (fun _ _ => ⟨rfl, rfl⟩) (Or.inl d7) ?_
    refine check_inv _ _ _ _ _ _ (fun _ _ => ⟨rfl, rfl⟩) (Or.inl d6) ?_
    refine check_inv _ _ _ _ _ _ (fun _ _ => ⟨rfl, rfl⟩) (Or.inl d5) ?_
    refine check_inv _ _ _ _ _ _ (fun _ _ => ⟨rfl, rfl⟩) (Or.inl d4) ?_
    refine check_inv _ _ _ _ _ _ (fun _ _ => ⟨rfl, rfl⟩) (Or.inl d3) ?_
    refine check_inv _ _ _ _ _ _ (fun _ _ => ⟨rfl, rfl⟩) (Or.inl d2) ?_
    refine check_inv _ _ _ _ _ _ (fun _ _ => ⟨rfl, rfl⟩) (Or.inl d1) ?_
    exact h
  · iterate 11 refine check_robeField _ _ _ _ _ _ r (fun _ _ => rfl) ?_
    exact h
  · iterate 11 refine check_flag _ _ _ _ _ _ ?_
    exact h

theorem PrioInv_ite {R : Int} {S : List Nat} {c : Prop} [Decidable c] {a b : NpcAnimation}
    (ha : PrioInv R S a) (hb : PrioInv R S b) : PrioInv R S (if c then a else b) := by
  split <;> assumption

theorem reserve_robe_fold {R : Int} (l : List Nat) :
    ∀ (S : List Nat) (s : NpcAnimation), PrioInv R S s →
      ∀ T : List Nat, (∀ t ∈ T, t ∈ l ∨ t ∈ S) →
        PrioInv R T (l.foldl (fun st t => reserveIndividualPart st t R 5) s) := by
  induction l with
  | nil =>
    intro S s h T hT
    exact PrioInv_mono (fun t ht => (hT t ht).resolve_left (List.not_mem_nil t)) h
  | cons a l ih =>
    intro S s h T hT
    rw [List.foldl_cons]
    refine ih (a :: S) _ (reserve_robe s a h) T (fun t ht => ?_)
    rcases hT t ht with h1 | h2
    · rcases List.mem_cons.mp h1 with e | hl
      · exact Or.inr (e ▸ List.mem_cons_self a S)
      · exact Or.inl hl
    · exact Or.inr (List.mem_cons_of_mem a h2)

theorem robe_block_inv {R : Int} (store : BodyPartStore) (ids : SlotIds)
    (hR : ids.Slot_Robe = R) (inv : InventoryStore) (s : NpcAnimation) (S : List Nat)
    (h : PrioInv R S s) :
    PrioInv R S (updateParts_robe store ids inv s) ∧
    (s.robe ≠ none → PrioInv R robeReserved (updateParts_robe store ids inv s)) ∧
    (updateParts_robe store ids inv s).robe = s.robe := by
  subst hR
  unfold updateParts_robe
  split
  · rename_i it hit
    have h1 : PrioInv ids.Slot_Robe S
        (addPartGroup store s ids.Slot_Robe 5 (inv.deref it).parts) :=
      addPartGroup_inv store _ _ (Or.inr ⟨rfl, rfl⟩) _ s h
    refine ⟨?_, fun _ => ?_, ?_⟩
    · exact reserve_robe_fold robeReserved S _ h1 S (fun t ht => Or.inr ht)
    · exact reserve_robe_fold robeReserved S _ h1 robeReserved (fun t ht => Or.inl ht)
    · refine foldl_preserves (fun st : NpcAnimation => st.robe = s.robe) _ ?_ robeReserved _
        (addPartGroup_robeField store s _ _ _)
      intro st t hst
      dsimp only
      rw [reserve_robeField]
      exact hst
  · rename_i hnone
    exact ⟨h, fun hne => absurd hnone hne, rfl⟩

theorem skirt_block_inv (R : Int) (store : BodyPartStore) (ids : SlotIds)
    (inv : InventoryStore) (s : NpcAnimation) (S : List Nat) (r : ContainerStoreIterator) :
    (PrioInv R S s → PrioInv R S (updateParts_skirt store ids inv s)) ∧
    (s.robe = r → (updateParts_skirt store ids inv s).robe = r) := by
  unfold updateParts_skirt
  split
  · refine ⟨fun h => ?_, fun h => ?_⟩
    · refine foldl_preserves (PrioInv R S) _ ?_ _ _
        (addPartGroup_inv store _ _ (Or.inl (by decide)) _ s h)
      intro st t hst
      exact reserve_low st t _ 4 (by decide) hst
    · refine foldl_preserves (fun st : NpcAnimation => st.robe = r) _ ?_ _ _
        ((addPartGroup_robeField store s _ _ _).trans h)
      intro st t hst
      dsimp only
      rw [reserve_robeField]
      exact hst
  · exact ⟨fun h => h, fun h => h⟩

theorem helmet_block_inv (R : Int) (store : BodyPartStore) (ids : SlotIds)
    (inv : InventoryStore) (s : NpcAnimation) (S : List Nat) (r : ContainerStoreIterator)
    (hS : PRT_Hair ∉ S) :
    (PrioInv R S s → PrioInv R S (updateParts_helmet store ids inv s)) ∧
    (s.robe = r → (updateParts_helmet store ids inv s).robe = r) := by
  unfold updateParts_helmet
  split
  · refine ⟨fun h => ?_, fun h => ?_⟩
    · exact addPartGroup_inv store _ _ (Or.inl (by decide)) _ _
        (removeIndividualPart_inv s PRT_Hair hS h)
    · rw [addPartGroup_robeField, removeIndividualPart_robe]
      exact h
  · exact ⟨fun h => h, fun h => h⟩

theorem group_block_inv (R : Int) (store : BodyPartStore) (inv : InventoryStore)
    (get : NpcAnimation → ContainerStoreIterator) (slot p : Int) (s : NpcAnimation)
    (S : List Nat) (r : ContainerStoreIterator) (hp : p ≤ 4) :
    (PrioInv R S s → PrioInv R S (updateParts_group store inv get slot p s)) ∧
    (s.robe = r → (updateParts_group store inv get slot p s).robe = r) := by
  unfold updateParts_group
  split
  · exact ⟨fun h => addPartGroup_inv store _ _ (Or.inl hp) _ s h,
      fun h => (addPartGroup_robeField store s _ _ _).trans h⟩
  · exact ⟨fun h => h, fun h => h⟩

theorem boots_block_inv (R : Int) (store : BodyPartStore) (ids : SlotIds)
    (inv : InventoryStore) (s : NpcAnimation) (S : List Nat) (r : ContainerStoreIterator) :
    (PrioInv R S s → PrioInv R S (updateParts_boots store ids inv s)) ∧
    (s.robe = r → (updateParts_boots store ids inv s).robe = r) := by
  unfold updateParts_boots
  split
  · split
    · exact ⟨fun h => h, fun h => h⟩
    · split
      · exact ⟨fun h => addPartGroup_inv store _ _ (Or.inl (by decide)) _ s h,
          fun h => (addPartGroup_robeField store s _ _ _).trans h⟩
      · split
        · exact ⟨fun h => addPartGroup_inv store _ _ (Or.inl (by decide)) _ s h,
            fun h => (addPartGroup_robeField store s _ _ _).trans h⟩
        · exact ⟨fun h => h, fun h => h⟩
  · exact ⟨fun h => h, fun h => h⟩

theorem glove_block_inv (R : Int) (store : BodyPartStore) (inv : InventoryStore)
    (get : NpcAnimation → ContainerStoreIterator) (slot : Int) (s : NpcAnimation)
    (S : List Nat) (r : ContainerStoreIterator) :
    (PrioInv R S s → PrioInv R S (updateParts_glove store inv get slot s)) ∧
    (s.robe = r → (updateParts_glove store inv get slot s).robe = r) := by
  unfold updateParts_glove
  split
  · split
    · exact ⟨fun h => addPartGroup_inv store _ _ (Or.inl (by decide)) _ s h,
        fun h => (addPartGroup_robeField store s _ _ _).trans h⟩
    · exact ⟨fun h => addPartGroup_inv store _ _ (Or.inl (by decide)) _ s h,
        fun h => (addPartGroup_robeField store s _ _ _).trans h⟩
  · exact ⟨fun h => h, fun h => h⟩

/-- The blocks of updateParts after the robe block keep the robe invariant and
the cached robe iterator. -/
theorem apparel_rest (R : Int) (store : BodyPartStore) (ids : SlotIds)
    (inv : InventoryStore) (s : NpcAnimation) (S : List Nat) (r : ContainerStoreIterator)
    (hS : PRT_Hair ∉ S) :
    (PrioInv R S (updateParts_robe store ids inv s) →
      PrioInv R S (updateParts_apparel store ids inv s)) ∧
    ((updateParts_robe store ids inv s).robe = r →
      (updateParts_apparel store ids inv s).robe = r) := by
  unfold updateParts_apparel
  dsimp only
  refine ⟨fun h => ?_, fun h => ?_⟩
  · refine (group_block_inv R store inv _ _ _ _ S r (by decide)).1 ?_
    refine (group_block_inv R store inv _ _ _ _ S r (by decide)).1 ?_
    refine (glove_block_inv R store inv _ _ _ S r).1 ?_
    refine (glove_block_inv R store inv _ _ _ S r).1 ?_
    refine (boots_block_inv R store ids inv _ S r).1 ?_
    refine (group_block_inv R store inv _ _ _ _ S r (by decide)).1 ?_
    refine (group_block_inv R store inv _ _ _ _ S r (by decide)).1 ?_
    refine (group_block_inv R store inv _ _ _ _ S r (by decide)).1 ?_
    refine (group_block_inv R store inv _ _ _ _ S r (by decide)).1 ?_
    refine (helmet_block_inv R store ids inv _ S r hS).1 ?_
    refine (skirt_block_inv R store ids inv _ S r).1 ?_
    exact h
  · refine (group_block_inv R store inv _ _ _ _ S r (by decide)).2 ?_
    refine (group_block_inv R store inv _ _ _ _ S r (by decide)).2 ?_
    refine (glove_block_inv R store inv _ _ _ S r).2 ?_
    refine (glove_block_inv R store inv _ _ _ S r).2 ?_
    refine (boots_block_inv R store ids inv _ S r).2 ?_
    refine (group_block_inv R store inv _ _ _ _ S r (by decide)).2 ?_
    refine (group_block_inv R store inv _ _ _ _ S r (by decide)).2 ?_
    refine (group_block_inv R store inv _ _ _ _ S r (by decide)).2 ?_
    refine (group_block_inv R store inv _ _ _ _ S r (by decide)).2 ?_
    refine (helmet_block_inv R store ids inv _ S r hS).2 ?_
    refine (skirt_block_inv R store ids inv _ S r).2 ?_
    exact h

/-- The tail of updateParts keeps the robe invariant and the cached robe
iterator. -/
theorem body_inv (R : Int) (store : BodyPartStore) (s : NpcAnimation) (S : List Nat)
    (r : ContainerStoreIterator) :
    (PrioInv R S s → PrioInv R S (updateParts_body store s)) ∧
    (s.robe = r → (updateParts_body store s).robe = r) := by
  unfold updateParts_body
  dsimp only
  refine ⟨fun h => ?_, fun h => ?_⟩
  · have h1 : PrioInv R S (if s.mPartPriorities PRT_Head < 1 then
        (addOrReplaceIndividualPart s PRT_Head (-1) 1 s.headModel).2 else s) :=
      PrioInv_ite (addOrReplace_low s _ _ _ _ (by decide) h) h
    refine foldl_preserves (PrioInv R S) _ ?_ PartTypeList _
      (PrioInv_ite (addOrReplace_low _ _ _ _ _ (by decide) h1) h1)
    intro st e hst
    dsimp only
    refine PrioInv_ite ?_ hst
    split
    · exact addOrReplace_low st _ _ _ _ (by decide) hst
    · exact hst
  · have h1 : (if s.mPartPriorities PRT_Head < 1 then
        (addOrReplaceIndividualPart s PRT_Head (-1) 1 s.headModel).2 else s).robe = r :=
      proj_ite NpcAnimation.robe ((addOrReplace_robeField s _ _ _ _).trans h) h
    refine foldl_preserves (fun st : NpcAnimation => st.robe = r) _ ?_ PartTypeList _
      (proj_ite NpcAnimation.robe ((addOrReplace_robeField _ _ _ _ _).trans h1) h1)
    intro st e hst
    dsimp only
    refine proj_ite NpcAnimation.robe ?_ hst
    split
    · exact (addOrReplace_robeField st _ _ _ _).trans hst
    · exact hst

/-- One call of updateParts re-establishes the invariant and caches the robe
iterator of the inventory. -/
theorem updateParts_RobeInv (store : BodyPartStore) (ids : SlotIds) (hd : ids.RobeDistinct)
    (inv : InventoryStore) (s : NpcAnimation) (h : RobeInv ids.Slot_Robe s) :
    (updateParts store ids inv s).robe = inv.getSlot ids.Slot_Robe ∧
    RobeInv ids.Slot_Robe (updateParts store ids inv s) := by
  obtain ⟨c1, c2, c3⟩ := check_robe_spec inv s [] h.1
  have hs0 := sync_rest [] ids rfl hd inv s
  have hsR := sync_rest robeReserved ids rfl hd inv s
  have p_robe : (updateParts_sync ids inv s).2.robe = inv.getSlot ids.Slot_Robe :=
    hs0.2.1 _ c1
  have p_inv : PrioInv ids.Slot_Robe [] (updateParts_sync ids inv s).2 := hs0.1 c2
  have key : (if (updateParts_sync ids inv s).1 = true then
        updateParts_apparel store ids inv (updateParts_sync ids inv s).2
      else (updateParts_sync ids inv s).2).robe = inv.getSlot ids.Slot_Robe ∧
      RobeInv ids.Slot_Robe (if (updateParts_sync ids inv s).1 = true then
        updateParts_apparel store ids inv (updateParts_sync ids inv s).2
      else (updateParts_sync ids inv s).2) := by
    by_cases hflag : (updateParts_sync ids inv s).1 = true
    · rw [if_pos hflag]
      obtain ⟨r1, r2, r3⟩ :=
        robe_block_inv store ids rfl inv (updateParts_sync ids inv s).2 [] p_inv
      have a0 := apparel_rest ids.Slot_Robe store ids inv (updateParts_sync ids inv s).2
        [] (inv.getSlot ids.Slot_Robe) (by decide)
      have aR := apparel_rest ids.Slot_Robe store ids inv (updateParts_sync ids inv s).2
        robeReserved (inv.getSlot ids.Slot_Robe) (by decide)
      have hrobe := a0.2 (r3.trans p_robe)
      refine ⟨hrobe, a0.1 r1, fun hne => aR.1 (r2 ?_)⟩
      rw [p_robe]
      rw [hrobe] at hne
      exact hne
    · rw [if_neg hflag]
      refine ⟨p_robe, p_inv, fun hne => ?_⟩
      rcases c3 with hc | ⟨he, hc⟩
      · exact absurd (hs0.2.2 hc) hflag
      · refine hsR.1 ?_
        rw [hc]
        refine h.2 ?_
        rw [he]
        rw [p_robe] at hne
        exact hne
  obtain ⟨mid, hmid⟩ : ∃ mid, mid = (if (updateParts_sync ids inv s).1 = true then
        updateParts_apparel store ids inv (updateParts_sync ids inv s).2
      else (updateParts_sync ids inv s).2) := ⟨_, rfl⟩
  rw [← hmid] at key
  have hbody : updateParts store ids inv s = updateParts_body store mid := by
    rw [hmid]
    rfl
  rw [hbody]
  have b0 := body_inv ids.Slot_Robe store mid [] (inv.getSlot ids.Slot_Robe)
  have bR := body_inv ids.Slot_Robe store mid robeReserved (inv.getSlot ids.Slot_Robe)
  refine ⟨b0.2 key.1, b0.1 key.2.1, fun hne => bR.1 (key.2.2 ?_)⟩
  rw [b0.2 key.1] at hne
  rw [key.1]
  exact hne

theorem init_RobeInv (R : Int) (isFemale isBeast : Bool)
    (headModel hairModel bodyRaceID : String) :
    RobeInv R (init isFemale isBeast headModel hairModel bodyRaceID) := by
  refine ⟨⟨fun t => ⟨show (0 : Int) ≤ 5 by decide,
      fun h => absurd h (show ¬ ((0 : Int) = 5) by decide)⟩, fun t ht => ?_⟩,
    fun hne => absurd rfl hne⟩
  exact absurd ht (List.not_mem_nil t)

theorem runUpdates_RobeInv (store : BodyPartStore) (ids : SlotIds) (hd : ids.RobeDistinct)
    (invs : List InventoryStore) (s : NpcAnimation) (h : RobeInv ids.Slot_Robe s) :
    RobeInv ids.Slot_Robe (runUpdates store ids s invs) := by
  unfold runUpdates
  exact foldl_preserves (RobeInv ids.Slot_Robe) _
    (fun st inv hst => (updateParts_RobeInv store ids hd inv st hst).2) invs s h

/-- After a call of updateParts with a robe in the inventory the twelve robe
part types belong to the robe group with priority 5. -/
theorem updateParts_robe_parts (store : BodyPartStore) (ids : SlotIds)
    (hd : ids.RobeDistinct) (inv : InventoryStore) (s : NpcAnimation)
    (h : RobeInv ids.Slot_Robe s) (hrobe : inv.getSlot ids.Slot_Robe ≠ none) :
    ∀ t ∈ robeReserved,
      (updateParts store ids inv s).mPartslots t = ids.Slot_Robe ∧
      (updateParts store ids inv s).mPartPriorities t = 5 := by
  obtain ⟨h1, h2⟩ := updateParts_RobeInv store ids hd inv s h
  intro t ht
  have hR := h2.2 (by rw [h1]; exact hrobe)
  have h5 := hR.2 t ht
  exact ⟨(hR.1 t).2 h5, h5⟩

/-! ## Claims -/

/-- C1: addOrReplaceIndividualPart(type, group, priority, mesh) returns false
exactly when priority <= mPartPriorities[type], and in that case the whole
object state (slot table, priority table, entity pointers, attached entities)
is the state before the call; for every part type 0..26, group and priority. -/
theorem addOrReplaceIndividualPart_false_iff (s : NpcAnimation) (type : Nat)
    (group priority : Int) (mesh : String) (_htype : type < 27) :
    ((addOrReplaceIndividualPart s type group priority mesh).1 = false
        ↔ priority ≤ s.mPartPriorities type) ∧
    ((addOrReplaceIndividualPart s type group priority mesh).1 = false →
        (addOrReplaceIndividualPart s type group priority mesh).2 = s) := by
  by_cases h : priority ≤ s.mPartPriorities type
  · rw [addOrReplace_refused s type group priority mesh h]
    exact ⟨⟨fun _ => h, fun _ => rfl⟩, fun _ => rfl⟩
  · have ht := (addOrReplace_tables s type group priority mesh (not_le.mp h)).1
    rw [ht]
    exact ⟨⟨fun hf => absurd hf (by decide), fun hp => absurd hp h⟩,
      fun hf => absurd hf (by decide)⟩

/-- C2: for a part type t in 0..26 and a priority strictly greater than
mPartPriorities[t], addOrReplaceIndividualPart returns true, afterwards
mPartslots[t] = group and mPartPriorities[t] = priority, and the slot and
priority entries of every other part type are unchanged. -/
theorem addOrReplaceIndividualPart_takes (s : NpcAnimation) (t : Nat)
    (group priority : Int) (mesh : String) (_ht : t < 27)
    (hp : s.mPartPriorities t < priority) :
    (addOrReplaceIndividualPart s t group priority mesh).1 = true ∧
    (addOrReplaceIndividualPart s t group priority mesh).2.mPartslots t = group ∧
    (addOrReplaceIndividualPart s t group priority mesh).2.mPartPriorities t = priority ∧
    ∀ u, u ≠ t →
      (addOrReplaceIndividualPart s t group priority mesh).2.mPartslots u = s.mPartslots u ∧
      (addOrReplaceIndividualPart s t group priority mesh).2.mPartPriorities u
        = s.mPartPriorities u := by
  obtain ⟨h1, h2, h3⟩ := addOrReplace_tables s t group priority mesh hp
  refine ⟨h1, ?_, ?_, ?_⟩
  · rw [h2, Function.update_same]
  · rw [h3, Function.update_same]
  · intro u hu
    rw [h2, h3, Function.update_noteq hu, Function.update_noteq hu]
    exact ⟨rfl, rfl⟩

/-- C3: for a group other than -1, after removePartGroup(group) no part type
0..26 has mPartslots equal to the group; every part type that was assigned to
the group has slot -1 and priority 0, and every part type that was assigned to
another slot value keeps its slot and priority. -/
theorem removePartGroup_clears (s : NpcAnimation) (group : Int) (hg : group ≠ -1) :
    (∀ t, t < 27 → (removePartGroup s group).mPartslots t ≠ group) ∧
    (∀ t, t < 27 → s.mPartslots t = group →
        (removePartGroup s group).mPartslots t = -1 ∧
        (removePartGroup s group).mPartPriorities t = 0) ∧
    (∀ t, s.mPartslots t ≠ group →
        (removePartGroup s group).mPartslots t = s.mPartslots t ∧
        (removePartGroup s group).mPartPriorities t = s.mPartPriorities t) := by
  have key := removePartGroup_fold group (List.range 27) s
  refine ⟨?_, ?_, ?_⟩
  · intro t ht
    have h := (key t).1
    unfold removePartGroup
    rw [h]
    by_cases hs : s.mPartslots t = group
    · rw [if_pos ⟨List.mem_range.mpr ht, hs⟩]
      exact fun h => hg h.symm
    · rw [if_neg (fun h => hs h.2)]
      exact hs
  · intro t ht hs
    unfold removePartGroup
    rw [(key t).1, (key t).2, if_pos ⟨List.mem_range.mpr ht, hs⟩,
      if_pos ⟨List.mem_range.mpr ht, hs⟩]
    exact ⟨rfl, rfl⟩
  · intro t hs
    unfold removePartGroup
    rw [(key t).1, (key t).2, if_neg (fun h => hs h.2), if_neg (fun h => hs h.2)]
    exact ⟨rfl, rfl⟩

/-- Witness of C1: a priority of 0 on a fresh table (priority 0) is refused. -/
theorem addOrReplaceIndividualPart_false_iff_witness :
    PRT_Groin < 27 ∧
    (((addOrReplaceIndividualPart (init false false "head.nif" "hair.nif" "b_n_dark elf")
          PRT_Groin 11 0 "groin.nif").1 = false
        ↔ (0 : Int) ≤ (init false false "head.nif" "hair.nif" "b_n_dark elf").mPartPriorities
            PRT_Groin) ∧
     ((addOrReplaceIndividualPart (init false false "head.nif" "hair.nif" "b_n_dark elf")
          PRT_Groin 11 0 "groin.nif").1 = false →
      (addOrReplaceIndividualPart (init false false "head.nif" "hair.nif" "b_n_dark elf")
          PRT_Groin 11 0 "groin.nif").2
        = init false false "head.nif" "hair.nif" "b_n_dark elf")) :=
  ⟨by decide,
    addOrReplaceIndividualPart_false_iff
      (init false false "head.nif" "hair.nif" "b_n_dark elf") PRT_Groin 11 0 "groin.nif"
      (by decide)⟩

/-- Witness of C2: priority 5 on a fresh table takes the groin for group 11. -/
theorem addOrReplaceIndividualPart_takes_witness :
    (addOrReplaceIndividualPart (init false false "head.nif" "hair.nif" "b_n_dark elf")
        PRT_Groin 11 5 "groin.nif").1 = true ∧
    (addOrReplaceIndividualPart (init false false "head.nif" "hair.nif" "b_n_dark elf")
        PRT_Groin 11 5 "groin.nif").2.mPartslots PRT_Groin = 11 ∧
    (addOrReplaceIndividualPart (init false false "head.nif" "hair.nif" "b_n_dark elf")
        PRT_Groin 11 5 "groin.nif").2.mPartPriorities PRT_Groin = 5 ∧
    ∀ u, u ≠ PRT_Groin →
      (addOrReplaceIndividualPart (init false false "head.nif" "hair.nif" "b_n_dark elf")
          PRT_Groin 11 5 "groin.nif").2.mPartslots u
        = (init false false "head.nif" "hair.nif" "b_n_dark elf").mPartslots u ∧
      (addOrReplaceIndividualPart (init false false "head.nif" "hair.nif" "b_n_dark elf")
          PRT_Groin 11 5 "groin.nif").2.mPartPriorities u
        = (init false false "head.nif" "hair.nif" "b_n_dark elf").mPartPriorities u :=
  addOrReplaceIndividualPart_takes
    (init false false "head.nif" "hair.nif" "b_n_dark elf") PRT_Groin 11 5 "groin.nif"
    (by decide) (by decide)

/-- Witness of C3: removing group 11 from the state in which the groin belongs
to group 11. -/
theorem removePartGroup_clears_witness :
    (11 : Int) ≠ -1 ∧
    (removePartGroup
        (addOrReplaceIndividualPart (init false false "head.nif" "hair.nif" "b_n_dark elf")
          PRT_Groin 11 5 "groin.nif").2 11).mPartslots PRT_Groin = -1 ∧
    (removePartGroup
        (addOrReplaceIndividualPart (init false false "head.nif" "hair.nif" "b_n_dark elf")
          PRT_Groin 11 5 "groin.nif").2 11).mPartPriorities PRT_Groin = 0 :=
  ⟨by decide,
    (removePartGroup_clears
      (addOrReplaceIndividualPart (init false false "head.nif" "hair.nif" "b_n_dark elf")
        PRT_Groin 11 5 "groin.nif").2 11 (by decide)).2.1 PRT_Groin (by decide) (by decide)⟩

/-- C4 (the code departs from the claim): a foot mesh attached by
addOrReplaceIndividualPart(PRT_RFoot, ...) is stored in lupperArm, rfoot stays
null, and a later reserveIndividualPart(PRT_RFoot, 7, 3) takes the part type
over (slot 7, priority 3) while the foot mesh stays attached. -/
theorem reserveIndividualPart_keeps_foot_mesh :
    (addOrReplaceIndividualPart (init false false "" "" "") PRT_RFoot (-1) 1
        "foot.nif").2.attached = [⟨1, "foot.nif", "Right Foot"⟩] ∧
    (addOrReplaceIndividualPart (init false false "" "" "") PRT_RFoot (-1) 1
        "foot.nif").2.rfoot = 0 ∧
    (addOrReplaceIndividualPart (init false false "" "" "") PRT_RFoot (-1) 1
        "foot.nif").2.lupperArm = 1 ∧
    (reserveIndividualPart
      (addOrReplaceIndividualPart (init false false "" "" "") PRT_RFoot (-1) 1 "foot.nif").2
      PRT_RFoot 7 3).mPartslots PRT_RFoot = 7 ∧
    (reserveIndividualPart
      (addOrReplaceIndividualPart (init false false "" "" "") PRT_RFoot (-1) 1 "foot.nif").2
      PRT_RFoot 7 3).mPartPriorities PRT_RFoot = 3 ∧
    (reserveIndividualPart
      (addOrReplaceIndividualPart (init false false "" "" "") PRT_RFoot (-1) 1 "foot.nif").2
      PRT_RFoot 7 3).attached = [⟨1, "foot.nif", "Right Foot"⟩] := by
  decide

end NpcAnimation

end MWRender

/-! ## Theorems about sky.cpp -/

namespace MWRender

theorem Moon.getPhaseInt_eq_spec (m : Moon) : (m.getPhaseInt : Int) = phaseNumberSpec m.mPhase := by
  cases m with
  | mk ty ph up => cases ph <;> rfl

/-- C6: getMasserPhase and getSecundaPhase return 0 while the sky has not been
created; once created they return the number of the phase of the moon as the
claim lists it (0 New, 1 crescents, 2 quarters, 3 gibbous, 4 Full, 0 for any
other value). The result always lies in 0..4, and a waxing phase and its waning
counterpart have the same number. -/
theorem SkyManager.getPhase_spec (s : SkyManager) :
    (s.mCreated = false → s.getMasserPhase = 0 ∧ s.getSecundaPhase = 0) ∧
    (s.mCreated = true →
      s.getMasserPhase = phaseNumberSpec s.mMasser.mPhase ∧
      s.getSecundaPhase = phaseNumberSpec s.mSecunda.mPhase) ∧
    (0 ≤ s.getMasserPhase ∧ s.getMasserPhase ≤ 4 ∧
      0 ≤ s.getSecundaPhase ∧ s.getSecundaPhase ≤ 4) ∧
    (phaseNumberSpec MoonState.Phase.Phase_WaxingCrescent
        = phaseNumberSpec MoonState.Phase.Phase_WaningCrescent ∧
     phaseNumberSpec MoonState.Phase.Phase_FirstQuarter
        = phaseNumberSpec MoonState.Phase.Phase_ThirdQuarter ∧
     phaseNumberSpec MoonState.Phase.Phase_WaxingGibbous
        = phaseNumberSpec MoonState.Phase.Phase_WaningGibbous) := by
  have hbound : ∀ ph : MoonState.Phase, 0 ≤ phaseNumberSpec ph ∧ phaseNumberSpec ph ≤ 4 := by
    intro ph
    cases ph <;> decide
  unfold SkyManager.getMasserPhase SkyManager.getSecundaPhase
  rw [Moon.getPhaseInt_eq_spec, Moon.getPhaseInt_eq_spec]
  refine ⟨fun h => ?_, fun h => ?_, ?_, rfl, rfl, rfl⟩
  · rw [h]
    exact ⟨rfl, rfl⟩
  · rw [h]
    exact ⟨rfl, rfl⟩
  · cases s.mCreated
    · exact ⟨le_refl _, show (0 : Int) ≤ 4 by decide, le_refl _, show (0 : Int) ≤ 4 by decide⟩
    · exact ⟨(hbound _).1, (hbound _).2, (hbound _).1, (hbound _).2⟩

/-- C8: the subgraph is traversed exactly when it is not the case that the
switch is enabled and the z of the last eye point is strictly below the water
level; an eye exactly at the water level and a disabled switch always
traverse. -/
theorem UnderwaterSwitchCallback.call_spec (cb : UnderwaterSwitchCallback) :
    (cb.call = true ↔
      ¬ (cb.mEnabled = true ∧
          cb.mCameraRelativeTransform.getLastEyePoint.z < cb.mWaterLevel)) ∧
    (cb.mCameraRelativeTransform.getLastEyePoint.z = cb.mWaterLevel → cb.call = true) ∧
    (cb.mEnabled = false → cb.call = true) := by
  have key : cb.call = true ↔
      ¬ (cb.mEnabled = true ∧
          cb.mCameraRelativeTransform.getLastEyePoint.z < cb.mWaterLevel) := by
    unfold UnderwaterSwitchCallback.call
    dsimp only
    split
    · rename_i h
      exact ⟨fun hf => absurd hf (by decide), fun hn => absurd h hn⟩
    · rename_i h
      exact ⟨fun _ => h, fun _ => rfl⟩
  refine ⟨key, fun hz => key.mpr (fun h => ?_), fun hd => key.mpr (fun h => ?_)⟩
  · rw [hz] at h
    exact lt_irrefl _ h.2
  · rw [hd] at h
    exact absurd h.1 (by decide)

theorem SkyManager.update_enabled (PI timeScaleFactor : ℚ) (s : SkyManager) (duration : ℚ)
    (h : s.mEnabled = true) :
    (SkyManager.update PI timeScaleFactor s duration).mAtmosphereNightRoll
      = s.mAtmosphereNightRoll
        + timeScaleFactor * duration / (3600 * 96) * osg.DegreesToRadians PI 360 ∧
    (SkyManager.update PI timeScaleFactor s duration).mEnabled = true := by
  have hne : ¬ ((!s.mEnabled) = true) := by simp [h]
  have e : timeScaleFactor * duration * osg.DegreesToRadians PI 360 / (3600 * 96)
      = timeScaleFactor * duration / (3600 * 96) * osg.DegreesToRadians PI 360 := by ring
  unfold SkyManager.update
  rw [if_neg hne]
  dsimp only
  rw [e]
  split <;> split <;> exact ⟨rfl, h⟩

theorem SkyManager.updates_enabled (PI : ℚ) (frames : List (ℚ × ℚ)) :
    ∀ s : SkyManager, s.mEnabled = true →
      (SkyManager.updates PI s frames).mAtmosphereNightRoll
        = s.mAtmosphereNightRoll
          + SkyManager.gameTime frames / (3600 * 96) * osg.DegreesToRadians PI 360 := by
  induction frames with
  | nil => intro s _; simp [SkyManager.updates, SkyManager.gameTime]
  | cons f frames ih =>
    intro s h
    obtain ⟨h1, h2⟩ := SkyManager.update_enabled PI f.1 s f.2 h
    have := ih _ h2
    unfold SkyManager.updates at this ⊢
    rw [List.foldl_cons, this, h1]
    unfold SkyManager.gameTime
    rw [List.map_cons, List.sum_cons]
    ring

/-- C9: for an enabled sky every update(duration) adds
timeScaleFactor * duration / (3600 * 96) of a full turn (DegreesToRadians(360),
exact arithmetic) to mAtmosphereNightRoll, so a sequence of updates whose game
time sums to 345600 seconds (4 days) adds exactly one full turn; the update of
a disabled sky changes nothing. -/
theorem SkyManager.update_rotates_stars (PI : ℚ) (s : SkyManager) :
    (s.mEnabled = true → ∀ timeScaleFactor duration : ℚ,
      (SkyManager.update PI timeScaleFactor s duration).mAtmosphereNightRoll
        = s.mAtmosphereNightRoll
          + timeScaleFactor * duration / (3600 * 96) * osg.DegreesToRadians PI 360) ∧
    (s.mEnabled = true → ∀ frames : List (ℚ × ℚ), SkyManager.gameTime frames = 345600 →
      (SkyManager.updates PI s frames).mAtmosphereNightRoll
        = s.mAtmosphereNightRoll + osg.DegreesToRadians PI 360) ∧
    (s.mEnabled = false → ∀ timeScaleFactor duration : ℚ,
      SkyManager.update PI timeScaleFactor s duration = s) := by
  refine ⟨fun h tsf d => (SkyManager.update_enabled PI tsf s d h).1, fun h frames hg => ?_,
    fun h tsf d => ?_⟩
  · rw [SkyManager.updates_enabled PI frames s h, hg]
    norm_num
  · unfold SkyManager.update
    rw [h]
    rfl

/-- Witness of C6: the sample sky has a full Masser (4) and a waning gibbous
Secunda (3). -/
theorem SkyManager.getPhase_spec_witness :
    SkyManager.sampleSky.mCreated = true ∧
    SkyManager.sampleSky.getMasserPhase = 4 ∧ SkyManager.sampleSky.getSecundaPhase = 3 :=
  ⟨rfl, ((SkyManager.getPhase_spec SkyManager.sampleSky).2.1 rfl).1,
    ((SkyManager.getPhase_spec SkyManager.sampleSky).2.1 rfl).2⟩

/-- Witness of C8: an enabled switch with the eye exactly at the water level
traverses. -/
theorem UnderwaterSwitchCallback.call_spec_witness :
    (UnderwaterSwitchCallback.setWaterLevel
      (UnderwaterSwitchCallback.new ⟨⟨0, 0, 5⟩⟩) 5).call = true :=
  (UnderwaterSwitchCallback.call_spec
    (UnderwaterSwitchCallback.setWaterLevel (UnderwaterSwitchCallback.new ⟨⟨0, 0, 5⟩⟩) 5)).2.1
    rfl

/-- Witness of C9: four frames of one game day each (time scale 30, 2880
seconds) turn the stars of the sample sky by one full turn. -/
theorem SkyManager.update_rotates_stars_witness :
    SkyManager.sampleSky.mEnabled = true ∧
    SkyManager.gameTime [(30, 2880), (30, 2880), (30, 2880), (30, 2880)] = 345600 ∧
    (SkyManager.updates (355 / 113) SkyManager.sampleSky
        [(30, 2880), (30, 2880), (30, 2880), (30, 2880)]).mAtmosphereNightRoll
      = SkyManager.sampleSky.mAtmosphereNightRoll + osg.DegreesToRadians (355 / 113) 360 :=
  ⟨rfl, by norm_num [SkyManager.gameTime],
    (SkyManager.update_rotates_stars (355 / 113) SkyManager.sampleSky).2.1 rfl _
      (by norm_num [SkyManager.gameTime])⟩

end MWRender

/-! ## Theorems about cameracontroller.cpp -/

namespace CSVRender

theorem FreeCameraController.free_mouseMove_spec {M S : Type} (tk : Toolkit M S)
    (p : FreeCameraController × Camera M S) (mode : String) (x y : Int) :
    ((FreeCameraController.handleMouseMoveEvent tk p mode x y).1 = true ↔
      p.1.isActive = true ∧
        (p.1.mNaviPrimary = true ∨ p.1.mNaviSecondary = true ∨ mode = "t-navi")) ∧
    ((FreeCameraController.handleMouseMoveEvent tk p mode x y).1 = false →
      (FreeCameraController.handleMouseMoveEvent tk p mode x y).2 = p) ∧
    (p.1.isActive = true → p.1.mNaviPrimary = true →
      (FreeCameraController.handleMouseMoveEvent tk p mode x y).2
        = FreeCameraController.pitch tk
            (FreeCameraController.yaw tk p
              (x * (p.1.getCameraSensitivity * (if p.1.getInverted then -1 else 1))))
            (y * (p.1.getCameraSensitivity * (if p.1.getInverted then -1 else 1)))) ∧
    (p.1.isActive = true → p.1.mNaviPrimary = false → p.1.mNaviSecondary = true →
      (FreeCameraController.handleMouseMoveEvent tk p mode x y).2
        = FreeCameraController.translate tk p
            (((⟨0, 0, 0⟩ : osg.Vec3).add
                ((LocalLeft.scale ((-x : Int) : ℚ)).scale p.1.getSecondaryMovementMultiplier)).add
              ((LocalUp.scale (y : ℚ)).scale p.1.getSecondaryMovementMultiplier))) ∧
    (p.1.isActive = true → p.1.mNaviPrimary = false → p.1.mNaviSecondary = false →
      mode = "t-navi" →
      (FreeCameraController.handleMouseMoveEvent tk p mode x y).2
        = FreeCameraController.translate tk p
            ((LocalForward.scale (x : ℚ)).scale
              (if p.1.mFast then p.1.getWheelMovementMultiplier else 1))) := by
  unfold FreeCameraController.handleMouseMoveEvent
  cases ha : p.1.isActive <;> cases hp : p.1.mNaviPrimary <;> cases hs : p.1.mNaviSecondary <;>
    by_cases hm : mode = "t-navi" <;> simp [hm]

theorem OrbitCameraController.orbit_mouseMove_spec {M S : Type} (tk : Toolkit M S)
    (p : OrbitCameraController × Camera M S) (mode : String) (x y : Int) :
    ((OrbitCameraController.handleMouseMoveEvent tk p mode x y).1 = true ↔
      p.1.isActive = true ∧
        (p.1.mNaviPrimary = true ∨ p.1.mNaviSecondary = true ∨ mode = "t-navi")) ∧
    ((OrbitCameraController.handleMouseMoveEvent tk p mode x y).1 = false →
      (OrbitCameraController.handleMouseMoveEvent tk p mode x y).2.2 = p.2) ∧
    (p.1.isActive = true → p.1.mNaviPrimary = true →
      (OrbitCameraController.handleMouseMoveEvent tk p mode x y).2
        = OrbitCameraController.rotateVertical tk
            (OrbitCameraController.rotateHorizontal tk
              (if (!p.1.mInitialized) = true then OrbitCameraController.initialise tk p else p)
              (x * (p.1.getCameraSensitivity * (if p.1.getInverted then -1 else 1))))
            (((-y : Int) : ℚ) *
              (p.1.getCameraSensitivity * (if p.1.getInverted then -1 else 1)))) ∧
    (p.1.isActive = true → p.1.mNaviPrimary = false → p.1.mNaviSecondary = true →
      (OrbitCameraController.handleMouseMoveEvent tk p mode x y).2
        = OrbitCameraController.translate tk
            (if (!p.1.mInitialized) = true then OrbitCameraController.initialise tk p else p)
            (((⟨0, 0, 0⟩ : osg.Vec3).add
                ((LocalLeft.scale (x : ℚ)).scale p.1.getSecondaryMovementMultiplier)).add
              ((LocalUp.scale ((-y : Int) : ℚ)).scale p.1.getSecondaryMovementMultiplier))) ∧
    (p.1.isActive = true → p.1.mNaviPrimary = false → p.1.mNaviSecondary = false →
      mode = "t-navi" →
      (OrbitCameraController.handleMouseMoveEvent tk p mode x y).2
        = OrbitCameraController.zoom tk
            (if (!p.1.mInitialized) = true then OrbitCameraController.initialise tk p else p)
            (((-x : Int) : ℚ) * (if p.1.mFast then p.1.getWheelMovementMultiplier else 1))) := by
  have hflags : ∀ q : OrbitCameraController × Camera M S,
      (OrbitCameraController.initialise tk q).2 = q.2 ∧
      (OrbitCameraController.initialise tk q).1.mNaviPrimary = q.1.mNaviPrimary ∧
      (OrbitCameraController.initialise tk q).1.mNaviSecondary = q.1.mNaviSecondary ∧
      (OrbitCameraController.initialise tk q).1.toCameraController = q.1.toCameraController ∧
      (OrbitCameraController.initialise tk q).1.mFast = q.1.mFast := by
    intro q
    unfold OrbitCameraController.initialise
    dsimp only
    split <;> exact ⟨rfl, rfl, rfl, rfl, rfl⟩
  obtain ⟨i1, i2, i3, i4, i5⟩ := hflags p
  unfold OrbitCameraController.handleMouseMoveEvent
  cases ha : p.1.isActive <;> cases hi : p.1.mInitialized <;>
    cases hp : p.1.mNaviPrimary <;> cases hs : p.1.mNaviSecondary <;>
    by_cases hm : mode = "t-navi" <;>
    simp [hm, i1, i2, i3, i4, i5, hp, hs, CameraController.getCameraSensitivity,
      CameraController.getInverted, CameraController.getSecondaryMovementMultiplier,
      CameraController.getWheelMovementMultiplier]

/-- C7: for FreeCameraController and for OrbitCameraController,
handleMouseMoveEvent(mode, x, y) returns true exactly when the controller is
active and primary navigation is held, or secondary navigation is held, or the
mode is t-navi. Primary navigation takes precedence over secondary, which takes
precedence over t-navi: the new state is the one of the first of these branches
that applies. Whenever the call returns false the camera, and so its view
matrix, is unchanged. -/
theorem handleMouseMoveEvent_true_iff {M S : Type} (tk : Toolkit M S) (mode : String)
    (x y : Int) :
    (∀ p : FreeCameraController × Camera M S,
      ((FreeCameraController.handleMouseMoveEvent tk p mode x y).1 = true ↔
        p.1.isActive = true ∧
          (p.1.mNaviPrimary = true ∨ p.1.mNaviSecondary = true ∨ mode = "t-navi")) ∧
      ((FreeCameraController.handleMouseMoveEvent tk p mode x y).1 = false →
        (FreeCameraController.handleMouseMoveEvent tk p mode x y).2.2.viewMatrix
          = p.2.viewMatrix) ∧
      (p.1.isActive = true → p.1.mNaviPrimary = true →
        (FreeCameraController.handleMouseMoveEvent tk p mode x y).2
          = FreeCameraController.pitch tk
              (FreeCameraController.yaw tk p
                (x * (p.1.getCameraSensitivity * (if p.1.getInverted then -1 else 1))))
              (y * (p.1.getCameraSensitivity * (if p.1.getInverted then -1 else 1)))) ∧
      (p.1.isActive = true → p.1.mNaviPrimary = false → p.1.mNaviSecondary = true →
        (FreeCameraController.handleMouseMoveEvent tk p mode x y).2
          = FreeCameraController.translate tk p
              (((⟨0, 0, 0⟩ : osg.Vec3).add
                  ((LocalLeft.scale ((-x : Int) : ℚ)).scale
                    p.1.getSecondaryMovementMultiplier)).add
                ((LocalUp.scale (y : ℚ)).scale p.1.getSecondaryMovementMultiplier))) ∧
      (p.1.isActive = true → p.1.mNaviPrimary = false → p.1.mNaviSecondary = false →
        mode = "t-navi" →
        (FreeCameraController.handleMouseMoveEvent tk p mode x y).2
          = FreeCameraController.translate tk p
              ((LocalForward.scale (x : ℚ)).scale
                (if p.1.mFast then p.1.getWheelMovementMultiplier else 1)))) ∧
    (∀ p : OrbitCameraController × Camera M S,
      ((OrbitCameraController.handleMouseMoveEvent tk p mode x y).1 = true ↔
        p.1.isActive = true ∧
          (p.1.mNaviPrimary = true ∨ p.1.mNaviSecondary = true ∨ mode = "t-navi")) ∧
      ((OrbitCameraController.handleMouseMoveEvent tk p mode x y).1 = false →
        (OrbitCameraController.handleMouseMoveEvent tk p mode x y).2.2.viewMatrix
          = p.2.viewMatrix) ∧
      (p.1.isActive = true → p.1.mNaviPrimary = true →
        (OrbitCameraController.handleMouseMoveEvent tk p mode x y).2
          = OrbitCameraController.rotateVertical tk
              (OrbitCameraController.rotateHorizontal tk
                (if (!p.1.mInitialized) = true then OrbitCameraController.initialise tk p
                  else p)
                (x * (p.1.getCameraSensitivity * (if p.1.getInverted then -1 else 1))))
              (((-y : Int) : ℚ) *
                (p.1.getCameraSensitivity * (if p.1.getInverted then -1 else 1)))) ∧
      (p.1.isActive = true → p.1.mNaviPrimary = false → p.1.mNaviSecondary = true →
        (OrbitCameraController.handleMouseMoveEvent tk p mode x y).2
          = OrbitCameraController.translate tk
              (if (!p.1.mInitialized) = true then OrbitCameraController.initialise tk p
                else p)
              (((⟨0, 0, 0⟩ : osg.Vec3).add
                  ((LocalLeft.scale (x : ℚ)).scale p.1.getSecondaryMovementMultiplier)).add
                ((LocalUp.scale ((-y : Int) : ℚ)).scale
                  p.1.getSecondaryMovementMultiplier))) ∧
      (p.1.isActive = true → p.1.mNaviPrimary = false → p.1.mNaviSecondary = false →
        mode = "t-navi" →
        (OrbitCameraController.handleMouseMoveEvent tk p mode x y).2
          = OrbitCameraController.zoom tk
              (if (!p.1.mInitialized) = true then OrbitCameraController.initialise tk p
                else p)
              (((-x : Int) : ℚ) *
                (if p.1.mFast then p.1.getWheelMovementMultiplier else 1)))) := by
  refine ⟨fun p => ?_, fun p => ?_⟩
  · obtain ⟨h1, h2, h3, h4, h5⟩ := FreeCameraController.free_mouseMove_spec tk p mode x y
    exact ⟨h1, fun hf => by rw [h2 hf], h3, h4, h5⟩
  · obtain ⟨h1, h2, h3, h4, h5⟩ := OrbitCameraController.orbit_mouseMove_spec tk p mode x y
    exact ⟨h1, fun hf => by rw [h2 hf], h3, h4, h5⟩

/-- C10: CameraController::setup chooses the world bounds by a three-step
fallback: the bounds computed with the given traversal mask if they are valid;
otherwise the bounds computed without any mask if those are valid; otherwise
the default box from (-1,-1,-1) to (1,1,1). The box used is always valid, and
it is the box from which setup computes the view matrix. -/
theorem CameraController.setup_bounds_fallback {M S : Type} (tk : Toolkit M S) (root : S)
    (mask : Nat) :
    ((tk.computeBounds root mask).valid = true →
      CameraController.setup_bounds tk root mask = tk.computeBounds root mask) ∧
    ((tk.computeBounds root mask).valid = false →
      (tk.computeBounds root allMask).valid = true →
      CameraController.setup_bounds tk root mask = tk.computeBounds root allMask) ∧
    ((tk.computeBounds root mask).valid = false →
      (tk.computeBounds root allMask).valid = false →
      CameraController.setup_bounds tk root mask = ⟨⟨-1, -1, -1⟩, ⟨1, 1, 1⟩⟩) ∧
    (CameraController.setup_bounds tk root mask).valid = true ∧
    (∀ (camera : Camera M S) (up : osg.Vec3),
      (CameraController.setup tk camera root mask up).viewMatrix
        = tk.makeLookAt
            (CameraController.setup_eye (CameraController.setup_bounds tk root mask) up)
            (CameraController.setup_bounds tk root mask).center up) := by
  unfold CameraController.setup_bounds
  dsimp only
  cases h1 : (tk.computeBounds root mask).valid <;>
    cases h2 : (tk.computeBounds root allMask).valid
  · refine ⟨fun h => absurd h (by decide), fun _ h => absurd h (by decide), fun _ _ => rfl,
      ?_, fun _ _ => ?_⟩
    · norm_num [osg.BoundingBox.valid, osg.BoundingBox.set]
    · simp [CameraController.setup, CameraController.setup_bounds, h1, h2]
  · refine ⟨fun h => absurd h (by decide), fun _ _ => rfl, fun _ h => absurd h (by decide),
      h2, fun _ _ => ?_⟩
    simp [CameraController.setup, CameraController.setup_bounds, h1, h2]
  · refine ⟨fun _ => rfl, fun h => absurd h (by decide), fun h => absurd h (by decide),
      h1, fun _ _ => ?_⟩
    simp [CameraController.setup, CameraController.setup_bounds, h1]
  · refine ⟨fun _ => rfl, fun h => absurd h (by decide), fun h => absurd h (by decide),
      h1, fun _ _ => ?_⟩
    simp [CameraController.setup, CameraController.setup_bounds, h1]

/-- Witness of C7: an active free controller with no navigation key held
reacts to the mode t-navi and to no other mode. -/
theorem handleMouseMoveEvent_true_iff_witness :
    ((FreeCameraController.handleMouseMoveEvent sampleToolkit (sampleFree, sampleCamera)
        "t-navi" 3 4).1 = true ↔
      sampleFree.isActive = true ∧
        (sampleFree.mNaviPrimary = true ∨ sampleFree.mNaviSecondary = true ∨
          "t-navi" = "t-navi")) ∧
    (FreeCameraController.handleMouseMoveEvent sampleToolkit (sampleFree, sampleCamera)
        "t-navi" 3 4).1 = true ∧
    (FreeCameraController.handleMouseMoveEvent sampleToolkit (sampleFree, sampleCamera)
        "edit" 3 4).1 = false :=
  ⟨((handleMouseMoveEvent_true_iff sampleToolkit "t-navi" 3 4).1 (sampleFree, sampleCamera)).1,
    by decide, by decide⟩

/-- Witness of C10: with mask 1 the sample scene (one drawable of node mask 2)
has no valid bounds, so the bounds without a mask are used. -/
theorem setup_bounds_fallback_witness :
    (sampleToolkit.computeBounds sampleScene 1).valid = false ∧
    (sampleToolkit.computeBounds sampleScene allMask).valid = true ∧
    CameraController.setup_bounds sampleToolkit sampleScene 1
      = sampleToolkit.computeBounds sampleScene allMask ∧
    CameraController.setup_bounds sampleToolkit sampleScene 1 = ⟨⟨0, 0, 0⟩, ⟨2, 4, 6⟩⟩ :=
  ⟨by decide, by decide,
    (CameraController.setup_bounds_fallback sampleToolkit sampleScene 1).2.1
      (by decide) (by decide),
    by decide⟩

end CSVRender

/-! ## Further theorems about cameracontroller.cpp -/

namespace CSVRender

theorem CameraController.corner_zero (b : osg.BoundingBox) : b.corner 0 = b._min := by
  cases b with
  | mk mn mx => cases mn; cases mx; simp [osg.BoundingBox.corner]

theorem CameraController.corner_seven (b : osg.BoundingBox) : b.corner 7 = b._max := by
  cases b with
  | mk mn mx => cases mn; cases mx; simp [osg.BoundingBox.corner]

/-- C15: OrbitCameraController::initialize picks the focus object. If the
intersector finds a hit under the picking mask, the orbit centre becomes the
nearest hit point and mDistance the length of (eye - centre); otherwise the
centre becomes the look-at point that getViewMatrixAsLookAt gives for the
distance 10000 and mDistance becomes 10000. In both cases the controller is
marked initialized and the camera is left alone. Activating a camera (setCamera
with a non-null camera) marks the controller uninitialized again. -/
theorem OrbitCameraController.initialise_spec {M S : Type} (tk : Toolkit M S)
    (p : OrbitCameraController × Camera M S) (c : OrbitCameraController) (camera : Nat) :
    (∀ point, tk.intersect p.2 p.1.mPickingMask = some point →
      (OrbitCameraController.initialise tk p).1.mCenter = point ∧
      (OrbitCameraController.initialise tk p).1.mDistance
        = tk.length (((tk.getLookAt p.2.viewMatrix 10000).1).sub
            (OrbitCameraController.initialise tk p).1.mCenter)) ∧
    (tk.intersect p.2 p.1.mPickingMask = none →
      (OrbitCameraController.initialise tk p).1.mCenter
        = (tk.getLookAt p.2.viewMatrix 10000).2.1 ∧
      (OrbitCameraController.initialise tk p).1.mDistance = 10000) ∧
    (OrbitCameraController.initialise tk p).1.mInitialized = true ∧
    (OrbitCameraController.initialise tk p).2 = p.2 ∧
    (camera ≠ 0 →
      (OrbitCameraController.setCamera c camera).mInitialized = false ∧
      (OrbitCameraController.setCamera c camera).mActive = true ∧
      (OrbitCameraController.setCamera c camera).mCamera = camera) := by
  refine ⟨fun point h => ?_, fun h => ?_, ?_, ?_, fun h => ?_⟩
  · simp [OrbitCameraController.initialise, h]
  · simp [OrbitCameraController.initialise, h]
  · unfold OrbitCameraController.initialise
    dsimp only
    split <;> rfl
  · unfold OrbitCameraController.initialise
    dsimp only
    split <;> rfl
  · unfold OrbitCameraController.setCamera OrbitCameraController.onActivate
    simp [h]

/-- Witness of C15: the sample toolkit finds no hit, so the sample controller
gets the distance 10000; setting camera 7 marks it uninitialized. -/
theorem initialise_spec_witness :
    (OrbitCameraController.initialise sampleToolkit (sampleOrbit, sampleCamera)).1.mDistance
      = 10000 ∧
    (OrbitCameraController.initialise sampleToolkit
      (sampleOrbit, sampleCamera)).1.mInitialized = true ∧
    (OrbitCameraController.setCamera sampleOrbit 7).mInitialized = false :=
  ⟨((OrbitCameraController.initialise_spec sampleToolkit (sampleOrbit, sampleCamera)
      sampleOrbit 7).2.1 rfl).2,
    (OrbitCameraController.initialise_spec sampleToolkit (sampleOrbit, sampleCamera)
      sampleOrbit 7).2.2.1,
    ((OrbitCameraController.initialise_spec sampleToolkit (sampleOrbit, sampleCamera)
      sampleOrbit 7).2.2.2.2 (by decide)).1⟩

end CSVRender

/-! ## Further theorems about sky.cpp -/

namespace MWRender

/-- C14: in the relative reference frame computeLocalToWorldMatrix sets the
translation of the given matrix (the entries [3][0], [3][1], [3][2]) to
(0,0,0), leaves every other entry unchanged and returns false; in any other
reference frame, the absolute one in particular, it sets the matrix to the
identity and returns true. -/
theorem CameraRelativeTransform.computeLocalToWorldMatrix_spec (t : CameraRelativeTransform)
    (referenceFrame : osg.ReferenceFrame) (matrix : osg.Matrix) (nv : osg.NodeVisitor) :
    (referenceFrame = osg.ReferenceFrame.RELATIVE_RF →
      (t.computeLocalToWorldMatrix referenceFrame matrix nv).1 = false ∧
      (t.computeLocalToWorldMatrix referenceFrame matrix nv).2.1 3 0 = 0 ∧
      (t.computeLocalToWorldMatrix referenceFrame matrix nv).2.1 3 1 = 0 ∧
      (t.computeLocalToWorldMatrix referenceFrame matrix nv).2.1 3 2 = 0 ∧
      ∀ i j : Fin 4, (i ≠ 3 ∨ j = 3) →
        (t.computeLocalToWorldMatrix referenceFrame matrix nv).2.1 i j = matrix i j) ∧
    (referenceFrame ≠ osg.ReferenceFrame.RELATIVE_RF →
      (t.computeLocalToWorldMatrix referenceFrame matrix nv).1 = true ∧
      (t.computeLocalToWorldMatrix referenceFrame matrix nv).2.1 = osg.Matrix.makeIdentity ∧
      ∀ i j : Fin 4, (t.computeLocalToWorldMatrix referenceFrame matrix nv).2.1 i j
        = if i = j then 1 else 0) := by
  refine ⟨fun h => ?_, fun h => ?_⟩
  · subst h
    refine ⟨rfl, rfl, rfl, rfl, fun i j hij => ?_⟩
    show osg.Matrix.setTrans matrix ⟨0, 0, 0⟩ i j = matrix i j
    unfold osg.Matrix.setTrans
    rcases hij with hi | hj
    · simp [hi]
    · subst hj
      simp
  · cases referenceFrame
    · exact absurd rfl h
    · exact ⟨rfl, rfl, fun i j => rfl⟩
    · exact ⟨rfl, rfl, fun i j => rfl⟩

/-- Witness of C14: a matrix with translation (7, 8, 9) in the relative frame. -/
theorem computeLocalToWorldMatrix_spec_witness :
    ((⟨⟨1, 2, 3⟩⟩ : CameraRelativeTransform).computeLocalToWorldMatrix
        osg.ReferenceFrame.RELATIVE_RF
        (osg.Matrix.setTrans osg.Matrix.makeIdentity ⟨7, 8, 9⟩)
        ⟨osg.VisitorType.CULL_VISITOR, ⟨4, 5, 6⟩⟩).1 = false ∧
    ((⟨⟨1, 2, 3⟩⟩ : CameraRelativeTransform).computeLocalToWorldMatrix
        osg.ReferenceFrame.RELATIVE_RF
        (osg.Matrix.setTrans osg.Matrix.makeIdentity ⟨7, 8, 9⟩)
        ⟨osg.VisitorType.CULL_VISITOR, ⟨4, 5, 6⟩⟩).2.1 3 0 = 0 :=
  ⟨((⟨⟨1, 2, 3⟩⟩ : CameraRelativeTransform).computeLocalToWorldMatrix_spec
      osg.ReferenceFrame.RELATIVE_RF (osg.Matrix.setTrans osg.Matrix.makeIdentity ⟨7, 8, 9⟩)
      ⟨osg.VisitorType.CULL_VISITOR, ⟨4, 5, 6⟩⟩).1 rfl |>.1,
    ((⟨⟨1, 2, 3⟩⟩ : CameraRelativeTransform).computeLocalToWorldMatrix_spec
      osg.ReferenceFrame.RELATIVE_RF (osg.Matrix.setTrans osg.Matrix.makeIdentity ⟨7, 8, 9⟩)
      ⟨osg.VisitorType.CULL_VISITOR, ⟨4, 5, 6⟩⟩).1 rfl |>.2.1⟩

theorem ModVertexAlphaVisitor.alpha_eq_spec (v : ModVertexAlphaVisitor) (geom : Geometry)
    (i : Nat) :
    ModVertexAlphaVisitor.alpha v geom i
      = ModVertexAlphaVisitor.alphaSpec v.mMeshType i
          (ModVertexAlphaVisitor.origColor geom i).x := by
  unfold ModVertexAlphaVisitor.alpha ModVertexAlphaVisitor.alphaSpec
  have h2 : (i % 2 ≠ 0) ↔ (i % 2 = 1) := by omega
  simp only [h2, ge_iff_le]

theorem CullCallback.loop_succ (numPlanes k resultMask : Nat) :
    CullCallback.loop numPlanes (k + 1) resultMask
      = (((CullCallback.loop numPlanes k resultMask).1 <<< 1) % 2 ^ intBits,
         if k ≥ numPlanes then
           (CullCallback.loop numPlanes k resultMask).2
             &&& bitNot (CullCallback.loop numPlanes k resultMask).1
         else (CullCallback.loop numPlanes k resultMask).2) := by
  unfold CullCallback.loop
  rw [List.range_succ, List.foldl_append]
  rfl

theorem bitNot_two_pow_testBit (k j : Nat) (hk : k < intBits) :
    (bitNot (2 ^ k)).testBit j = (decide (j < intBits) && decide (j ≠ k)) := by
  unfold bitNot
  rw [Nat.testBit_xor, Nat.testBit_two_pow, Nat.testBit_two_pow_sub_one]
  by_cases h1 : k = j
  · subst h1
    simp [hk]
  · have h2 : j ≠ k := fun e => h1 e.symm
    simp [h1, h2]

theorem CullCallback.loop_spec (numPlanes old : Nat) (hold : old < 2 ^ intBits) :
    ∀ k, k ≤ intBits →
      (CullCallback.loop numPlanes k old).1 = 2 ^ k % 2 ^ intBits ∧
      ∀ j, (CullCallback.loop numPlanes k old).2.testBit j
        = if numPlanes ≤ j ∧ j < k then false else old.testBit j := by
  intro k
  induction k with
  | zero =>
    intro _
    refine ⟨?_, fun j => ?_⟩
    · show (1 : Nat) = 2 ^ 0 % 2 ^ intBits
      decide
    · simp [CullCallback.loop]
  | succ k ih =>
    intro hk
    have hk1 : k < intBits := hk
    obtain ⟨ih1, ih2⟩ := ih (Nat.le_of_lt hk1)
    have hpow : 2 ^ k % 2 ^ intBits = 2 ^ k :=
      Nat.mod_eq_of_lt (Nat.pow_lt_pow_right (by decide) hk1)
    rw [CullCallback.loop_succ, ih1, hpow]
    refine ⟨?_, fun j => ?_⟩
    · show (2 ^ k <<< 1) % 2 ^ intBits = 2 ^ (k + 1) % 2 ^ intBits
      rw [Nat.shiftLeft_eq, Nat.pow_one, ← Nat.pow_succ]
    · show (if k ≥ numPlanes then (CullCallback.loop numPlanes k old).2 &&& bitNot (2 ^ k)
          else (CullCallback.loop numPlanes k old).2).testBit j = _
      by_cases hge : k ≥ numPlanes
      · rw [if_pos hge, Nat.testBit_and, ih2 j, bitNot_two_pow_testBit k j hk1]
        by_cases hjk : j = k
        · subst hjk
          simp [hge]
        · by_cases hj32 : j < intBits
          · have e : (numPlanes ≤ j ∧ j < k + 1) ↔ (numPlanes ≤ j ∧ j < k) := by omega
            simp [hjk, hj32, e]
          · have hfalse : old.testBit j = false :=
              Nat.testBit_lt_two_pow (Nat.lt_of_lt_of_le hold
                (Nat.pow_le_pow_right (by decide) (Nat.le_of_not_lt hj32)))
            have e1 : ¬ (numPlanes ≤ j ∧ j < k) := by omega
            have e2 : ¬ (numPlanes ≤ j ∧ j < k + 1) := by omega
            simp [hj32, e1, e2, hfalse]
      · rw [if_neg hge, ih2 j]
        have e : (numPlanes ≤ j ∧ j < k + 1) ↔ (numPlanes ≤ j ∧ j < k) := by omega
        simp only [e]

/-- C13: with numPlanes = 4 + (1 if near plane culling is on) + (1 if far plane
culling is on) and n the number of planes of the plane list, n below the bit
width of int, the result mask that the cull callback sets on both frustums is
the old one with the bits numPlanes .. n-1 cleared and every other bit
unchanged. -/
theorem CullCallback.resultMask_bits (cv : osg.CullVisitor)
    (hn : cv.projectionFrustum.planeCount < intBits)
    (hm : cv.projectionFrustum._resultMask < 2 ^ intBits) :
    CullCallback.numPlanes cv
      = 4 + (if cv.nearPlaneCulling then 1 else 0) + (if cv.farPlaneCulling then 1 else 0) ∧
    (∀ j, (CullCallback.resultMask cv).testBit j
      = if CullCallback.numPlanes cv ≤ j ∧ j < cv.projectionFrustum.planeCount then false
        else cv.projectionFrustum._resultMask.testBit j) ∧
    (CullCallback.entered cv).projectionFrustum._resultMask = CullCallback.resultMask cv ∧
    (CullCallback.entered cv).currentFrustum._resultMask = CullCallback.resultMask cv := by
  refine ⟨?_, ?_, rfl, rfl⟩
  · unfold CullCallback.numPlanes
    cases cv.nearPlaneCulling <;> cases cv.farPlaneCulling <;> rfl
  · exact (CullCallback.loop_spec _ _ hm _ (Nat.le_of_lt hn)).2

/-- Witness of C13: eight planes, near and far plane culling on, all eight bits
set: the bits 6 and 7 are cleared, 255 becomes 63. -/
theorem resultMask_bits_witness :
    (8 : Nat) < intBits ∧ (255 : Nat) < 2 ^ intBits ∧
    CullCallback.resultMask ⟨true, true, ⟨8, 255, []⟩, ⟨8, 255, []⟩⟩ = 63 ∧
    (CullCallback.resultMask ⟨true, true, ⟨8, 255, []⟩, ⟨8, 255, []⟩⟩).testBit 6
      = if CullCallback.numPlanes ⟨true, true, ⟨8, 255, []⟩, ⟨8, 255, []⟩⟩ ≤ 6 ∧ 6 < 8 then false
        else (255 : Nat).testBit 6 :=
  ⟨by decide, by decide, by decide,
    (CullCallback.resultMask_bits ⟨true, true, ⟨8, 255, []⟩, ⟨8, 255, []⟩⟩
      (by decide) (by decide)).2.1 6⟩

theorem SkyManager.rain_views (env : SkyEnvironment) (s : SkyManager) (w : WeatherResult) :
    (SkyManager.setWeather_rain env s w).cloudView = s.cloudView ∧
    (SkyManager.setWeather_rain env s w).particleView = s.particleView ∧
    (SkyManager.setWeather_rain env s w).mCreated = s.mCreated := by
  unfold SkyManager.setWeather_rain SkyManager.updateRainParameters SkyManager.createRain
    SkyManager.destroyRain
  dsimp only
  split_ifs <;> split <;> exact ⟨rfl, rfl, rfl⟩

theorem SkyManager.clouds_views (env : SkyEnvironment) (s : SkyManager) (w : WeatherResult) :
    (SkyManager.setWeather_clouds env s w).cloudView = s.cloudView ∧
    (SkyManager.setWeather_clouds env s w).particleView = s.particleView ∧
    (SkyManager.setWeather_clouds env s w).mCreated = s.mCreated := by
  unfold SkyManager.setWeather_clouds
  dsimp only
  split_ifs <;> exact ⟨rfl, rfl, rfl⟩

theorem SkyManager.colours_views (s : SkyManager) (w : WeatherResult) :
    (SkyManager.setWeather_colours s w).cloudView = s.cloudView ∧
    (SkyManager.setWeather_colours s w).particleView = s.particleView ∧
    (SkyManager.setWeather_colours s w).mCreated = s.mCreated := by
  unfold SkyManager.setWeather_colours
  dsimp only
  split_ifs <;> exact ⟨rfl, rfl, rfl⟩

theorem SkyManager.celestial_views (s : SkyManager) (w : WeatherResult) :
    (SkyManager.setWeather_celestial s w).cloudView = s.cloudView ∧
    (SkyManager.setWeather_celestial s w).particleView = s.particleView ∧
    (SkyManager.setWeather_celestial s w).mCreated = s.mCreated := by
  unfold SkyManager.setWeather_celestial
  dsimp only
  split_ifs <;> exact ⟨rfl, rfl, rfl⟩

theorem SkyManager.faders_views (s : SkyManager) (w : WeatherResult) :
    (SkyManager.setWeather_faders s w).cloudView = s.cloudView ∧
    (SkyManager.setWeather_faders s w).particleView = s.particleView ∧
    (SkyManager.setWeather_faders s w).mCreated = s.mCreated :=
  ⟨rfl, rfl, rfl⟩

theorem SkyManager.particles_cloudView (env : SkyEnvironment) (s : SkyManager)
    (w : WeatherResult) :
    (SkyManager.setWeather_particles env s w).cloudView = s.cloudView ∧
    (SkyManager.setWeather_particles env s w).mCreated = s.mCreated := by
  unfold SkyManager.setWeather_particles SkyManager.setWeather_cleanup
  dsimp only
  split_ifs <;> exact ⟨rfl, rfl⟩

theorem SkyManager.blend_particleView (s : SkyManager) (w : WeatherResult) :
    (SkyManager.setWeather_blend s w).particleView = s.particleView ∧
    (SkyManager.setWeather_blend s w).mCreated = s.mCreated := by
  unfold SkyManager.setWeather_blend
  split_ifs <;> exact ⟨rfl, rfl⟩

/-! ## The invariants of the cloud layers and of the particle effect -/

theorem SkyManager.CloudInv_of_view {a b : SkyManager} (h : a.cloudView = b.cloudView)
    (hb : b.CloudInv) : a.CloudInv := by
  unfold SkyManager.cloudView at h
  simp only [Prod.mk.injEq] at h
  obtain ⟨h1, h2, h3, h4⟩ := h
  unfold SkyManager.CloudInv at hb ⊢
  rw [h1, h2, h3, h4]
  exact hb

theorem SkyManager.ParticleInv_of_view {a b : SkyManager} (h : a.particleView = b.particleView)
    (hb : b.ParticleInv) : a.ParticleInv := by
  unfold SkyManager.particleView at h
  simp only [Prod.mk.injEq] at h
  obtain ⟨h1, h2, h3, h4, h5⟩ := h
  unfold SkyManager.ParticleInv at hb ⊢
  rw [h1, h2, h3, h4, h5]
  exact hb

theorem SkyManager.blend_spec (s : SkyManager) (w : WeatherResult) :
    (SkyManager.setWeather_blend s w).mCloudBlendFactor = w.mCloudBlendFactor ∧
    (s.CloudInv → (SkyManager.setWeather_blend s w).CloudInv) := by
  unfold SkyManager.setWeather_blend
  by_cases h : s.mCloudBlendFactor ≠ w.mCloudBlendFactor
  · rw [if_pos h]
    refine ⟨rfl, fun _ => ⟨rfl, rfl, ?_⟩⟩
    show (if w.mCloudBlendFactor > 0 then osg.maskAll else 0) ≠ 0 ↔ w.mCloudBlendFactor > 0
    by_cases hb : w.mCloudBlendFactor > 0
    · rw [if_pos hb]
      exact ⟨fun _ => hb, fun _ => by decide⟩
    · rw [if_neg hb]
      exact ⟨fun hc => absurd rfl hc, fun hc => absurd hc hb⟩
  · rw [if_neg h]
    exact ⟨not_not.mp h, fun hi => hi⟩

theorem SkyManager.particles_unchanged (env : SkyEnvironment) (s : SkyManager)
    (w : WeatherResult) (h : s.mCurrentParticleEffect = w.mParticleEffect) :
    SkyManager.setWeather_particles env s w = s := by
  unfold SkyManager.setWeather_particles
  rw [if_neg (not_not.mpr h)]

theorem SkyManager.mem_newAlphaFaders (env : SkyEnvironment) (effect : String) (inst : Nat)
    (r : AlphaFaderRef) (h : r ∈ SkyManager.newAlphaFaders env effect inst) :
    r.effect = inst := by
  unfold SkyManager.newAlphaFaders at h
  rw [List.mem_map] at h
  obtain ⟨k, _, hk⟩ := h
  rw [← hk]

theorem SkyManager.particles_changed (env : SkyEnvironment) (s : SkyManager)
    (w : WeatherResult) (h : s.mCurrentParticleEffect ≠ w.mParticleEffect)
    (hi : s.ParticleInv) :
    (SkyManager.setWeather_particles env s w).mCurrentParticleEffect = w.mParticleEffect ∧
    (SkyManager.setWeather_particles env s w).ParticleInv ∧
    (∀ r ∈ s.mParticleFaders, r ∉ (SkyManager.setWeather_particles env s w).mParticleFaders) ∧
    (∀ i, s.mParticleEffect = some i →
      (SkyManager.setWeather_particles env s w).mParticleEffect ≠ some i) := by
  obtain ⟨i1, i2, i3, i4⟩ := hi
  unfold SkyManager.setWeather_particles SkyManager.setWeather_cleanup
  rw [if_pos h]
  dsimp only
  by_cases hw : w.mParticleEffect = ""
  · have hfad : ∀ r : AlphaFaderRef, r ∉ (if s.mParticleEffect.isSome = true then
          ([] : List AlphaFaderRef) else s.mParticleFaders) := by
      intro r hr
      cases he : s.mParticleEffect with
      | none =>
        rw [he] at hr
        have := i3 r hr
        rw [he] at this
        exact absurd this (by simp)
      | some i =>
        rw [he] at hr
        exact absurd hr (by simp)
    cases he : s.mParticleEffect <;> cases hn : s.mParticleNode <;>
      simp [hw, he, hn, SkyManager.ParticleInv] at hfad ⊢ <;> exact hfad
  · have hnew : ∀ r ∈ SkyManager.newAlphaFaders env w.mParticleEffect s.nextInstance,
        s.nextInstance = r.effect :=
      fun r hr => (SkyManager.mem_newAlphaFaders env _ _ r hr).symm
    have hold : ∀ r ∈ s.mParticleFaders,
        r ∉ SkyManager.newAlphaFaders env w.mParticleEffect s.nextInstance := by
      intro r hr hmem
      have h1 := SkyManager.mem_newAlphaFaders env _ _ r hmem
      have h2 := i4 r.effect (i3 r hr)
      omega
    rcases he : s.mParticleEffect with _ | i <;> cases hn : s.mParticleNode <;>
      simp [hw, he, hn, SkyManager.ParticleInv]
    · exact ⟨hnew, hold⟩
    · exact ⟨hnew, hold⟩
    · exact ⟨hnew, hold, fun hc => absurd (i4 i he) (by omega)⟩
    · exact ⟨hnew, hold, fun hc => absurd (i4 i he) (by omega)⟩


theorem SkyManager.update_views (PI timeScaleFactor : ℚ) (s : SkyManager) (duration : ℚ) :
    (SkyManager.update PI timeScaleFactor s duration).cloudView = s.cloudView ∧
    (SkyManager.update PI timeScaleFactor s duration).mCurrentParticleEffect
      = s.mCurrentParticleEffect ∧
    (SkyManager.update PI timeScaleFactor s duration).mParticleNode.isSome
      = s.mParticleNode.isSome ∧
    (SkyManager.update PI timeScaleFactor s duration).mParticleEffect = s.mParticleEffect ∧
    (SkyManager.update PI timeScaleFactor s duration).mParticleFaders = s.mParticleFaders ∧
    (SkyManager.update PI timeScaleFactor s duration).nextInstance = s.nextInstance ∧
    (SkyManager.update PI timeScaleFactor s duration).mCreated = s.mCreated := by
  unfold SkyManager.update
  dsimp only
  split_ifs <;> refine ⟨rfl, rfl, ?_, rfl, rfl, rfl, rfl⟩ <;>
    first | rfl | (cases s.mParticleNode <;> rfl)


theorem SkyManager.particles_spec (env : SkyEnvironment) (s : SkyManager) (w : WeatherResult)
    (hi : s.ParticleInv) :
    (SkyManager.setWeather_particles env s w).mCurrentParticleEffect = w.mParticleEffect ∧
    (SkyManager.setWeather_particles env s w).ParticleInv ∧
    (s.mCurrentParticleEffect = w.mParticleEffect →
      SkyManager.setWeather_particles env s w = s) ∧
    (s.mCurrentParticleEffect ≠ w.mParticleEffect →
      (∀ r ∈ s.mParticleFaders,
        r ∉ (SkyManager.setWeather_particles env s w).mParticleFaders) ∧
      (∀ i, s.mParticleEffect = some i →
        (SkyManager.setWeather_particles env s w).mParticleEffect ≠ some i)) := by
  by_cases h : s.mCurrentParticleEffect = w.mParticleEffect
  · have e := SkyManager.particles_unchanged env s w h
    rw [e]
    exact ⟨h, hi, fun _ => rfl, fun hc => absurd h hc⟩
  · have c := SkyManager.particles_changed env s w h hi
    exact ⟨c.1, c.2.1, fun hc => absurd hc h, fun _ => c.2.2⟩

theorem SkyManager.setWeather_created (env : SkyEnvironment) (s : SkyManager)
    (w : WeatherResult) (h : s.mCreated = true) :
    SkyManager.setWeather env s w =
      SkyManager.setWeather_faders
        (SkyManager.setWeather_celestial
          (SkyManager.setWeather_colours
            (SkyManager.setWeather_blend
              (SkyManager.setWeather_clouds env
                (SkyManager.setWeather_particles env (SkyManager.setWeather_rain env s w) w) w)
              w) w) w) w := by
  unfold SkyManager.setWeather
  rw [if_neg (by simp [h])]

theorem SkyManager.setWeather_mCreated (env : SkyEnvironment) (s : SkyManager)
    (w : WeatherResult) (h : s.mCreated = true) :
    (SkyManager.setWeather env s w).mCreated = true := by
  rw [SkyManager.setWeather_created env s w h, (SkyManager.faders_views _ w).2.2,
    (SkyManager.celestial_views _ w).2.2, (SkyManager.colours_views _ w).2.2,
    (SkyManager.blend_particleView _ w).2, (SkyManager.clouds_views env _ w).2.2,
    (SkyManager.particles_cloudView env _ w).2, (SkyManager.rain_views env s w).2.2]
  exact h

theorem SkyManager.setWeather_cloud (env : SkyEnvironment) (s : SkyManager)
    (w : WeatherResult) (h : s.mCreated = true) (hi : s.CloudInv) :
    (SkyManager.setWeather env s w).CloudInv ∧
    (SkyManager.setWeather env s w).mCloudBlendFactor = w.mCloudBlendFactor := by
  rw [SkyManager.setWeather_created env s w h]
  have e1 := (SkyManager.rain_views env s w).1
  generalize SkyManager.setWeather_rain env s w = s1 at e1 ⊢
  have e2 := (SkyManager.particles_cloudView env s1 w).1
  generalize SkyManager.setWeather_particles env s1 w = s2 at e2 ⊢
  have e3 := (SkyManager.clouds_views env s2 w).1
  generalize SkyManager.setWeather_clouds env s2 w = s3 at e3 ⊢
  have hb := SkyManager.blend_spec s3 w
  generalize SkyManager.setWeather_blend s3 w = s4 at hb ⊢
  have e5 := (SkyManager.colours_views s4 w).1
  generalize SkyManager.setWeather_colours s4 w = s5 at e5 ⊢
  have e6 := (SkyManager.celestial_views s5 w).1
  generalize SkyManager.setWeather_celestial s5 w = s6 at e6 ⊢
  have e7 := (SkyManager.faders_views s6 w).1
  generalize SkyManager.setWeather_faders s6 w = s7 at e7 ⊢
  have hv : s7.cloudView = s4.cloudView := e7.trans (e6.trans e5)
  have hs3 : s3.CloudInv := SkyManager.CloudInv_of_view (e3.trans (e2.trans e1)) hi
  refine ⟨SkyManager.CloudInv_of_view hv (hb.2 hs3), ?_⟩
  have hf : s7.mCloudBlendFactor = s4.mCloudBlendFactor := congrArg Prod.fst hv
  exact hf.trans hb.1

theorem SkyManager.setWeather_particle (env : SkyEnvironment) (s : SkyManager)
    (w : WeatherResult) (h : s.mCreated = true) (hi : s.ParticleInv) :
    (SkyManager.setWeather env s w).mCurrentParticleEffect = w.mParticleEffect ∧
    (SkyManager.setWeather env s w).ParticleInv ∧
    (s.mCurrentParticleEffect = w.mParticleEffect →
      (SkyManager.setWeather env s w).particleView = s.particleView) ∧
    (s.mCurrentParticleEffect ≠ w.mParticleEffect →
      (∀ r ∈ s.mParticleFaders, r ∉ (SkyManager.setWeather env s w).mParticleFaders) ∧
      (∀ i, s.mParticleEffect = some i →
        (SkyManager.setWeather env s w).mParticleEffect ≠ some i)) := by
  rw [SkyManager.setWeather_created env s w h]
  have e1 := (SkyManager.rain_views env s w).2.1
  generalize SkyManager.setWeather_rain env s w = s1 at e1 ⊢
  have hp := SkyManager.particles_spec env s1 w (SkyManager.ParticleInv_of_view e1 hi)
  generalize SkyManager.setWeather_particles env s1 w = s2 at hp ⊢
  have e3 := (SkyManager.clouds_views env s2 w).2.1
  generalize SkyManager.setWeather_clouds env s2 w = s3 at e3 ⊢
  have e4 := (SkyManager.blend_particleView s3 w).1
  generalize SkyManager.setWeather_blend s3 w = s4 at e4 ⊢
  have e5 := (SkyManager.colours_views s4 w).2.1
  generalize SkyManager.setWeather_colours s4 w = s5 at e5 ⊢
  have e6 := (SkyManager.celestial_views s5 w).2.1
  generalize SkyManager.setWeather_celestial s5 w = s6 at e6 ⊢
  have e7 := (SkyManager.faders_views s6 w).2.1
  generalize SkyManager.setWeather_faders s6 w = s7 at e7 ⊢
  have hv : s7.particleView = s2.particleView :=
    e7.trans (e6.trans (e5.trans (e4.trans e3)))
  obtain ⟨p1, p2, p3, p4⟩ := hp
  have a := e1
  have b := hv
  unfold SkyManager.particleView at a b
  simp only [Prod.mk.injEq] at a b
  obtain ⟨a1, _, a3, a4, _⟩ := a
  obtain ⟨b1, _, b3, b4, _⟩ := b
  refine ⟨b1.trans p1, SkyManager.ParticleInv_of_view hv p2, fun hs => ?_, fun hs => ?_⟩
  · exact hv.trans ((congrArg SkyManager.particleView (p3 (a1.trans hs))).trans e1)
  · have q := p4 (fun hc => hs (a1.symm.trans hc))
    rw [a4, a3, ← b4, ← b3] at q
    exact q

theorem SkyManager.create_inv (moonScriptColor : osg.Vec4) :
    (SkyManager.create SkyManager.new moonScriptColor).mCreated = true ∧
    (SkyManager.create SkyManager.new moonScriptColor).CloudInv ∧
    (SkyManager.create SkyManager.new moonScriptColor).ParticleInv := by
  refine ⟨rfl, ?_, ?_⟩
  · norm_num [SkyManager.CloudInv, SkyManager.create, SkyManager.new, CloudUpdater.new,
      CloudUpdater.setOpacity]
  · simp [SkyManager.ParticleInv, SkyManager.create, SkyManager.new]

theorem SkyManager.run_inv (env : SkyEnvironment) (s : SkyManager) (calls : List SkyManager.Call)
    (h : s.mCreated = true ∧ s.CloudInv ∧ s.ParticleInv) :
    (SkyManager.run env s calls).mCreated = true ∧ (SkyManager.run env s calls).CloudInv ∧
    (SkyManager.run env s calls).ParticleInv := by
  unfold SkyManager.run
  refine NpcAnimation.foldl_preserves
    (fun st : SkyManager => st.mCreated = true ∧ st.CloudInv ∧ st.ParticleInv) _ ?_ calls s h
  intro st c hst
  obtain ⟨hc, hcl, hpa⟩ := hst
  cases c with
  | setWeather weather =>
    exact ⟨SkyManager.setWeather_mCreated env st weather hc,
      (SkyManager.setWeather_cloud env st weather hc hcl).1,
      (SkyManager.setWeather_particle env st weather hc hpa).2.1⟩
  | update timeScaleFactor duration =>
    obtain ⟨u1, u2, u3, u4, u5, u6, u7⟩ :=
      SkyManager.update_views env.PI timeScaleFactor st duration
    refine ⟨u7.trans hc, SkyManager.CloudInv_of_view u1 hcl, ?_⟩
    show SkyManager.ParticleInv (SkyManager.update env.PI timeScaleFactor st duration)
    unfold SkyManager.ParticleInv at hpa ⊢
    rw [u2, u3, u4, u5, u6]
    exact hpa

/-- C16: in every state of a created sky manager that is reached from
create() by calls of setWeather and update, the opacity of the first cloud
layer is 1 - mCloudBlendFactor and that of the second is mCloudBlendFactor, so
they sum to 1; the second cloud mesh has a non-zero node mask exactly when
mCloudBlendFactor > 0; and after a further setWeather(w) the blend factor is
w.mCloudBlendFactor. -/
theorem SkyManager.cloud_layers_blend (env : SkyEnvironment) (moonScriptColor : osg.Vec4)
    (calls : List SkyManager.Call) (w : WeatherResult) :
    (SkyManager.run env (SkyManager.create SkyManager.new moonScriptColor) calls).mCreated
      = true ∧
    (SkyManager.run env (SkyManager.create SkyManager.new moonScriptColor)
        calls).mCloudUpdater.mOpacity
      = 1 - (SkyManager.run env (SkyManager.create SkyManager.new moonScriptColor)
          calls).mCloudBlendFactor ∧
    (SkyManager.run env (SkyManager.create SkyManager.new moonScriptColor)
        calls).mCloudUpdater2.mOpacity
      = (SkyManager.run env (SkyManager.create SkyManager.new moonScriptColor)
          calls).mCloudBlendFactor ∧
    (SkyManager.run env (SkyManager.create SkyManager.new moonScriptColor)
        calls).mCloudUpdater.mOpacity
      + (SkyManager.run env (SkyManager.create SkyManager.new moonScriptColor)
          calls).mCloudUpdater2.mOpacity = 1 ∧
    ((SkyManager.run env (SkyManager.create SkyManager.new moonScriptColor)
        calls).mCloudMesh2.nodeMask ≠ 0
      ↔ (SkyManager.run env (SkyManager.create SkyManager.new moonScriptColor)
          calls).mCloudBlendFactor > 0) ∧
    (SkyManager.setWeather env
        (SkyManager.run env (SkyManager.create SkyManager.new moonScriptColor) calls)
        w).mCloudBlendFactor = w.mCloudBlendFactor := by
  obtain ⟨hc, hcl, _⟩ :=
    SkyManager.run_inv env _ calls (SkyManager.create_inv moonScriptColor)
  have hw := (SkyManager.setWeather_cloud env _ w hc hcl).2
  obtain ⟨c1, c2, c3⟩ := hcl
  refine ⟨hc, c1, c2, ?_, c3, hw⟩
  rw [c1, c2]
  ring

/-- C17: for a created sky manager reached from create() by calls of
setWeather and update, after setWeather(w) the current effect name is
w.mParticleEffect; the particle node and the effect instance exist exactly
when that name is not empty; every fader of the list belongs to the current
effect instance and the list is empty when the name is empty; when the name
did not change, the name, the node, the instance and the list are those of
before; when it changed, no fader of the old list is in the new list and the
old instance is not the current one. -/
theorem SkyManager.setWeather_particle_effect (env : SkyEnvironment)
    (moonScriptColor : osg.Vec4) (calls : List SkyManager.Call) (w : WeatherResult) :
    (SkyManager.setWeather env
      (SkyManager.run env (SkyManager.create SkyManager.new moonScriptColor) calls)
      w).mCurrentParticleEffect = w.mParticleEffect ∧
    ((SkyManager.setWeather env
      (SkyManager.run env (SkyManager.create SkyManager.new moonScriptColor) calls)
      w).mParticleNode.isSome = true ↔ w.mParticleEffect ≠ "") ∧
    ((SkyManager.setWeather env
      (SkyManager.run env (SkyManager.create SkyManager.new moonScriptColor) calls)
      w).mParticleEffect.isSome = true ↔ w.mParticleEffect ≠ "") ∧
    (∀ r ∈ (SkyManager.setWeather env
      (SkyManager.run env (SkyManager.create SkyManager.new moonScriptColor) calls)
      w).mParticleFaders,
      (SkyManager.setWeather env
        (SkyManager.run env (SkyManager.create SkyManager.new moonScriptColor) calls)
        w).mParticleEffect = some r.effect) ∧
    (w.mParticleEffect = "" →
      (SkyManager.setWeather env
        (SkyManager.run env (SkyManager.create SkyManager.new moonScriptColor) calls)
        w).mParticleFaders = []) ∧
    ((SkyManager.run env (SkyManager.create SkyManager.new moonScriptColor)
        calls).mCurrentParticleEffect = w.mParticleEffect →
      (SkyManager.setWeather env
        (SkyManager.run env (SkyManager.create SkyManager.new moonScriptColor) calls)
        w).particleView
      = (SkyManager.run env (SkyManager.create SkyManager.new moonScriptColor)
          calls).particleView) ∧
    ((SkyManager.run env (SkyManager.create SkyManager.new moonScriptColor)
        calls).mCurrentParticleEffect ≠ w.mParticleEffect →
      (∀ r ∈ (SkyManager.run env (SkyManager.create SkyManager.new moonScriptColor)
          calls).mParticleFaders,
        r ∉ (SkyManager.setWeather env
          (SkyManager.run env (SkyManager.create SkyManager.new moonScriptColor) calls)
          w).mParticleFaders) ∧
      (∀ i, (SkyManager.run env (SkyManager.create SkyManager.new moonScriptColor)
          calls).mParticleEffect = some i →
        (SkyManager.setWeather env
          (SkyManager.run env (SkyManager.create SkyManager.new moonScriptColor) calls)
          w).mParticleEffect ≠ some i)) := by
  obtain ⟨hc, _, hpa⟩ :=
    SkyManager.run_inv env _ calls (SkyManager.create_inv moonScriptColor)
  obtain ⟨p1, p2, p3, p4⟩ := SkyManager.setWeather_particle env _ w hc hpa
  generalize SkyManager.setWeather env
    (SkyManager.run env (SkyManager.create SkyManager.new moonScriptColor) calls) w = s1
    at p1 p2 p3 p4 ⊢
  obtain ⟨i1, i2, i3, _⟩ := p2
  rw [p1] at i1 i2
  refine ⟨p1, i1, i2, i3, fun hw => ?_, p3, p4⟩
  have hn : s1.mParticleEffect = none := by
    cases he : s1.mParticleEffect with
    | none => rfl
    | some i =>
      have := i2.mp (by rw [he]; rfl)
      exact absurd hw this
  rw [List.eq_nil_iff_forall_not_mem]
  intro r hr
  have := i3 r hr
  rw [hn] at this
  exact absurd this (by simp)

/-- Witness of C16: a created sky that had clear weather and one frame, then
the ash storm with half blended clouds: the blend factor is 1/2; after the ash
storm and one frame the two opacities sum to 1. -/
theorem cloud_layers_blend_witness :
    (SkyManager.setWeather SkyManager.sampleEnvironment
      (SkyManager.run SkyManager.sampleEnvironment
        (SkyManager.create SkyManager.new ⟨1, 0, 0, 1⟩)
        [SkyManager.Call.setWeather SkyManager.sampleWeatherClear,
         SkyManager.Call.update 30 (1 / 60)])
      SkyManager.sampleWeather).mCloudBlendFactor = 1 / 2 ∧
    (SkyManager.run SkyManager.sampleEnvironment
        (SkyManager.create SkyManager.new ⟨1, 0, 0, 1⟩)
        [SkyManager.Call.setWeather SkyManager.sampleWeather,
         SkyManager.Call.update 30 (1 / 60)]).mCloudUpdater.mOpacity
      + (SkyManager.run SkyManager.sampleEnvironment
        (SkyManager.create SkyManager.new ⟨1, 0, 0, 1⟩)
        [SkyManager.Call.setWeather SkyManager.sampleWeather,
         SkyManager.Call.update 30 (1 / 60)]).mCloudUpdater2.mOpacity = 1 :=
  ⟨(SkyManager.cloud_layers_blend SkyManager.sampleEnvironment ⟨1, 0, 0, 1⟩
      [SkyManager.Call.setWeather SkyManager.sampleWeatherClear,
       SkyManager.Call.update 30 (1 / 60)] SkyManager.sampleWeather).2.2.2.2.2,
   (SkyManager.cloud_layers_blend SkyManager.sampleEnvironment ⟨1, 0, 0, 1⟩
      [SkyManager.Call.setWeather SkyManager.sampleWeather,
       SkyManager.Call.update 30 (1 / 60)] SkyManager.sampleWeather).2.2.2.1⟩

/-- Witness of C17: after clear weather and one frame, the ash storm makes
meshes/ashcloud.nif the current effect and an instance exists; going back to
clear weather empties the list of faders. -/
theorem setWeather_particle_effect_witness :
    (SkyManager.setWeather SkyManager.sampleEnvironment
      (SkyManager.run SkyManager.sampleEnvironment
        (SkyManager.create SkyManager.new ⟨1, 0, 0, 1⟩)
        [SkyManager.Call.setWeather SkyManager.sampleWeatherClear,
         SkyManager.Call.update 30 (1 / 60)])
      SkyManager.sampleWeather).mCurrentParticleEffect = "meshes/ashcloud.nif" ∧
    ((SkyManager.setWeather SkyManager.sampleEnvironment
      (SkyManager.run SkyManager.sampleEnvironment
        (SkyManager.create SkyManager.new ⟨1, 0, 0, 1⟩)
        [SkyManager.Call.setWeather SkyManager.sampleWeatherClear,
         SkyManager.Call.update 30 (1 / 60)])
      SkyManager.sampleWeather).mParticleEffect.isSome = true
      ↔ "meshes/ashcloud.nif" ≠ "") ∧
    ("" = "" →
      (SkyManager.setWeather SkyManager.sampleEnvironment
        (SkyManager.run SkyManager.sampleEnvironment
          (SkyManager.create SkyManager.new ⟨1, 0, 0, 1⟩)
          [SkyManager.Call.setWeather SkyManager.sampleWeather])
        SkyManager.sampleWeatherClear).mParticleFaders = []) :=
  ⟨(SkyManager.setWeather_particle_effect SkyManager.sampleEnvironment ⟨1, 0, 0, 1⟩
      [SkyManager.Call.setWeather SkyManager.sampleWeatherClear,
       SkyManager.Call.update 30 (1 / 60)] SkyManager.sampleWeather).1,
   (SkyManager.setWeather_particle_effect SkyManager.sampleEnvironment ⟨1, 0, 0, 1⟩
      [SkyManager.Call.setWeather SkyManager.sampleWeatherClear,
       SkyManager.Call.update 30 (1 / 60)] SkyManager.sampleWeather).2.2.1,
   (SkyManager.setWeather_particle_effect SkyManager.sampleEnvironment ⟨1, 0, 0, 1⟩
      [SkyManager.Call.setWeather SkyManager.sampleWeather]
      SkyManager.sampleWeatherClear).2.2.2.2.1⟩

end MWRender
